import Mathlib

/-! ARKLIGHTS motion-reactive lighting orchestrator

A shallow embedding of the orchestration code of `src/main.cpp`.

Conventions of the embedding:

* the global variables of the firmware are the fields of `State`, with the
  initial values of their C++ initialisers;
* a function that calls `millis()` takes the value it reads as the argument
  `now`; an `unsigned long` holds 32 bits on the ESP32, so differences of clock
  readings are taken modulo `2 ^ 32` (`usub32`);
* `float` quantities are exact rationals: the controllers only compare, scale
  and add them, and no statement below depends on rounding;
* a pixel buffer (`CRGB*`) is a list of `CRGB` values;
* `#if DEBUG_ENABLED` blocks and `Serial` output are omitted
  (`DEBUG_ENABLED` is `false` in `config.h`).
-/

namespace Arklights

/-! ## Machine arithmetic -/

/-- The number of values of an `unsigned long` (32 bits on the ESP32). -/
def ULONG_RANGE : Nat := 4294967296

/-- Unsigned 32-bit subtraction, `a - b` on two `unsigned long` values. -/
def usub32 (a b : Nat) : Nat :=
  (a % ULONG_RANGE + (ULONG_RANGE - b % ULONG_RANGE)) % ULONG_RANGE

/-- Modelled from the spec: the Arduino core function `map` is not part of the
sources; the spec says the speed "is mapped linearly", which is the documented
Arduino formula `(x - in_min) * (out_max - out_min) / (in_max - in_min) + out_min`
in integer arithmetic (division truncating towards zero). -/
def map (x in_min in_max out_min out_max : Int) : Int :=
  Int.tdiv ((x - in_min) * (out_max - out_min)) (in_max - in_min) + out_min

/-! ## Data model -/

/-- FastLED `CRGB`: one pixel, three 8-bit components. -/
structure CRGB where
  r : Nat
  g : Nat
  b : Nat
deriving DecidableEq, Repr

namespace CRGB
def Black : CRGB := ⟨0, 0, 0⟩
def White : CRGB := ⟨255, 255, 255⟩
def Red : CRGB := ⟨255, 0, 0⟩
def Blue : CRGB := ⟨0, 0, 255⟩
def Yellow : CRGB := ⟨255, 255, 0⟩
end CRGB

/-- `struct MotionData`: one inertial sample (acceleration in g, rate in deg/s). -/
structure MotionData where
  pitch : ℚ := 0
  roll : ℚ := 0
  yaw : ℚ := 0
  accelX : ℚ := 0
  accelY : ℚ := 0
  accelZ : ℚ := 0
  gyroX : ℚ := 0
  gyroY : ℚ := 0
  gyroZ : ℚ := 0
deriving DecidableEq, Repr

/-- `struct CalibrationData`: the five captured poses and the derived mapping. -/
structure CalibrationData where
  levelAccelX : ℚ := 0
  levelAccelY : ℚ := 0
  levelAccelZ : ℚ := 0
  forwardAccelX : ℚ := 0
  forwardAccelY : ℚ := 0
  forwardAccelZ : ℚ := 0
  backwardAccelX : ℚ := 0
  backwardAccelY : ℚ := 0
  backwardAccelZ : ℚ := 0
  leftAccelX : ℚ := 0
  leftAccelY : ℚ := 0
  leftAccelZ : ℚ := 0
  rightAccelX : ℚ := 0
  rightAccelY : ℚ := 0
  rightAccelZ : ℚ := 0
  forwardAxis : Char := 'X'
  leftRightAxis : Char := 'Y'
  forwardSign : Int := 1
  leftRightSign : Int := 1
  valid : Bool := false

/-- `ARKLIGHTS_FPS`. -/
def ARKLIGHTS_FPS : Nat := 42

/-- `FRAMETIME_FIXED`, the macro `(1000/ARKLIGHTS_FPS)` in integer arithmetic. -/
def FRAMETIME_FIXED : Nat := 1000 / ARKLIGHTS_FPS

/-- `struct EffectTiming`: the per-channel animation clock. -/
structure EffectTiming where
  lastFrame : Nat := 0
  frameTime : Nat := FRAMETIME_FIXED
  step : Nat := 0
  stepAccumulator : Nat := 0
  needsUpdate : Bool := false
deriving DecidableEq, Repr

/-- `struct BleFrame`: a decoded frame of the BLE protocol. -/
structure BleFrame where
  type : Nat := 0
  seq : Nat := 0
  flags : Nat := 0
  payload : List Nat := []
deriving DecidableEq, Repr

/-- Hidden state of the pixel renderer library: the `static` heat array of the
fire renderer and the state of the random number generator. -/
structure FxHidden where
  heat : List Nat := []
  seed : Nat := 0
deriving DecidableEq, Repr

def DIRECTION_SUSTAIN_TIME : Nat := 500
def DIRECTION_FADE_DURATION : Nat := 1500
def BRAKING_SUSTAIN_TIME : Nat := 200
def BRAKING_FLASH_INTERVAL : Nat := 200
def BRAKING_PULSE_DURATION : Nat := 300
def BRAKING_CYCLE_COUNT : Nat := 3
def FILTER_ALPHA : ℚ := 7 / 10
def calibrationTimeout : Nat := 30000

def FX_SOLID : Nat := 0
def FX_BREATH : Nat := 1
def FX_RAINBOW : Nat := 2
def FX_PULSE : Nat := 3
def FX_BLINK_RAINBOW : Nat := 4
def FX_GRADIENT_SHIFT : Nat := 5
def FX_FIRE : Nat := 6
def FX_METEOR : Nat := 7
def FX_WAVE : Nat := 8
def FX_CENTER_BURST : Nat := 9
def FX_CANDLE : Nat := 10
def FX_STATIC_RAINBOW : Nat := 11
def FX_KNIGHT_RIDER : Nat := 12
def FX_POLICE : Nat := 13
def FX_STROBE : Nat := 14
def FX_LARSON_SCANNER : Nat := 15
def FX_COLOR_WIPE : Nat := 16
def FX_HAZARD : Nat := 17
def FX_RUNNING_LIGHTS : Nat := 18
def FX_COLOR_SWEEP : Nat := 19
def FX_RAINBOW_KNIGHT_RIDER : Nat := 20
def FX_DUAL_KNIGHT_RIDER : Nat := 21
def FX_DUAL_RAINBOW_KNIGHT_RIDER : Nat := 22
def FX_RAINBOW_WIPE : Nat := 23

def BLE_MSG_SETTINGS_JSON : Nat := 1
def BLE_MSG_STATUS_REQUEST : Nat := 2
def BLE_MSG_STATUS_RESPONSE : Nat := 3
def BLE_MSG_OTA_START : Nat := 4
def BLE_MSG_OTA_STATUS : Nat := 5
def BLE_MSG_ACK : Nat := 126
def BLE_MSG_ERROR : Nat := 127
def BLE_FRAME_FLAG_ACK_REQUIRED : Nat := 1

/-- LED configuration globals and the two physical pixel buffers; `ledBrightness`
is the brightness held by FastLED (255 until `FastLED.setBrightness` is called). -/
structure LedVars where
  headlightLedCount : Nat := 11
  taillightLedCount : Nat := 11
  headlightLedType : Nat := 0
  taillightLedType : Nat := 0
  headlightColorOrder : Nat := 1
  taillightColorOrder : Nat := 1
  headlight : List CRGB := []
  taillight : List CRGB := []
  ledBrightness : Nat := 255

/-- Base lighting settings ("System state" globals). -/
structure BaseVars where
  globalBrightness : Nat := 128
  headlightEffect : Nat := FX_SOLID
  taillightEffect : Nat := FX_SOLID
  headlightColor : CRGB := CRGB.White
  taillightColor : CRGB := CRGB.Red
  headlightBackgroundEnabled : Bool := false
  taillightBackgroundEnabled : Bool := false
  headlightBackgroundColor : CRGB := CRGB.Black
  taillightBackgroundColor : CRGB := CRGB.Black
  effectBackgroundEnabled : Bool := false
  effectBackgroundColor : CRGB := CRGB.Black
  effectSpeed : Nat := 64
  headlightMode : Nat := 0

/-- Motion control settings. -/
structure MotionVars where
  motionEnabled : Bool := true
  blinkerEnabled : Bool := true
  parkModeEnabled : Bool := true
  impactDetectionEnabled : Bool := true
  motionSensitivity : ℚ := 1
  blinkerDelay : Nat := 300
  blinkerTimeout : Nat := 2000
  parkDetectionAngle : Nat := 15
  impactThreshold : Nat := 3
  lastMotionUpdate : Nat := 0
  lastImpactTime : Nat := 0

/-- Park mode settings and state. -/
structure ParkVars where
  parkAccelNoiseThreshold : ℚ := 1 / 20
  parkGyroNoiseThreshold : ℚ := 5 / 2
  parkStationaryTime : Nat := 2000
  parkEffect : Nat := FX_BREATH
  parkEffectSpeed : Nat := 64
  parkHeadlightColor : CRGB := CRGB.Blue
  parkTaillightColor : CRGB := CRGB.Blue
  parkBrightness : Nat := 128
  parkModeActive : Bool := false
  parkStartTime : Nat := 0

/-- Blinker state; `blinkState` and `lastBlinkTime` are the `static` locals of
`showBlinkerEffect`. -/
structure BlinkerVars where
  blinkerActive : Bool := false
  blinkerDirection : Int := 0
  blinkerStartTime : Nat := 0
  manualBlinkerActive : Bool := false
  blinkState : Bool := false
  lastBlinkTime : Nat := 0

/-- Direction detection state. -/
structure DirectionVars where
  directionBasedLighting : Bool := false
  isMovingForward : Bool := true
  directionChangePending : Bool := false
  forwardAccelThreshold : ℚ := 3 / 10
  directionChangeDetectedTime : Nat := 0
  directionFadeStartTime : Nat := 0
  directionFadeProgress : ℚ := 0
  filteredForwardAccel : ℚ := 0

/-- Braking detection state. -/
structure BrakingVars where
  brakingEnabled : Bool := false
  brakingActive : Bool := false
  manualBrakeActive : Bool := false
  brakingThreshold : ℚ := -(1 / 2)
  brakingDetectedTime : Nat := 0
  brakingStartTime : Nat := 0
  brakingEffect : Nat := 0
  brakingBrightness : Nat := 255
  brakingFlashCount : Nat := 0
  brakingPulseCount : Nat := 0
  lastBrakingFlash : Nat := 0
  lastBrakingPulse : Nat := 0

/-- Calibration system globals. -/
structure CalibrationVars where
  calibrationMode : Bool := false
  calibrationComplete : Bool := false
  calibrationStep : Nat := 0
  calibrationStartTime : Nat := 0
  calibration : CalibrationData := {}

/-- Animation clocks, and the `static` locals of `updateEffects`
(`headlightOld`, `taillightOld`, `arraysInitialized`, `fadeStateSaved`). -/
structure ComposerVars where
  headlightTiming : EffectTiming := {}
  taillightTiming : EffectTiming := {}
  lastUpdate : Nat := 0
  headlightOld : List CRGB := []
  taillightOld : List CRGB := []
  arraysInitialized : Bool := false
  fadeStateSaved : Bool := false
  fxHidden : FxHidden := {}

/-- The deferred BLE settings hand-off; `bleSent` lists the frames passed to
`sendBleFrame` so far, oldest first, as type, sequence number and payload. -/
structure BleVars where
  blePendingJson : List Nat := []
  blePendingApply : Bool := false
  blePendingStatusRequest : Bool := false
  blePendingStatusSeq : Nat := 0
  blePendingOtaStatusRequest : Bool := false
  blePendingOtaStatusSeq : Nat := 0
  bleRxBuffer : List Nat := []
  bleSent : List BleFrame := []

/-- The global variables of `main.cpp` that the orchestrator reads and writes,
with the values of their initialisers, grouped by subsystem. -/
structure State extends LedVars, BaseVars, MotionVars, ParkVars, BlinkerVars,
  DirectionVars, BrakingVars, CalibrationVars, ComposerVars, BleVars

/-- The state after static initialisation, before `setup()` has run. -/
def initialState : State := {}

/-! ## Motion classifier -/

/-- `getCalibratedForwardAccel`. -/
def getCalibratedForwardAccel (c : CalibrationData) (data : MotionData) : ℚ :=
  if c.valid = false then data.accelX
  else if c.forwardAxis = 'X' then data.accelX * c.forwardSign
  else if c.forwardAxis = 'Y' then data.accelY * c.forwardSign
  else if c.forwardAxis = 'Z' then data.accelZ * c.forwardSign
  else data.accelX

/-- `getCalibratedLeftRightAccel`. -/
def getCalibratedLeftRightAccel (c : CalibrationData) (data : MotionData) : ℚ :=
  if c.valid = false then data.accelY
  else if c.leftRightAxis = 'X' then data.accelX * c.leftRightSign
  else if c.leftRightAxis = 'Y' then data.accelY * c.leftRightSign
  else if c.leftRightAxis = 'Z' then data.accelZ * c.leftRightSign
  else data.accelY

/-! ## Direction controller -/

/-- The low-pass filtered forward acceleration that `processDirectionDetection`
computes from the stored filter value and the sample (its first statements). -/
def filteredForward (s : State) (data : MotionData) : ℚ :=
  FILTER_ALPHA * s.filteredForwardAccel
    + (1 - FILTER_ALPHA)
      * (if s.calibration.valid then getCalibratedForwardAccel s.calibration data
         else data.accelX)

/-- `processDirectionDetection`, one classifier tick of the direction
controller at clock reading `now`. -/
def processDirectionDetection (s : State) (now : Nat) (data : MotionData) : State :=
  if s.directionBasedLighting = false ∨ s.motionEnabled = false then s
  else
    let forwardAccel := filteredForward s data
    let s1 := { s with filteredForwardAccel := forwardAccel }
    let forwardThreshold :=
      if s.isMovingForward then s.forwardAccelThreshold
      else s.forwardAccelThreshold * (7 / 10)
    let backwardThreshold :=
      if s.isMovingForward then -s.forwardAccelThreshold * (7 / 10)
      else -s.forwardAccelThreshold
    let desiredForward : Bool := decide (forwardAccel > forwardThreshold)
    let desiredBackward : Bool := decide (forwardAccel < backwardThreshold)
    if s.directionChangePending then
      let fadeElapsed := usub32 now s.directionFadeStartTime
      if fadeElapsed < DIRECTION_FADE_DURATION then
        let p : ℚ := (fadeElapsed : ℚ) / (DIRECTION_FADE_DURATION : ℚ)
        { s1 with directionFadeProgress := if p > 1 then 1 else p }
      else if s.directionFadeProgress < 1 then
        { s1 with directionFadeProgress := 1 }
      else
        { s1 with
          isMovingForward := !s.isMovingForward
          directionChangePending := false
          directionFadeProgress := 0
          directionChangeDetectedTime := 0 }
    else
      let needsChange : Bool :=
        (s.isMovingForward && desiredBackward) || (!s.isMovingForward && desiredForward)
      if needsChange then
        if s.directionChangeDetectedTime = 0 then
          { s1 with directionChangeDetectedTime := now }
        else if usub32 now s.directionChangeDetectedTime ≥ DIRECTION_SUSTAIN_TIME then
          { s1 with
            directionChangePending := true
            directionFadeStartTime := now
            directionFadeProgress := 0 }
        else s1
      else if s.directionChangeDetectedTime > 0 then
        { s1 with directionChangeDetectedTime := 0 }
      else s1

/-- A run of classifier ticks: each element is the clock reading and the sample
of one `processDirectionDetection` call. -/
def runDirection (s : State) (ticks : List (Nat × MotionData)) : State :=
  ticks.foldl (fun st t => processDirectionDetection st t.1 t.2) s

/-- The state before tick number `k` of a run (after its first `k` ticks). -/
def directionStateAt (s : State) (ticks : List (Nat × MotionData)) (k : Nat) : State :=
  runDirection s (ticks.take k)


/-- The acceleration `a` calls for a change of direction: the test `needsChange`
of `processDirectionDetection`, with the hysteresis factor 0.7 on the threshold
`thr` for leaving the current direction `fwd`. -/
def Opposes (fwd : Bool) (thr a : ℚ) : Prop :=
  if fwd then a < -thr * (7 / 10) else a > thr * (7 / 10)

instance (fwd : Bool) (thr a : ℚ) : Decidable (Opposes fwd thr a) := by
  unfold Opposes; infer_instance

/-- A stable Forward state with direction-based lighting switched on. -/
def forwardStart : State := { initialState with directionBasedLighting := true }

/-- A sample with 1 g of backward acceleration on the raw X axis. -/
def backwardSample : MotionData := { accelX := -1 }

/-- Four classifier ticks with sustained backward acceleration. -/
def sustainedTicks : List (Nat × MotionData) :=
  [(1000, backwardSample), (1100, backwardSample), (1300, backwardSample),
   (1700, backwardSample)]

/-- A state in the middle of a fade that started at clock reading 1700. -/
def fadingState : State :=
  { forwardStart with
    directionChangePending := true
    directionChangeDetectedTime := 1000
    directionFadeStartTime := 1700
    directionFadeProgress := 14 / 15 }

/-- `shouldUpdateEffect`: returns the `fired` flag and the updated
`EffectTiming`.  `step` and `stepAccumulator` are `uint16_t` and wrap modulo
`2 ^ 16`; `stepIncrement` is the `uint16_t` result of `map`. -/
def shouldUpdateEffect (timing : EffectTiming) (now : Nat) (speed : Nat) (length : Nat) :
    Bool × EffectTiming :=
  let t1 : EffectTiming := { timing with frameTime := FRAMETIME_FIXED }
  if usub32 now t1.lastFrame ≥ t1.frameTime then
    let stepIncrement : Nat := ((map speed 0 255 10 800) % 65536).toNat
    let acc : Nat := (t1.stepAccumulator + stepIncrement) % 65536
    if acc ≥ 100 then
      (true, { t1 with
        lastFrame := now
        step := (t1.step + acc / 100) % 65536
        stepAccumulator := acc % 100 })
    else
      (true, { t1 with lastFrame := now, stepAccumulator := acc })
  else (false, t1)

/-- A sequence of `shouldUpdateEffect` calls on one `EffectTiming`; each call is
given as clock reading, speed and length.  The result is the clock after them. -/
def runClock (timing : EffectTiming) (calls : List (Nat × Nat × Nat)) : EffectTiming :=
  calls.foldl (fun t c => (shouldUpdateEffect t c.1 c.2.1 c.2.2).2) timing

/-- The clock before call number `k` of a sequence. -/
def clockAt (timing : EffectTiming) (calls : List (Nat × Nat × Nat)) (k : Nat) : EffectTiming :=
  runClock timing (calls.take k)

/-- The `fired` flag returned by call number `k` of a sequence (`false` past its end). -/
def firedAt (timing : EffectTiming) (calls : List (Nat × Nat × Nat)) (k : Nat) : Bool :=
  match calls[k]? with
  | some c => (shouldUpdateEffect (clockAt timing calls k) c.1 c.2.1 c.2.2).1
  | none => false

/-- The outputs of a sequence of calls: the `fired` flag of each call and the
value of `step` after it. -/
def clockStream (timing : EffectTiming) : List (Nat × Nat × Nat) → List (Bool × Nat)
  | [] => []
  | c :: rest =>
    ((shouldUpdateEffect timing c.1 c.2.1 c.2.2).1,
      (shouldUpdateEffect timing c.1 c.2.1 c.2.2).2.step)
      :: clockStream (shouldUpdateEffect timing c.1 c.2.1 c.2.2).2 rest

/-- Five calls at speed 64 on a 20-pixel channel. -/
def clockCalls : List (Nat × Nat × Nat) :=
  [(100, 64, 20), (110, 64, 20), (123, 64, 20), (130, 64, 20), (150, 64, 20)]

/-! ## Calibrator -/

/-- `completeCalibration`: choose the forward and the left/right axis and sign
from the captured poses.  (`saveSettings()` writes to persistent storage only.) -/
def completeCalibration (s : State) : State :=
  let c := s.calibration
  let forwardX := |c.forwardAccelX - c.backwardAccelX|
  let forwardY := |c.forwardAccelY - c.backwardAccelY|
  let forwardZ := |c.forwardAccelZ - c.backwardAccelZ|
  let c1 : CalibrationData :=
    if forwardX > forwardY ∧ forwardX > forwardZ then
      { c with
        forwardAxis := 'X'
        forwardSign := if c.forwardAccelX > c.backwardAccelX then 1 else -1 }
    else if forwardY > forwardZ then
      { c with
        forwardAxis := 'Y'
        forwardSign := if c.forwardAccelY > c.backwardAccelY then 1 else -1 }
    else
      { c with
        forwardAxis := 'Z'
        forwardSign := if c.forwardAccelZ > c.backwardAccelZ then 1 else -1 }
  let leftRightX := |c.leftAccelX - c.rightAccelX|
  let leftRightY := |c.leftAccelY - c.rightAccelY|
  let leftRightZ := |c.leftAccelZ - c.rightAccelZ|
  let c2 : CalibrationData :=
    if leftRightX > leftRightY ∧ leftRightX > leftRightZ then
      { c1 with
        leftRightAxis := 'X'
        leftRightSign := if c.leftAccelX > c.rightAccelX then 1 else -1 }
    else if leftRightY > leftRightZ then
      { c1 with
        leftRightAxis := 'Y'
        leftRightSign := if c.leftAccelY > c.rightAccelY then 1 else -1 }
    else
      { c1 with
        leftRightAxis := 'Z'
        leftRightSign := if c.leftAccelZ > c.rightAccelZ then 1 else -1 }
  { s with
    calibration := { c2 with valid := true }
    calibrationMode := false
    calibrationComplete := true }

/-- The component of `(x, y, z)` on the axis named `axis`. -/
def axisValue (axis : Char) (x y z : ℚ) : ℚ :=
  if axis = 'X' then x else if axis = 'Y' then y else z

/-- Forward-minus-Backward acceleration delta of the captured poses on `axis`. -/
def forwardDelta (c : CalibrationData) (axis : Char) : ℚ :=
  axisValue axis (c.forwardAccelX - c.backwardAccelX) (c.forwardAccelY - c.backwardAccelY)
    (c.forwardAccelZ - c.backwardAccelZ)

/-- Left-minus-Right acceleration delta of the captured poses on `axis`. -/
def leftRightDelta (c : CalibrationData) (axis : Char) : ℚ :=
  axisValue axis (c.leftAccelX - c.rightAccelX) (c.leftAccelY - c.rightAccelY)
    (c.leftAccelZ - c.rightAccelZ)

/-- The sign of a number as the spec uses the word: +1, -1, and 0 for zero. -/
def signOfDelta (x : ℚ) : Int := if x > 0 then 1 else if x < 0 then -1 else 0

/-- The poses of the spec's calibration example: forward (0.1, 0.05, 0.9),
backward (-0.1, 0.0, 0.85). -/
def examplePoses : State :=
  { initialState with
    calibration :=
      { forwardAccelX := 1 / 10, forwardAccelY := 1 / 20, forwardAccelZ := 9 / 10
        backwardAccelX := -(1 / 10), backwardAccelY := 0, backwardAccelZ := 17 / 20 } }

/-! ## Pixel helpers -/

/-- The pixel renderer library and the heap, as far as the orchestrator depends
on them.  `render effect` is the renderer `applyEffectToArray` selects for the
effect id (the `effect...Improved` functions, which use FastLED arithmetic):
from the hidden library state, the buffer it is handed, the pixel count, the
colour, the step and the effect background colour it gives the new hidden state
and buffer.  `brakePulse pulseElapsed targetCount brakingBrightness` are the
`targetCount` pixels the pulse phase of `showBrakingEffect` draws (cleared strip
with the sine-shaped red pulse around the centre), before colour-order
conversion.  `freshArray n` is the content of a `new CRGB[n]`, which C++ leaves
uninitialised. -/
structure FxLib where
  render : Nat → FxHidden → List CRGB → Nat → CRGB → Nat → CRGB → FxHidden × List CRGB
  brakePulse : Nat → Nat → Nat → List CRGB
  freshArray : Nat → List CRGB

/-- FastLED `fill_solid`: the first `numLeds` pixels become `color`. -/
def fill_solid (leds : List CRGB) (numLeds : Nat) (color : CRGB) : List CRGB :=
  List.replicate numLeds color ++ leds.drop numLeds

/-- `memcpy(dest, src, n * sizeof(CRGB))`. -/
def memcpyLeds (dest src : List CRGB) (n : Nat) : List CRGB :=
  src.take n ++ dest.drop n

/-- `convertColorOrder`. -/
def convertColorOrder (color : CRGB) (colorOrder : Nat) : CRGB :=
  if colorOrder = 0 then color
  else if colorOrder = 1 then ⟨color.g, color.r, color.b⟩
  else if colorOrder = 2 then ⟨color.b, color.g, color.r⟩
  else color

/-- `fillSolidWithColorOrder`. -/
def fillSolidWithColorOrder (leds : List CRGB) (numLeds : Nat) (color : CRGB)
    (ledType colorOrder : Nat) : List CRGB :=
  if ledType = 0 then fill_solid leds numLeds (convertColorOrder color colorOrder)
  else fill_solid leds numLeds color

/-- `applyColorOrderToArray`. -/
def applyColorOrderToArray (leds : List CRGB) (numLeds : Nat) (ledType colorOrder : Nat) :
    List CRGB :=
  if ledType = 0 then
    (leds.take numLeds).map (fun c => convertColorOrder c colorOrder) ++ leds.drop numLeds
  else leds

/-! ## Single-precision arithmetic

The colour blend of the direction fade and the stationarity test of the park
controller compute in `float`, and their results depend on the rounding.  A
`float` value is held as a rational number; an operation on `float` operands
returns the exact result rounded to the nearest `float`, ties to even (IEEE 754
binary32: 24-bit significand, binary exponents -126 to 127, multiples of
`2 ^ -149` below `2 ^ -126`); each operation is rounded on its own.  A magnitude of `2 ^ 128` or more, which a `float`
holds as infinity, stays a number of that magnitude here. -/

/-- `2 ^ e` for an integer exponent `e`. -/
def pow2 (e : Int) : ℚ :=
  if 0 ≤ e then ((2 ^ e.toNat : Nat) : ℚ) else 1 / ((2 ^ (-e).toNat : Nat) : ℚ)

/-- Search downwards from `e`, at most `n` steps, for an exponent with
`2 ^ e ≤ x`. -/
def exponentFrom : Nat → Int → ℚ → Int
  | 0, e, _ => e
  | n + 1, e, x => if pow2 e ≤ x then e else exponentFrom n (e - 1) x

/-- The binary exponent of the `float` nearest to a magnitude `x`: the largest
`e` in `-126 .. 127` with `2 ^ e ≤ x`, and `-126` when there is none (zero and
the subnormal range). -/
def floatExponent (x : ℚ) : Int := exponentFrom 253 127 x

/-- Rounding to the nearest integer, ties to the even one. -/
def roundHalfEven (x : ℚ) : Int :=
  if x - ⌊x⌋ < 1 / 2 then ⌊x⌋
  else if x - ⌊x⌋ > 1 / 2 then ⌊x⌋ + 1
  else if ⌊x⌋ % 2 = 0 then ⌊x⌋ else ⌊x⌋ + 1

/-- The `float` nearest to a magnitude `x ≥ 0`: `x` rounded to a multiple of the
unit in the last place `2 ^ (e - 23)` of its binade. -/
def roundMagnitude (x : ℚ) : ℚ :=
  (roundHalfEven (x / pow2 (floatExponent x - 23)) : ℚ) * pow2 (floatExponent x - 23)

/-- The `float` nearest to `x` (round to nearest, ties to even). -/
def roundFloat (x : ℚ) : ℚ :=
  if x < 0 then -roundMagnitude (-x) else roundMagnitude x

/-- The bitwise integer square root: the bits of the root are tried from bit
`k - 1` down to bit 0. -/
def natSqrtBits : Nat → Nat → Nat → Nat
  | 0, _, r => r
  | k + 1, n, r => if (r + 2 ^ k) * (r + 2 ^ k) ≤ n then natSqrtBits k n (r + 2 ^ k)
      else natSqrtBits k n r

/-- The integer square root `floor (sqrt n)` of `n < 2 ^ 48`. -/
def natSqrt (n : Nat) : Nat := natSqrtBits 24 n 0

/-- Search downwards from `e`, at most `n` steps, for an exponent with
`4 ^ e ≤ x`. -/
def sqrtExponentFrom : Nat → Int → ℚ → Int
  | 0, e, _ => e
  | n + 1, e, x => if pow2 (2 * e) ≤ x then e else sqrtExponentFrom n (e - 1) x

/-- The `float` nearest to `sqrt x` for a `float` `x`, the result of `sqrt`:
0 for `x ≤ 0` and `x` itself for an infinite `x`; otherwise the root is located
in its binade, `2 ^ e ≤ sqrt x < 2 ^ (e + 1)`, and rounded to a multiple of
`u = 2 ^ (e - 23)`: `k` is the integer part of `sqrt x / u`, and comparing
`x / u ^ 2` with `(k + 1/2) ^ 2` decides between `k` and `k + 1`, ties to the
even one. -/
def sqrtFloat (x : ℚ) : ℚ :=
  if x ≤ 0 then 0
  else if pow2 128 ≤ x then x
  else
    let u := pow2 (sqrtExponentFrom 138 63 x - 23)
    let q := x / (u * u)
    let k := natSqrt ⌊q⌋.toNat
    let h : ℚ := ((k : ℚ) + 1 / 2) * ((k : ℚ) + 1 / 2)
    let m : Nat := if q < h then k else if q > h then k + 1 else if k % 2 = 0 then k else k + 1
    (m : ℚ) * u

/-- One colour component of `blendLEDArrays`:
`(uint8_t)constrain(a + (b - a) * fadeProgress, 0, 255)` with the sum held in a
`float`.  `b - a` is an `int`; `fadeProgress` is a `float`, the one nearest to
`p`; the `int` operands are converted to `float`, and the product and the sum
are `float` operations. -/
def blendChannel (a b : Nat) (p : ℚ) : Nat :=
  let r : ℚ :=
    roundFloat (roundFloat (a : ℚ) + roundFloat (roundFloat ((b : ℚ) - (a : ℚ)) * roundFloat p))
  let c : ℚ := if r < 0 then 0 else if r > 255 then 255 else r
  (Int.toNat ⌊c⌋) % 256

/-- `blendLEDArrays`: blend `source1` (old) into `source2` (new) by `fadeProgress`,
writing the first `numLeds` pixels of `target`. -/
def blendLEDArrays (target source1 source2 : List CRGB) (numLeds : Nat) (fadeProgress : ℚ) :
    List CRGB :=
  (List.range numLeds).map (fun i =>
    ({ r := blendChannel (source1.getD i CRGB.Black).r (source2.getD i CRGB.Black).r fadeProgress
       g := blendChannel (source1.getD i CRGB.Black).g (source2.getD i CRGB.Black).g fadeProgress
       b := blendChannel (source1.getD i CRGB.Black).b (source2.getD i CRGB.Black).b fadeProgress }
      : CRGB))
    ++ target.drop numLeds

/-- `getEffectBackgroundColor`. -/
def getEffectBackgroundColor (s : State) : CRGB :=
  if s.effectBackgroundEnabled then s.effectBackgroundColor else CRGB.Black

/-- `effectPoliceImproved`. -/
def effectPoliceImproved (leds : List CRGB) (numLeds : Nat) (step : Nat) : List CRGB :=
  let flashState : Bool := (step / 10) % 2 != 0
  (List.range numLeds).map (fun i =>
    if flashState then (if i % 2 != 0 then CRGB.Red else CRGB.Blue)
    else (if i % 2 != 0 then CRGB.Blue else CRGB.Red))
    ++ leds.drop numLeds

/-- `effectStrobeImproved`; `bg` is the value of `getEffectBackgroundColor()`. -/
def effectStrobeImproved (leds : List CRGB) (numLeds : Nat) (color : CRGB) (step : Nat)
    (bg : CRGB) : List CRGB :=
  let strobeState : Bool := (step / 5) % 2 != 0
  if strobeState then fill_solid leds numLeds color else fill_solid leds numLeds bg

/-- The renderer call of one `case` of the effect switches: the police and strobe
renderers are embedded, the others are taken from the library. -/
def renderEffect (lib : FxLib) (effect : Nat) (h : FxHidden) (leds : List CRGB)
    (numLeds : Nat) (color : CRGB) (step : Nat) (bg : CRGB) : FxHidden × List CRGB :=
  if effect = FX_POLICE then (h, effectPoliceImproved leds numLeds step)
  else if effect = FX_STROBE then (h, effectStrobeImproved leds numLeds color step bg)
  else lib.render effect h leds numLeds color step bg

/-- The effect ids, other than `FX_SOLID`, that have a `case` in the switch of
`applyEffectToArray`, in source order. -/
def applyEffectCases : List Nat :=
  [FX_BREATH, FX_RAINBOW, FX_PULSE, FX_BLINK_RAINBOW, FX_GRADIENT_SHIFT, FX_FIRE, FX_METEOR,
   FX_WAVE, FX_CENTER_BURST, FX_CANDLE, FX_STATIC_RAINBOW, FX_KNIGHT_RIDER, FX_POLICE,
   FX_STROBE, FX_LARSON_SCANNER, FX_COLOR_WIPE, FX_RAINBOW_WIPE, FX_HAZARD, FX_RUNNING_LIGHTS,
   FX_COLOR_SWEEP, FX_RAINBOW_KNIGHT_RIDER, FX_DUAL_KNIGHT_RIDER, FX_DUAL_RAINBOW_KNIGHT_RIDER]

/-- The effect ids, other than `FX_SOLID`, that have a `case` in the switch of
`showParkEffect`, in source order. -/
def parkEffectCases : List Nat :=
  [FX_BREATH, FX_RAINBOW, FX_PULSE, FX_BLINK_RAINBOW, FX_GRADIENT_SHIFT, FX_FIRE, FX_METEOR,
   FX_WAVE, FX_CENTER_BURST, FX_CANDLE, FX_STATIC_RAINBOW, FX_KNIGHT_RIDER, FX_POLICE,
   FX_STROBE, FX_LARSON_SCANNER, FX_COLOR_WIPE, FX_HAZARD, FX_RUNNING_LIGHTS,
   FX_COLOR_SWEEP, FX_RAINBOW_KNIGHT_RIDER, FX_DUAL_KNIGHT_RIDER, FX_DUAL_RAINBOW_KNIGHT_RIDER]

/-- `applyEffectToArray`: returns the state (effect background globals, hidden
library state) and the array it was handed. -/
def applyEffectToArray (lib : FxLib) (s : State) (leds : List CRGB) (numLeds effect : Nat)
    (color : CRGB) (timing : EffectTiming) (ledType colorOrder : Nat)
    (backgroundColor : CRGB) (backgroundEnabled : Bool) : State × List CRGB :=
  let s1 : State :=
    { s with effectBackgroundEnabled := backgroundEnabled, effectBackgroundColor := backgroundColor }
  if effect = FX_SOLID then
    (s1, fillSolidWithColorOrder leds numLeds color ledType colorOrder)
  else if effect ∈ applyEffectCases then
    let r := renderEffect lib effect s1.fxHidden leds numLeds color timing.step
      (getEffectBackgroundColor s1)
    ({ s1 with fxHidden := r.1 }, applyColorOrderToArray r.2 numLeds ledType colorOrder)
  else
    (s1, applyColorOrderToArray leds numLeds ledType colorOrder)

/-! ## Overlays -/

/-- `showParkEffect`.  The temporary assignment `effectSpeed = parkEffectSpeed`
is undone before the function returns and no renderer called in between reads
`effectSpeed`, so `effectSpeed` is left as it is. -/
def showParkEffect (lib : FxLib) (s : State) : State :=
  let s1 : State := { s with ledBrightness := s.parkBrightness }
  if s1.parkEffect = FX_SOLID then
    { s1 with
      headlight := fillSolidWithColorOrder s1.headlight s1.headlightLedCount
        s1.parkHeadlightColor s1.headlightLedType s1.headlightColorOrder
      taillight := fillSolidWithColorOrder s1.taillight s1.taillightLedCount
        s1.parkTaillightColor s1.taillightLedType s1.taillightColorOrder }
  else if s1.parkEffect ∈ parkEffectCases then
    let rh := renderEffect lib s1.parkEffect s1.fxHidden s1.headlight s1.headlightLedCount
      s1.parkHeadlightColor s1.headlightTiming.step (getEffectBackgroundColor s1)
    let rt := renderEffect lib s1.parkEffect rh.1 s1.taillight s1.taillightLedCount
      s1.parkTaillightColor s1.taillightTiming.step (getEffectBackgroundColor s1)
    { s1 with
      fxHidden := rt.1
      headlight := applyColorOrderToArray rh.2 s1.headlightLedCount s1.headlightLedType
        s1.headlightColorOrder
      taillight := applyColorOrderToArray rt.2 s1.taillightLedCount s1.taillightLedType
        s1.taillightColorOrder }
  else
    { s1 with
      headlight := applyColorOrderToArray s1.headlight s1.headlightLedCount s1.headlightLedType
        s1.headlightColorOrder
      taillight := applyColorOrderToArray s1.taillight s1.taillightLedCount s1.taillightLedType
        s1.taillightColorOrder }

/-- Write `leds` back to the rear-role buffer (`targetLights` of
`showBrakingEffect`): the taillight when moving forward, else the headlight. -/
def setTargetLights (s : State) (leds : List CRGB) : State :=
  if s.isMovingForward then { s with taillight := leds } else { s with headlight := leds }

/-- `showBrakingEffect` at clock reading `now`. -/
def showBrakingEffect (lib : FxLib) (s : State) (now : Nat) : State :=
  if s.brakingActive = false then s
  else
    let targetLights := if s.isMovingForward then s.taillight else s.headlight
    let targetCount := if s.isMovingForward then s.taillightLedCount else s.headlightLedCount
    let targetLedType := if s.isMovingForward then s.taillightLedType else s.headlightLedType
    let targetColorOrder :=
      if s.isMovingForward then s.taillightColorOrder else s.headlightColorOrder
    if s.brakingEffect = 0 then
      if s.brakingFlashCount < BRAKING_CYCLE_COUNT then
        let flashElapsed := usub32 now s.lastBrakingFlash
        let flashOn : Bool :=
          decide (flashElapsed % (BRAKING_FLASH_INTERVAL * 2) < BRAKING_FLASH_INTERVAL)
        let s1 : State :=
          if flashOn then
            setTargetLights { s with ledBrightness := s.brakingBrightness }
              (fillSolidWithColorOrder targetLights targetCount CRGB.Red targetLedType
                targetColorOrder)
          else
            setTargetLights s
              (fillSolidWithColorOrder targetLights targetCount CRGB.Black targetLedType
                targetColorOrder)
        if flashElapsed ≥ BRAKING_FLASH_INTERVAL * 2 then
          { s1 with
            brakingFlashCount := (s.brakingFlashCount + 1) % 256
            lastBrakingFlash := now }
        else s1
      else
        setTargetLights { s with ledBrightness := s.brakingBrightness }
          (fillSolidWithColorOrder targetLights targetCount CRGB.Red targetLedType
            targetColorOrder)
    else
      if s.brakingPulseCount < BRAKING_CYCLE_COUNT then
        let pulseElapsed := usub32 now s.lastBrakingPulse % BRAKING_PULSE_DURATION
        let drawn := memcpyLeds targetLights
          (lib.brakePulse pulseElapsed targetCount s.brakingBrightness) targetCount
        let s1 : State :=
          setTargetLights s
            (applyColorOrderToArray drawn targetCount targetLedType targetColorOrder)
        if pulseElapsed < 50 ∧ usub32 now s.lastBrakingPulse ≥ BRAKING_PULSE_DURATION then
          { s1 with
            brakingPulseCount := (s.brakingPulseCount + 1) % 256
            lastBrakingPulse := now }
        else s1
      else
        setTargetLights { s with ledBrightness := s.brakingBrightness }
          (fillSolidWithColorOrder targetLights targetCount CRGB.Red targetLedType
            targetColorOrder)

/-- Overwrite the pixels with index in `[lo, hi)` by `color` (the loops of
`showBlinkerEffect`). -/
def setRange (leds : List CRGB) (lo hi : Nat) (color : CRGB) : List CRGB :=
  leds.enum.map (fun p => if lo ≤ p.1 ∧ p.1 < hi then color else p.2)

/-- `showBlinkerEffect` at clock reading `now`. -/
def showBlinkerEffect (s : State) (now : Nat) (direction : Int) : State :=
  let s1 : State :=
    if usub32 now s.lastBlinkTime > 500 then
      { s with blinkState := !s.blinkState, lastBlinkTime := now }
    else s
  if s1.blinkState = false then s1
  else
    let headlightHalf := s1.headlightLedCount / 2
    let taillightHalf := s1.taillightLedCount / 2
    if direction > 0 then
      { s1 with
        headlight := setRange s1.headlight headlightHalf s1.headlightLedCount CRGB.Yellow
        taillight := setRange s1.taillight 0 taillightHalf CRGB.Yellow }
    else
      { s1 with
        headlight := setRange s1.headlight 0 headlightHalf CRGB.Yellow
        taillight := setRange s1.taillight taillightHalf s1.taillightLedCount CRGB.Yellow }

/-! ## Layer composer -/

/-- The fade branch of the direction-based block of `updateEffects`
(`directionChangePending` with progress in `[0, 1]`); `frontUpdate` and
`backUpdate` are the fired flags of the clocks in their current roles. -/
def renderDirectionFade (lib : FxLib) (s : State) (frontUpdate backUpdate : Bool) : State :=
  let newDirection : Bool := !s.isMovingForward
  -- save the displayed frame on the first frame of the fade
  let s1 : State :=
    if s.directionFadeProgress = 0 ∧ s.fadeStateSaved = false then
      { s with
        headlightOld := memcpyLeds s.headlightOld s.headlight s.headlightLedCount
        taillightOld := memcpyLeds s.taillightOld s.taillight s.taillightLedCount
        fadeStateSaved := true }
    else s
  let newFrontCount := if newDirection then s1.headlightLedCount else s1.taillightLedCount
  let newBackCount := if newDirection then s1.taillightLedCount else s1.headlightLedCount
  let newFrontLedType := if newDirection then s1.headlightLedType else s1.taillightLedType
  let newBackLedType := if newDirection then s1.taillightLedType else s1.headlightLedType
  let newFrontColorOrder :=
    if newDirection then s1.headlightColorOrder else s1.taillightColorOrder
  let newBackColorOrder :=
    if newDirection then s1.taillightColorOrder else s1.headlightColorOrder
  let newFrontTiming := if newDirection then s1.headlightTiming else s1.taillightTiming
  let newBackTiming := if newDirection then s1.taillightTiming else s1.headlightTiming
  let newFrontTemp0 := lib.freshArray newFrontCount
  let newBackTemp0 := lib.freshArray newBackCount
  -- render the new role assignment into the temporary arrays
  let rendered : State × List CRGB × List CRGB :=
    if frontUpdate || backUpdate then
      let front : State × List CRGB :=
        if s1.headlightMode = 0 then
          (s1, fillSolidWithColorOrder newFrontTemp0 newFrontCount CRGB.White newFrontLedType
            newFrontColorOrder)
        else
          applyEffectToArray lib s1 newFrontTemp0 newFrontCount s1.headlightEffect
            s1.headlightColor newFrontTiming newFrontLedType newFrontColorOrder
            s1.headlightBackgroundColor s1.headlightBackgroundEnabled
      let back : State × List CRGB :=
        applyEffectToArray lib front.1 newBackTemp0 newBackCount front.1.taillightEffect
          front.1.taillightColor newBackTiming newBackLedType newBackColorOrder
          front.1.taillightBackgroundColor front.1.taillightBackgroundEnabled
      (back.1, front.2, back.2)
    else (s1, newFrontTemp0, newBackTemp0)
  let s2 := rendered.1
  let newFrontTemp := rendered.2.1
  let newBackTemp := rendered.2.2
  let newHeadlightEffect := if newDirection then newFrontTemp else newBackTemp
  let newTaillightEffect := if newDirection then newBackTemp else newFrontTemp
  let newHeadlightCount := if newDirection then newFrontCount else newBackCount
  let newTaillightCount := if newDirection then newBackCount else newFrontCount
  { s2 with
    headlight := blendLEDArrays s2.headlight s2.headlightOld newHeadlightEffect
      newHeadlightCount s2.directionFadeProgress
    taillight := blendLEDArrays s2.taillight s2.taillightOld newTaillightEffect
      newTaillightCount s2.directionFadeProgress }

/-- The normal branch of the direction-based block of `updateEffects`: base
effects rendered into the buffers in their current roles. -/
def renderDirectionNormal (lib : FxLib) (s : State) (frontUpdate backUpdate : Bool) : State :=
  let frontCount := if s.isMovingForward then s.headlightLedCount else s.taillightLedCount
  let backCount := if s.isMovingForward then s.taillightLedCount else s.headlightLedCount
  let frontLedType := if s.isMovingForward then s.headlightLedType else s.taillightLedType
  let backLedType := if s.isMovingForward then s.taillightLedType else s.headlightLedType
  let frontColorOrder :=
    if s.isMovingForward then s.headlightColorOrder else s.taillightColorOrder
  let backColorOrder :=
    if s.isMovingForward then s.taillightColorOrder else s.headlightColorOrder
  let frontTiming := if s.isMovingForward then s.headlightTiming else s.taillightTiming
  let backTiming := if s.isMovingForward then s.taillightTiming else s.headlightTiming
  let s0 : State := { s with fadeStateSaved := false }
  let s1 : State :=
    if frontUpdate = true ∧ frontCount > 0 then
      let frontLights := if s0.isMovingForward then s0.headlight else s0.taillight
      let r : State × List CRGB :=
        if s0.headlightMode = 0 then
          (s0, fillSolidWithColorOrder frontLights frontCount CRGB.White frontLedType
            frontColorOrder)
        else
          applyEffectToArray lib s0 frontLights frontCount s0.headlightEffect s0.headlightColor
            frontTiming frontLedType frontColorOrder s0.headlightBackgroundColor
            s0.headlightBackgroundEnabled
      if s0.isMovingForward then { r.1 with headlight := r.2 } else { r.1 with taillight := r.2 }
    else s0
  if backUpdate = true ∧ backCount > 0 then
    let backLights := if s1.isMovingForward then s1.taillight else s1.headlight
    let r : State × List CRGB :=
      applyEffectToArray lib s1 backLights backCount s1.taillightEffect s1.taillightColor
        backTiming backLedType backColorOrder s1.taillightBackgroundColor
        s1.taillightBackgroundEnabled
    if s1.isMovingForward then { r.1 with taillight := r.2 } else { r.1 with headlight := r.2 }
  else s1

/-- The `else` block of `updateEffects` for fixed roles (direction-based
lighting off). -/
def renderFixedRoles (lib : FxLib) (s : State) (headlightUpdate taillightUpdate : Bool) : State :=
  let s1 : State :=
    if headlightUpdate then
      let r := applyEffectToArray lib s s.headlight s.headlightLedCount s.headlightEffect
        s.headlightColor s.headlightTiming s.headlightLedType s.headlightColorOrder
        s.headlightBackgroundColor s.headlightBackgroundEnabled
      { r.1 with headlight := r.2 }
    else s
  if taillightUpdate then
    let r := applyEffectToArray lib s1 s1.taillight s1.taillightLedCount s1.taillightEffect
      s1.taillightColor s1.taillightTiming s1.taillightLedType s1.taillightColorOrder
      s1.taillightBackgroundColor s1.taillightBackgroundEnabled
    { r.1 with taillight := r.2 }
  else s1

/-- The two `shouldUpdateEffect` calls that open `updateEffects`: the state with
both clocks advanced. -/
def tickClocks (s : State) (now : Nat) : State :=
  { s with
    headlightTiming :=
      (shouldUpdateEffect s.headlightTiming now s.effectSpeed s.headlightLedCount).2
    taillightTiming :=
      (shouldUpdateEffect s.taillightTiming now s.effectSpeed s.taillightLedCount).2 }

/-- The test of `updateEffects` that decides whether a frame is rendered: a
clock fired, or a fade is pending, or the blinker or braking overlay is active. -/
def rendersFrame (s : State) (now : Nat) : Bool :=
  (shouldUpdateEffect s.headlightTiming now s.effectSpeed s.headlightLedCount).1
    || (shouldUpdateEffect s.taillightTiming now s.effectSpeed s.taillightLedCount).1
    || s.directionChangePending || s.blinkerActive || s.brakingActive

/-- The `if (!arraysInitialized)` block of `updateEffects`: allocate the two
snapshot arrays on the first direction-based frame. -/
def initFadeArrays (lib : FxLib) (s : State) : State :=
  if s.arraysInitialized = false then
    let maxCount :=
      if s.headlightLedCount > s.taillightLedCount then s.headlightLedCount
      else s.taillightLedCount
    { s with
      headlightOld := lib.freshArray maxCount
      taillightOld := lib.freshArray maxCount
      arraysInitialized := true }
  else s

/-- The `if (directionBasedLighting)` block of `updateEffects`. -/
def renderDirectionBased (lib : FxLib) (s : State) (headlightUpdate taillightUpdate : Bool) :
    State :=
  let frontUpdate := if s.isMovingForward then headlightUpdate else taillightUpdate
  let backUpdate := if s.isMovingForward then taillightUpdate else headlightUpdate
  let s1 := initFadeArrays lib s
  if s1.directionChangePending = true ∧ s1.directionFadeProgress ≥ 0
      ∧ s1.directionFadeProgress ≤ 1 then
    renderDirectionFade lib s1 frontUpdate backUpdate
  else renderDirectionNormal lib s1 frontUpdate backUpdate

/-- The base layer of `updateEffects` ("Priority 3: Normal effects"): restore the
global brightness, then render by role or by fixed channel. -/
def renderBase (lib : FxLib) (s : State) (headlightUpdate taillightUpdate : Bool) : State :=
  let s1 : State := { s with ledBrightness := s.globalBrightness }
  if s1.directionBasedLighting then renderDirectionBased lib s1 headlightUpdate taillightUpdate
  else renderFixedRoles lib s1 headlightUpdate taillightUpdate

/-- "Priority 4" of `updateEffects`: the braking overlay. -/
def overlayBraking (lib : FxLib) (s : State) (now : Nat) : State :=
  if s.brakingActive then showBrakingEffect lib s now else s

/-- "Priority 5" of `updateEffects`: the blinker overlay. -/
def overlayBlinker (s : State) (now : Nat) : State :=
  if s.blinkerActive then
    showBlinkerEffect
      { s with
        headlight := fillSolidWithColorOrder s.headlight s.headlightLedCount CRGB.White
          s.headlightLedType s.headlightColorOrder
        taillight := fillSolidWithColorOrder s.taillight s.taillightLedCount CRGB.Red
          s.taillightLedType s.taillightColorOrder }
      now s.blinkerDirection
  else s

/-- `updateEffects`, one composer frame; the clock reads `now` throughout the
frame.  `FastLED.show()` outputs the buffers and changes no state. -/
def updateEffects (lib : FxLib) (s : State) (now : Nat) : State :=
  let headlightUpdate :=
    (shouldUpdateEffect s.headlightTiming now s.effectSpeed s.headlightLedCount).1
  let taillightUpdate :=
    (shouldUpdateEffect s.taillightTiming now s.effectSpeed s.taillightLedCount).1
  let s1 := tickClocks s now
  if rendersFrame s now = false then s1
  else if s1.parkModeActive then showParkEffect lib s1
  else overlayBlinker (overlayBraking lib (renderBase lib s1 headlightUpdate taillightUpdate) now) now

/-- `resetToNormalEffects`. -/
def resetToNormalEffects (lib : FxLib) (s : State) (now : Nat) : State :=
  updateEffects lib { s with ledBrightness := s.globalBrightness } now

/-! ## Braking controller -/

/-- `processBrakingDetection`, one classifier tick of the braking controller. -/
def processBrakingDetection (s : State) (now : Nat) (data : MotionData) : State :=
  if s.manualBrakeActive then s
  else if s.brakingEnabled = false ∨ s.motionEnabled = false then s
  else
    let forwardAccel : ℚ :=
      if s.calibration.valid then getCalibratedForwardAccel s.calibration data else data.accelX
    let isDecelerating : Bool :=
      s.isMovingForward && decide (forwardAccel < s.brakingThreshold) && !s.parkModeActive
    if isDecelerating then
      if s.brakingDetectedTime = 0 then
        { s with brakingDetectedTime := now }
      else if usub32 now s.brakingDetectedTime ≥ BRAKING_SUSTAIN_TIME
          ∧ s.brakingActive = false then
        { s with
          brakingActive := true
          brakingStartTime := now
          brakingFlashCount := 0
          brakingPulseCount := 0
          lastBrakingFlash := now
          lastBrakingPulse := now }
      else s
    else
      let s1 : State :=
        if s.brakingDetectedTime > 0 then { s with brakingDetectedTime := 0 } else s
      if s1.brakingActive = true ∧ (forwardAccel ≥ 0 ∨ s1.parkModeActive = true) then
        { s1 with brakingActive := false, brakingFlashCount := 0, brakingPulseCount := 0 }
      else s1

/-- The `manualBrake` key of `applyApiJson`, received with value `manual` at
clock reading `now`. -/
def apiManualBrake (lib : FxLib) (s : State) (now : Nat) (manual : Bool) : State :=
  let s1 : State :=
    { s with
      manualBrakeActive := manual
      brakingActive := manual
      brakingStartTime := now
      brakingFlashCount := 0
      brakingPulseCount := 0 }
  if manual = false then resetToNormalEffects lib s1 now else s1

/-- The states reachable through `processBrakingDetection`, `showBrakingEffect`
(alone or inside a composer frame) and the `manualBrake` command, from any
configuration in which both cycle counters have their initial value 0. -/
inductive BrakingReachable (lib : FxLib) : State → Prop
  | start (s : State) :
      s.brakingFlashCount = 0 → s.brakingPulseCount = 0 → BrakingReachable lib s
  | detect (s : State) (now : Nat) (data : MotionData) :
      BrakingReachable lib s → BrakingReachable lib (processBrakingDetection s now data)
  | showEffect (s : State) (now : Nat) :
      BrakingReachable lib s → BrakingReachable lib (showBrakingEffect lib s now)
  | frame (s : State) (now : Nat) :
      BrakingReachable lib s → BrakingReachable lib (updateEffects lib s now)
  | manual (s : State) (now : Nat) (m : Bool) :
      BrakingReachable lib s → BrakingReachable lib (apiManualBrake lib s now m)

/-- The cycle counter of the selected braking mode (`brakingEffect` 0 is flash). -/
def brakingCycleCount (s : State) : Nat :=
  if s.brakingEffect = 0 then s.brakingFlashCount else s.brakingPulseCount

/-- The rear-role buffer, `targetLights` of `showBrakingEffect`. -/
def rearLights (s : State) : List CRGB :=
  if s.isMovingForward then s.taillight else s.headlight

/-- The pixel count of the rear-role strip, `targetCount` of `showBrakingEffect`. -/
def rearCount (s : State) : Nat :=
  if s.isMovingForward then s.taillightLedCount else s.headlightLedCount

/-- Red as stored for the rear-role strip: colour-order converted for LED type 0. -/
def rearRed (s : State) : CRGB :=
  if (if s.isMovingForward then s.taillightLedType else s.headlightLedType) = 0 then
    convertColorOrder CRGB.Red
      (if s.isMovingForward then s.taillightColorOrder else s.headlightColorOrder)
  else CRGB.Red

/-- A library stand-in whose renderers leave the buffer as it is; used for
concrete runs in which no library renderer is called. -/
def idleLib : FxLib :=
  { render := fun _ h leds _ _ _ _ => (h, leds)
    brakePulse := fun _ n _ => List.replicate n CRGB.Black
    freshArray := fun n => List.replicate n CRGB.Black }

/-- A configuration with two pixels per strip, both strips in RGB colour order. -/
def twoPixelState : State :=
  { initialState with
    headlightLedCount := 2
    taillightLedCount := 2
    headlightColorOrder := 0
    taillightColorOrder := 0
    headlight := [CRGB.Black, CRGB.Black]
    taillight := [CRGB.Black, CRGB.Black] }

/-- Manual braking switched on at 1000, then three composer overlays 400 ms
apart: the flash counter has reached 3. -/
def saturatedBraking : State :=
  showBrakingEffect idleLib
    (showBrakingEffect idleLib
      (showBrakingEffect idleLib (apiManualBrake idleLib twoPixelState 1000 true) 1400)
      1800)
    2200

/-- Park active with the police pattern, blinker and braking active as well, and
the headlight clock at step 9. -/
def parkedPolice : State :=
  { twoPixelState with
    parkModeActive := true
    parkEffect := FX_POLICE
    blinkerActive := true
    blinkerDirection := 1
    brakingActive := true
    headlightTiming := { step := 9 }
    taillightTiming := { step := 9 } }

/-! ## BLE framed protocol and the deferred settings hand-off -/

def BLE_FRAME_MAGIC0 : Nat := 167
def BLE_FRAME_MAGIC1 : Nat := 28
def BLE_FRAME_VERSION : Nat := 1
def BLE_FRAME_HEADER_SIZE : Nat := 8
def BLE_FRAME_CRC_SIZE : Nat := 2

/-- The eight shift steps `crc16Ccitt` performs for one byte. -/
def crc16Bits : Nat → Nat → Nat
  | 0, crc => crc
  | n + 1, crc =>
    crc16Bits n
      (if crc &&& 32768 ≠ 0 then ((crc <<< 1) ^^^ 4129) % 65536 else (crc <<< 1) % 65536)

/-- `crc16Ccitt` over a byte string. -/
def crc16Ccitt (data : List Nat) : Nat :=
  data.foldl (fun crc byte => crc16Bits 8 ((crc ^^^ (byte <<< 8)) % 65536)) 65535

/-- The byte string `sendBleFrame` builds for a frame. -/
def encodeBleFrame (type seq flags : Nat) (payload : List Nat) : List Nat :=
  let length := payload.length % 65536
  let head : List Nat :=
    [BLE_FRAME_MAGIC0, BLE_FRAME_MAGIC1, BLE_FRAME_VERSION, type, seq, flags,
      length &&& 255, (length >>> 8) &&& 255] ++ payload.take length
  let crc := crc16Ccitt head
  head ++ [crc &&& 255, (crc >>> 8) &&& 255]

/-- `sendBleFrame`: the frame is notified to the client; the model records it in
`bleSent` (the characteristic is assumed to exist). -/
def sendBleFrame (s : State) (type seq flags : Nat) (payload : List Nat) : State :=
  { s with bleSent := s.bleSent ++ [{ type := type, seq := seq, flags := flags, payload := payload }] }

/-- `sendBleAck`. -/
def sendBleAck (s : State) (seq : Nat) : State :=
  sendBleFrame s BLE_MSG_ACK seq 0 []

/-- The bytes of an ASCII string. -/
def asciiBytes (str : String) : List Nat := str.toList.map Char.toNat

/-- `sendBleError`: the payload is the JSON object with the single key `error`. -/
def sendBleError (s : State) (seq : Nat) (message : String) : State :=
  sendBleFrame s BLE_MSG_ERROR seq 0
    (asciiBytes "\x7b\"error\":\"" ++ asciiBytes message ++ asciiBytes "\"\x7d")

/-- The index of the first position `i` with `i + 1 < size` at which the two
magic bytes stand (the search loop of `tryExtractBleFrame`). -/
def findMagic : List Nat → Option Nat
  | a :: b :: rest =>
    if a = BLE_FRAME_MAGIC0 ∧ b = BLE_FRAME_MAGIC1 then some 0
    else (findMagic (b :: rest)).map (· + 1)
  | _ => none

/-- `tryExtractBleFrame`: the return value, the receive buffer afterwards, and
the `frame` out-parameter (left as it was when no frame is extracted). -/
def tryExtractBleFrame (buffer : List Nat) (frame : BleFrame) : Bool × List Nat × BleFrame :=
  if buffer.length < BLE_FRAME_HEADER_SIZE + BLE_FRAME_CRC_SIZE then (false, buffer, frame)
  else
    match findMagic buffer with
    | none => (false, [], frame)
    | some start =>
      let buf := buffer.drop start
      if buf.length < BLE_FRAME_HEADER_SIZE + BLE_FRAME_CRC_SIZE then (false, buf, frame)
      else if buf.getD 2 0 ≠ BLE_FRAME_VERSION then (false, buf.drop 2, frame)
      else
        let payloadLength := (buf.getD 6 0) ||| ((buf.getD 7 0) <<< 8)
        let frameSize := BLE_FRAME_HEADER_SIZE + payloadLength + BLE_FRAME_CRC_SIZE
        if buf.length < frameSize then (false, buf, frame)
        else
          let expectedCrc := (buf.getD (frameSize - 2) 0) ||| ((buf.getD (frameSize - 1) 0) <<< 8)
          let actualCrc := crc16Ccitt (buf.take (frameSize - BLE_FRAME_CRC_SIZE))
          if expectedCrc ≠ actualCrc then (false, buf.drop 2, frame)
          else
            (true, buf.drop frameSize,
              { type := buf.getD 3 0, seq := buf.getD 4 0, flags := buf.getD 5 0
                payload := (buf.drop BLE_FRAME_HEADER_SIZE).take payloadLength })

/-- The body of the `while` loop of `MyCallbacks::onWrite`: dispatch of one
extracted frame.  `startOTAUpdate` (firmware self-update) touches none of the
modelled variables. -/
def handleBleFrame (s : State) (frame : BleFrame) : State :=
  if frame.type = BLE_MSG_SETTINGS_JSON then
    if frame.payload = [] then sendBleError s frame.seq "Empty settings payload"
    else if s.blePendingApply = false then
      let s1 : State := { s with blePendingApply := true, blePendingJson := frame.payload }
      if frame.flags &&& BLE_FRAME_FLAG_ACK_REQUIRED ≠ 0 then sendBleAck s1 frame.seq else s1
    else sendBleError s frame.seq "Busy"
  else if frame.type = BLE_MSG_STATUS_REQUEST then
    let s1 : State :=
      if frame.flags &&& BLE_FRAME_FLAG_ACK_REQUIRED ≠ 0 then sendBleAck s frame.seq else s
    { s1 with blePendingStatusSeq := frame.seq, blePendingStatusRequest := true }
  else if frame.type = BLE_MSG_OTA_START then
    let s1 : State :=
      if frame.flags &&& BLE_FRAME_FLAG_ACK_REQUIRED ≠ 0 then sendBleAck s frame.seq else s
    { s1 with blePendingOtaStatusSeq := frame.seq, blePendingOtaStatusRequest := true }
  else if frame.type = BLE_MSG_OTA_STATUS then
    let s1 : State :=
      if frame.flags &&& BLE_FRAME_FLAG_ACK_REQUIRED ≠ 0 then sendBleAck s frame.seq else s
    { s1 with blePendingOtaStatusSeq := frame.seq, blePendingOtaStatusRequest := true }
  else if frame.type = BLE_MSG_ACK then s
  else sendBleError s frame.seq "Unknown message"

/-- The `while (tryExtractBleFrame(bleRxBuffer, frame))` loop of `onWrite`, with
`fuel` bounding the number of iterations. -/
def drainBleFrames : Nat → State → BleFrame → State
  | 0, s, _ => s
  | fuel + 1, s, frame =>
    let r := tryExtractBleFrame s.bleRxBuffer frame
    if r.1 then drainBleFrames fuel (handleBleFrame { s with bleRxBuffer := r.2.1 } r.2.2) r.2.2
    else { s with bleRxBuffer := r.2.1 }

/-- `MyCallbacks::onWrite` with the written value `rxValue`.  Every extracted
frame removes at least ten bytes from the buffer, so the buffer length bounds
the number of loop iterations. -/
def onWrite (s : State) (rxValue : List Nat) : State :=
  if rxValue.length > 0 then
    let s1 : State := { s with bleRxBuffer := s.bleRxBuffer ++ rxValue }
    drainBleFrames (s1.bleRxBuffer.length + 1) s1 {}
  else s

/-- The section "Apply deferred BLE API updates" of `loop()`.  `parse` is
`deserializeJson` (`none` on a parse error) and `apply` is `applyApiJson`; a
restart requested by `applyApiJson` is outside the model. -/
def loopApplyPending {Doc : Type} (parse : List Nat → Option Doc) (apply : Doc → State → State)
    (s : State) : State :=
  let shouldApplyPending := s.blePendingApply
  let pendingJsonCopy := if s.blePendingApply then s.blePendingJson else []
  let s1 : State :=
    if s.blePendingApply then { s with blePendingApply := false, blePendingJson := [] } else s
  if shouldApplyPending = true ∧ pendingJsonCopy.length > 0 then
    match parse pendingJsonCopy with
    | none => s1
    | some doc => apply doc s1
  else s1

/-- The payload of the error frame that answers a request while another one is
pending: the JSON object with the key `error` and the value `Busy`. -/
def busyPayload : List Nat := asciiBytes "\x7b\"error\":\"Busy\"\x7d"

/-- A state in which a settings payload (the JSON text of an empty object) is
pending. -/
def pendingState : State :=
  { initialState with blePendingApply := true, blePendingJson := asciiBytes "\x7b\x7d" }

/-- A settings frame whose payload is the JSON text of an empty array, with the
acknowledge flag set. -/
def secondFrame : BleFrame :=
  { type := BLE_MSG_SETTINGS_JSON, seq := 2, flags := 1, payload := asciiBytes "[]" }

/-! ## Blinker, park and impact controllers -/

/-- `sqrt x < y` for a non-negative `x`, decided without taking the root. -/
def sqrtLt (x y : ℚ) : Bool := decide (0 < y ∧ x < y * y)

/-- `y < sqrt x` for a non-negative `x`, decided without taking the root. -/
def ltSqrt (y x : ℚ) : Bool := decide (y < 0 ∨ y * y < x)

/-- `processBlinkers`, one classifier tick of the blinker controller. -/
def processBlinkers (s : State) (now : Nat) (data : MotionData) : State :=
  if s.manualBlinkerActive then s
  else
    let leftRightAccel : ℚ :=
      if s.calibration.valid then getCalibratedLeftRightAccel s.calibration data
      else data.accelY
    let turnThreshold : ℚ := (3 / 2) * s.motionSensitivity
    let turnIntent : Bool := decide (|leftRightAccel| > turnThreshold)
    if turnIntent then
      let direction : Int := if leftRightAccel > 0 then 1 else -1
      if s.blinkerActive = false then
        { s with blinkerActive := true, blinkerDirection := direction, blinkerStartTime := now }
      else s
    else if s.blinkerActive = true ∧ usub32 now s.blinkerStartTime > s.blinkerTimeout then
      { s with blinkerActive := false, blinkerDirection := 0 }
    else s

/-- The local `accelMagnitude` of `processParkMode`: the products, the sums and
the square root are `float` operations, evaluated left to right. -/
def accelMagnitude (data : MotionData) : ℚ :=
  sqrtFloat (roundFloat (roundFloat (roundFloat (data.accelX * data.accelX)
    + roundFloat (data.accelY * data.accelY)) + roundFloat (data.accelZ * data.accelZ)))

/-- The local `gyroMagnitude` of `processParkMode`. -/
def gyroMagnitude (data : MotionData) : ℚ :=
  sqrtFloat (roundFloat (roundFloat (roundFloat (data.gyroX * data.gyroX)
    + roundFloat (data.gyroY * data.gyroY)) + roundFloat (data.gyroZ * data.gyroZ)))

/-- The local `accelDeviation` of `processParkMode`,
`abs(accelMagnitude - 1.0)` stored in a `float`. -/
def accelDeviation (data : MotionData) : ℚ := roundFloat |accelMagnitude data - 1|

/-- The stationarity test of `processParkMode`: the deviation of the
acceleration magnitude from 1 g and the gyro magnitude, as computed in `float`,
are both below their noise thresholds. -/
def isStationary (s : State) (data : MotionData) : Bool :=
  decide (accelDeviation data < s.parkAccelNoiseThreshold)
    && decide (gyroMagnitude data < s.parkGyroNoiseThreshold)

/-- `processParkMode`, one classifier tick of the park controller. -/
def processParkMode (lib : FxLib) (s : State) (now : Nat) (data : MotionData) : State :=
  if isStationary s data then
    if s.parkModeActive = false then
      if s.parkStartTime = 0 then { s with parkStartTime := now }
      else if usub32 now s.parkStartTime > s.parkStationaryTime then
        showParkEffect lib { s with parkModeActive := true }
      else s
    else s
  else
    if s.parkModeActive then { s with parkModeActive := false, parkStartTime := 0 }
    else if s.parkStartTime > 0 then { s with parkStartTime := 0 }
    else s

/-- `showImpactEffect`: both strips flash white for 200 ms (shown by
`FastLED.show()`), then are filled with the base colours. -/
def showImpactEffect (s : State) : State :=
  { s with
    headlight := fill_solid (fill_solid s.headlight s.headlightLedCount CRGB.White)
      s.headlightLedCount s.headlightColor
    taillight := fill_solid (fill_solid s.taillight s.taillightLedCount CRGB.White)
      s.taillightLedCount s.taillightColor }

/-- `processImpactDetection`: `gForce` is the acceleration magnitude divided
by 9.8. -/
def processImpactDetection (s : State) (now : Nat) (data : MotionData) : State :=
  let accelSq := data.accelX * data.accelX + data.accelY * data.accelY + data.accelZ * data.accelZ
  if ltSqrt ((49 / 5) * (s.impactThreshold : ℚ)) accelSq = true
      ∧ usub32 now s.lastImpactTime > 1000 then
    showImpactEffect { s with lastImpactTime := now }
  else s

/-- `updateMotionControl` with the sample `data` that `getMotionData()` returns;
the clock reads `now` throughout the tick. -/
def updateMotionControl (lib : FxLib) (s : State) (now : Nat) (data : MotionData) : State :=
  if s.calibrationMode then s
  else if s.motionEnabled = false then s
  else
    let s1 := if s.directionBasedLighting then processDirectionDetection s now data else s
    let s2 := if s1.brakingEnabled then processBrakingDetection s1 now data else s1
    let s3 := if s2.blinkerEnabled then processBlinkers s2 now data else s2
    let s4 := if s3.parkModeEnabled then processParkMode lib s3 now data else s3
    if s4.impactDetectionEnabled then processImpactDetection s4 now data else s4

/-! ## The cooperative loop -/

/-- The clock readings and the inertial sample of one `loop()` iteration:
`tMotion` is read at the motion gate and inside `updateMotionControl`,
`tMotionDone` is stored in `lastMotionUpdate`, `tEffects` is read at the composer
gate and inside `updateEffects`, `tEffectsDone` is stored in `lastUpdate`. -/
structure LoopInput where
  tMotion : Nat
  tMotionDone : Nat
  tEffects : Nat
  tEffectsDone : Nat
  sample : MotionData

/-- "Update motion control at 20Hz" of `loop()`. -/
def loopMotionPhase (lib : FxLib) (s : State) (inp : LoopInput) : State :=
  if s.motionEnabled = true ∧ usub32 inp.tMotion s.lastMotionUpdate ≥ 50 then
    { updateMotionControl lib s inp.tMotion inp.sample with lastMotionUpdate := inp.tMotionDone }
  else s

/-- "Update effects at 50 FPS" of `loop()`. -/
def loopEffectsPhase (lib : FxLib) (s : State) (inp : LoopInput) : State :=
  if usub32 inp.tEffects s.lastUpdate ≥ 20 then
    { updateEffects lib s inp.tEffects with lastUpdate := inp.tEffectsDone }
  else s

/-- One iteration of `loop()` once the startup sequence has ended, when no
network, serial or BLE request arrives: the motion phase, then the composer
phase.  The rest of the iteration (BLE reconnection with its `delay(500)`, sync
and request handling, status responses, `delay(10)`) only takes time. -/
def loopIteration (lib : FxLib) (s : State) (inp : LoopInput) : State :=
  loopEffectsPhase lib (loopMotionPhase lib s inp) inp

/-- A run of `loop()` iterations. -/
def runLoop (lib : FxLib) (s : State) (inputs : List LoopInput) : State :=
  inputs.foldl (loopIteration lib) s

/-- The timing constraints of a schedule of loop iterations: within an iteration
the clock readings do not decrease, and an iteration ends with `delay(10)`, so
the next one starts at least 10 ms after the last reading. -/
def validSchedule : List LoopInput → Bool
  | [] => true
  | [a] => decide (a.tMotion ≤ a.tMotionDone ∧ a.tMotionDone ≤ a.tEffects
      ∧ a.tEffects ≤ a.tEffectsDone ∧ a.tEffectsDone < ULONG_RANGE)
  | a :: b :: rest =>
    decide (a.tMotion ≤ a.tMotionDone ∧ a.tMotionDone ≤ a.tEffects
      ∧ a.tEffects ≤ a.tEffectsDone ∧ a.tEffectsDone + 10 ≤ b.tMotion)
    && validSchedule (b :: rest)

/-- What a run of the loop lets an observer see of a direction fade: the
direction state left by each classifier tick, and the direction state each
composer frame (`updateEffects` call) is rendered from. -/
inductive LoopEvent where
  | tick (pending : Bool) (progress : ℚ) (forward : Bool)
  | frame (pending : Bool) (progress : ℚ) (forward : Bool)
deriving DecidableEq

/-- The events of one loop iteration, in program order. -/
def iterationEvents (lib : FxLib) (s : State) (inp : LoopInput) : List LoopEvent :=
  let s1 := loopMotionPhase lib s inp
  (if s.motionEnabled = true ∧ usub32 inp.tMotion s.lastMotionUpdate ≥ 50 then
      [LoopEvent.tick s1.directionChangePending s1.directionFadeProgress s1.isMovingForward]
    else [])
  ++ (if usub32 inp.tEffects s1.lastUpdate ≥ 20 then
      [LoopEvent.frame s1.directionChangePending s1.directionFadeProgress s1.isMovingForward]
    else [])

/-- The events of a run of loop iterations. -/
def loopEvents (lib : FxLib) (s : State) : List LoopInput → List LoopEvent
  | [] => []
  | inp :: rest => iterationEvents lib s inp ++ loopEvents lib (loopIteration lib s inp) rest

/-- Some composer frame of the run was rendered from a pending fade at progress 1.0. -/
def shownAtFullProgress (events : List LoopEvent) : Bool :=
  events.any (fun e =>
    match e with
    | LoopEvent.frame true p _ => decide (p = 1)
    | _ => false)

/-- Two pixels per strip, direction-based lighting on, the other motion features
switched off, moving forward with the sustain timer running since 1000; the
last classifier tick was at 1650 and the last composer frame at 1680. -/
def fadeRunStart : State :=
  { twoPixelState with
    directionBasedLighting := true
    blinkerEnabled := false
    parkModeEnabled := false
    impactDetectionEnabled := false
    directionChangeDetectedTime := 1000
    filteredForwardAccel := -1
    lastMotionUpdate := 1650
    lastUpdate := 1680 }

/-- One loop iteration whose clock readings all equal `t`, sampling sustained
backward acceleration. -/
def iterationAt (t : Nat) : LoopInput :=
  { tMotion := t, tMotionDone := t, tEffects := t, tEffectsDone := t, sample := backwardSample }

/-- A schedule of loop iterations through one direction fade.  The iteration at
3240 runs the classifier 10 ms after the composer frame of 3230; it is followed
by a slow iteration (a BLE reconnection makes `loop()` wait 500 ms), so the next
one starts at 3750. -/
def fadeRunSchedule : List LoopInput :=
  [iterationAt 1700, iterationAt 2200, iterationAt 2700, iterationAt 3190, iterationAt 3230,
   iterationAt 3240, iterationAt 3750]

/-- The `EffectTiming` values the firmware can hold: the initial one, and what
`shouldUpdateEffect` and the step synchronisation of `espNowReceiveCallback`
(`timing.step = masterStep`) make of one. -/
inductive ClockReachable : EffectTiming → Prop
  | init : ClockReachable {}
  | call (t : EffectTiming) (now speed length : Nat) :
      ClockReachable t → ClockReachable (shouldUpdateEffect t now speed length).2
  | sync (t : EffectTiming) (masterStep : Nat) :
      ClockReachable t → ClockReachable { t with step := masterStep }

/-- The step increment of `shouldUpdateEffect` for a speed, scaled by 100. -/
def stepIncrementOf (speed : Nat) : Nat := ((map speed 0 255 10 800) % 65536).toNat

/-! ## Calibration session -/

/-- `startCalibration`; `now` is the reading of `millis()`. -/
def startCalibration (s : State) (now : Nat) : State :=
  { s with
    calibrationMode := true
    calibrationStep := 0
    calibrationStartTime := now
    calibration := { s.calibration with valid := false }
    calibrationComplete := false }

/-- `captureCalibrationStep(data)`; the clock reads `now` throughout the call.
`calibrationStep` is a `uint8_t`; a value outside `0..4` matches no `case`. -/
def captureCalibrationStep (s : State) (now : Nat) (data : MotionData) : State :=
  let currentTime := now
  let elapsed := usub32 currentTime s.calibrationStartTime
  if elapsed > calibrationTimeout then startCalibration s now
  else
    let c := s.calibration
    if s.calibrationStep = 4 then
      completeCalibration { s with
        calibration := { c with
          rightAccelX := data.accelX, rightAccelY := data.accelY, rightAccelZ := data.accelZ } }
    else
      let c1 : CalibrationData :=
        if s.calibrationStep = 0 then
          { c with
            levelAccelX := data.accelX, levelAccelY := data.accelY, levelAccelZ := data.accelZ }
        else if s.calibrationStep = 1 then
          { c with
            forwardAccelX := data.accelX, forwardAccelY := data.accelY
            forwardAccelZ := data.accelZ }
        else if s.calibrationStep = 2 then
          { c with
            backwardAccelX := data.accelX, backwardAccelY := data.accelY
            backwardAccelZ := data.accelZ }
        else if s.calibrationStep = 3 then
          { c with
            leftAccelX := data.accelX, leftAccelY := data.accelY, leftAccelZ := data.accelZ }
        else c
      { s with
        calibration := c1
        calibrationStep := (s.calibrationStep + 1) % 256
        calibrationStartTime := currentTime }

/-- `resetCalibration` (`saveSettings()` writes to persistent storage only). -/
def resetCalibration (s : State) : State :=
  { s with
    calibrationComplete := false
    calibration := { s.calibration with valid := false }
    calibrationMode := false }

/-- The acceleration triple of a sample. -/
def accelOf (d : MotionData) : ℚ × ℚ × ℚ := (d.accelX, d.accelY, d.accelZ)

/-- The five pose slots of the calibration record, in the order Level, Forward,
Backward, Left, Right. -/
def poseSlots (c : CalibrationData) : List (ℚ × ℚ × ℚ) :=
  [(c.levelAccelX, c.levelAccelY, c.levelAccelZ),
   (c.forwardAccelX, c.forwardAccelY, c.forwardAccelZ),
   (c.backwardAccelX, c.backwardAccelY, c.backwardAccelZ),
   (c.leftAccelX, c.leftAccelY, c.leftAccelZ),
   (c.rightAccelX, c.rightAccelY, c.rightAccelZ)]

/-- The state after the first `k` of a sequence of `captureCalibrationStep` calls,
each given as the clock reading and the sample of the call. -/
def captureRun (s : State) (calls : List (Nat × MotionData)) (k : Nat) : State :=
  (calls.take k).foldl (fun st c => captureCalibrationStep st c.1 c.2) s

/-! ## Runs of one controller -/

/-- A run of one controller `step` over a list of ticks, each the clock reading
and the sample of one call. -/
def runTicks (step : State → Nat → MotionData → State) (s : State)
    (ticks : List (Nat × MotionData)) : State :=
  ticks.foldl (fun st t => step st t.1 t.2) s

/-- The state before tick number `k` of a run (after its first `k` ticks). -/
def stateAt (step : State → Nat → MotionData → State) (s : State)
    (ticks : List (Nat × MotionData)) (k : Nat) : State :=
  runTicks step s (ticks.take k)

/-- The local `turnIntent` of `processBlinkers`: the lateral acceleration
(calibrated when a calibration is valid) exceeds `1.5 * motionSensitivity` in
absolute value. -/
def turnIntent (s : State) (data : MotionData) : Bool :=
  let leftRightAccel : ℚ :=
    if s.calibration.valid then getCalibratedLeftRightAccel s.calibration data else data.accelY
  let turnThreshold : ℚ := (3 / 2) * s.motionSensitivity
  decide (|leftRightAccel| > turnThreshold)

/-- The manual-override flag, the active flag and the direction of the blinker. -/
def blinkerFlags (s : State) : Bool × Bool × Int :=
  (s.manualBlinkerActive, s.blinkerActive, s.blinkerDirection)

/-- A JSON command document restricted to the keys that `applyApiJson` handles in
its motion-control section (`motion_enabled` to `forward_accel_threshold`).  A
field is `none` when `doc.containsKey(key)` is false and `some v` when the key is
present, `v` being the value that the ArduinoJson conversion of `doc[key]` to the
type of the assigned variable delivers (for `braking_brightness` the value of
`doc[key] | 255`). -/
structure ApiDoc where
  motion_enabled : Option Bool := none
  blinker_enabled : Option Bool := none
  park_mode_enabled : Option Bool := none
  impact_detection_enabled : Option Bool := none
  motion_sensitivity : Option ℚ := none
  blinker_delay : Option Nat := none
  blinker_timeout : Option Nat := none
  manualBlinker : Option String := none
  park_detection_angle : Option Nat := none
  park_stationary_time : Option Nat := none
  park_accel_noise_threshold : Option ℚ := none
  park_gyro_noise_threshold : Option ℚ := none
  park_effect : Option Nat := none
  park_effect_speed : Option Nat := none
  park_headlight_color_r : Option Nat := none
  park_headlight_color_g : Option Nat := none
  park_headlight_color_b : Option Nat := none
  park_taillight_color_r : Option Nat := none
  park_taillight_color_g : Option Nat := none
  park_taillight_color_b : Option Nat := none
  park_brightness : Option Nat := none
  braking_enabled : Option Bool := none
  manualBrake : Option Bool := none
  braking_threshold : Option ℚ := none
  braking_effect : Option Nat := none
  braking_brightness : Option Nat := none
  direction_based_lighting : Option Bool := none
  headlight_mode : Option Nat := none
  forward_accel_threshold : Option ℚ := none

/-- The `motion_enabled` block of `applyApiJson`. -/
def apiMotionEnabled (lib : FxLib) (s : State) (now : Nat) (newMotionEnabled : Bool) : State :=
  let s2 : State :=
    if s.motionEnabled = true ∧ newMotionEnabled = false then
      let s1 : State :=
        if s.parkModeActive then
          resetToNormalEffects lib { s with parkModeActive := false, parkStartTime := 0 } now
        else s
      if s1.blinkerActive then
        resetToNormalEffects lib
          { s1 with blinkerActive := false, blinkerStartTime := 0, manualBlinkerActive := false }
          now
      else s1
    else s
  { s2 with motionEnabled := newMotionEnabled }

/-- The `blinker_enabled` block of `applyApiJson`. -/
def apiBlinkerEnabled (lib : FxLib) (s : State) (now : Nat) (newBlinkerEnabled : Bool) : State :=
  let s1 : State :=
    if s.blinkerEnabled = true ∧ newBlinkerEnabled = false ∧ s.blinkerActive = true then
      resetToNormalEffects lib
        { s with blinkerActive := false, blinkerStartTime := 0, manualBlinkerActive := false } now
    else s
  { s1 with blinkerEnabled := newBlinkerEnabled }

/-- The `park_mode_enabled` block of `applyApiJson`. -/
def apiParkModeEnabled (lib : FxLib) (s : State) (now : Nat) (newParkModeEnabled : Bool) :
    State :=
  let s1 : State :=
    if s.parkModeEnabled = true ∧ newParkModeEnabled = false ∧ s.parkModeActive = true then
      resetToNormalEffects lib { s with parkModeActive := false, parkStartTime := 0 } now
    else s
  { s1 with parkModeEnabled := newParkModeEnabled }

/-- The `manualBlinker` block of `applyApiJson`. -/
def apiManualBlinker (lib : FxLib) (s : State) (now : Nat) (manual : String) : State :=
  if manual = "left" ∨ manual = "right" then
    { s with
      manualBlinkerActive := true
      blinkerActive := true
      blinkerDirection := if manual = "right" then 1 else -1
      blinkerStartTime := now }
  else if manual = "off" then
    resetToNormalEffects lib
      { s with
        manualBlinkerActive := false
        blinkerActive := false
        blinkerDirection := 0
        blinkerStartTime := 0 } now
  else s

/-- Run one keyed block of `applyApiJson`: `block` when the key is present. -/
def onKey {α : Type} (v : Option α) (block : State → α → State) (s : State) : State :=
  match v with
  | some a => block s a
  | none => s

/-- The plain assignments of `applyApiJson` between the `park_mode_enabled` and
the `manualBlinker` blocks (`saveSettings()` writes to persistent storage only;
`blinkerDelay` and `blinkerTimeout` are `uint16_t`). -/
def apiMotionSettings (s : State) (doc : ApiDoc) : State :=
  let s1 := onKey doc.impact_detection_enabled
    (fun st v => { st with impactDetectionEnabled := v }) s
  let s2 := onKey doc.motion_sensitivity (fun st v => { st with motionSensitivity := v }) s1
  let s3 := onKey doc.blinker_delay (fun st v => { st with blinkerDelay := v % 65536 }) s2
  onKey doc.blinker_timeout (fun st v => { st with blinkerTimeout := v % 65536 }) s3

/-- The park settings keys of `applyApiJson` (`uint8_t` and `uint16_t` targets
wrap). -/
def apiParkSettings (s : State) (doc : ApiDoc) : State :=
  let s1 := onKey doc.park_detection_angle
    (fun st v => { st with parkDetectionAngle := v % 256 }) s
  let s2 := onKey doc.park_stationary_time
    (fun st v => { st with parkStationaryTime := v % 65536 }) s1
  let s3 := onKey doc.park_accel_noise_threshold
    (fun st v => { st with parkAccelNoiseThreshold := v }) s2
  let s4 := onKey doc.park_gyro_noise_threshold
    (fun st v => { st with parkGyroNoiseThreshold := v }) s3
  let s5 := onKey doc.park_effect (fun st v => { st with parkEffect := v % 256 }) s4
  let s6 := onKey doc.park_effect_speed (fun st v => { st with parkEffectSpeed := v % 256 }) s5
  let s7 := onKey doc.park_headlight_color_r
    (fun st v => { st with parkHeadlightColor := { st.parkHeadlightColor with r := v % 256 } }) s6
  let s8 := onKey doc.park_headlight_color_g
    (fun st v => { st with parkHeadlightColor := { st.parkHeadlightColor with g := v % 256 } }) s7
  let s9 := onKey doc.park_headlight_color_b
    (fun st v => { st with parkHeadlightColor := { st.parkHeadlightColor with b := v % 256 } }) s8
  let s10 := onKey doc.park_taillight_color_r
    (fun st v => { st with parkTaillightColor := { st.parkTaillightColor with r := v % 256 } }) s9
  let s11 := onKey doc.park_taillight_color_g
    (fun st v => { st with parkTaillightColor := { st.parkTaillightColor with g := v % 256 } }) s10
  let s12 := onKey doc.park_taillight_color_b
    (fun st v => { st with parkTaillightColor := { st.parkTaillightColor with b := v % 256 } }) s11
  onKey doc.park_brightness (fun st v => { st with parkBrightness := v % 256 }) s12

/-- The braking keys of `applyApiJson`: `braking_enabled`, `manualBrake`,
`braking_threshold`, `braking_effect`, `braking_brightness`. -/
def apiBrakingSettings (lib : FxLib) (s : State) (now : Nat) (doc : ApiDoc) : State :=
  let s1 := onKey doc.braking_enabled (fun st v => { st with brakingEnabled := v }) s
  let s2 := onKey doc.manualBrake (fun st v => apiManualBrake lib st now v) s1
  let s3 := onKey doc.braking_threshold (fun st v => { st with brakingThreshold := v }) s2
  let s4 := onKey doc.braking_effect (fun st v => { st with brakingEffect := v % 256 }) s3
  onKey doc.braking_brightness (fun st v => { st with brakingBrightness := v % 256 }) s4

/-- The direction keys of `applyApiJson`: `direction_based_lighting`,
`headlight_mode`, `forward_accel_threshold`. -/
def apiDirectionSettings (s : State) (doc : ApiDoc) : State :=
  let s1 := onKey doc.direction_based_lighting
    (fun st v => { st with directionBasedLighting := v }) s
  let s2 := onKey doc.headlight_mode (fun st v => { st with headlightMode := v % 256 }) s1
  onKey doc.forward_accel_threshold (fun st v => { st with forwardAccelThreshold := v }) s2

/-- The motion-control section of `applyApiJson` (the blocks for the keys
`motion_enabled` to `forward_accel_threshold`, in source order), for a document
made of these keys; every `millis()` of the call reads `now`. -/
def applyApiJson (lib : FxLib) (s : State) (now : Nat) (doc : ApiDoc) : State :=
  let s1 := onKey doc.motion_enabled (fun st v => apiMotionEnabled lib st now v) s
  let s2 := onKey doc.blinker_enabled (fun st v => apiBlinkerEnabled lib st now v) s1
  let s3 := onKey doc.park_mode_enabled (fun st v => apiParkModeEnabled lib st now v) s2
  let s4 := apiMotionSettings s3 doc
  let s5 := onKey doc.manualBlinker (fun st v => apiManualBlinker lib st now v) s4
  let s6 := apiParkSettings s5 doc
  let s7 := apiBrakingSettings lib s6 now doc
  apiDirectionSettings s7 doc

/-- A state in which the command `manualBlinker = "right"` has been applied to
the initial state at 1000 ms. -/
def manualRight : State := apiManualBlinker idleLib initialState 1000 "right"

/-! ## Braking controller: release -/

/-- The local `forwardAccel` of `processBrakingDetection`. -/
def brakingForwardAccel (s : State) (data : MotionData) : ℚ :=
  if s.calibration.valid then getCalibratedForwardAccel s.calibration data else data.accelX

/-- The initial configuration after the command
`braking_enabled = true, braking_threshold = 0.5` at 500 ms. -/
def positiveThresholdStart : State :=
  applyApiJson idleLib initialState 500
    { braking_enabled := some true, braking_threshold := some (1 / 2) }

/-- Three classifier ticks with a forward acceleration of 0.25 g. -/
def gentleAcceleration : List (Nat × MotionData) :=
  [(1000, { accelX := 1 / 4 }), (1300, { accelX := 1 / 4 }), (1400, { accelX := 1 / 4 })]

/-! ## Park controller: runs -/

/-- The squared acceleration magnitude of a sample. -/
def accelSqOf (data : MotionData) : ℚ :=
  data.accelX * data.accelX + data.accelY * data.accelY + data.accelZ * data.accelZ

/-- The squared angular-rate magnitude of a sample. -/
def gyroSqOf (data : MotionData) : ℚ :=
  data.gyroX * data.gyroX + data.gyroY * data.gyroY + data.gyroZ * data.gyroZ

/-- Stationarity as the specification words it, with real square roots: the
acceleration magnitude deviates from 1 g by less than `accelNoise` and the gyro
magnitude is below `gyroNoise`. -/
def StationarySpec (accelNoise gyroNoise : ℚ) (data : MotionData) : Prop :=
  |Real.sqrt ((accelSqOf data : ℚ) : ℝ) - 1| < ((accelNoise : ℚ) : ℝ) ∧
    Real.sqrt ((gyroSqOf data : ℚ) : ℝ) < ((gyroNoise : ℚ) : ℝ)

/-- The formula of `StationarySpec` decided in exact arithmetic, without taking
the roots. -/
def stationaryFormula (accelNoise gyroNoise : ℚ) (data : MotionData) : Bool :=
  (sqrtLt (accelSqOf data) (1 + accelNoise) && ltSqrt (1 - accelNoise) (accelSqOf data))
    && sqrtLt (gyroSqOf data) gyroNoise

/-- A vehicle at rest (1 g on the Z axis) sampled at 1000, 2000 and 3001 ms. -/
def atRest : List (Nat × MotionData) :=
  [(1000, { accelZ := 1 }), (2000, { accelZ := 1 }), (3001, { accelZ := 1 })]

/-! ## Layer composer: the direction fade -/

/-- The snapshot step of the fade branch of `updateEffects`: on the first frame
of a fade (`directionFadeProgress == 0.0` and `!fadeStateSaved`) the displayed
buffers are copied into `headlightOld` and `taillightOld`. -/
def saveFadeState (s : State) : State :=
  if s.directionFadeProgress = 0 ∧ s.fadeStateSaved = false then
    { s with
      headlightOld := memcpyLeds s.headlightOld s.headlight s.headlightLedCount
      taillightOld := memcpyLeds s.taillightOld s.taillight s.taillightLedCount
      fadeStateSaved := true }
  else s

/-- The state of a fade frame when the blend starts: `updateEffects` up to the
snapshot step (clocks advanced, global brightness restored, snapshot arrays
allocated, snapshot taken on the first frame). -/
def fadeSnapshot (lib : FxLib) (s : State) (now : Nat) : State :=
  let s1 : State := tickClocks s now
  saveFadeState (initFadeArrays lib { s1 with ledBrightness := s1.globalBrightness })

/-- The new role assignment of a fade, rendered into fresh temporary arrays as
the fade branch of `updateEffects` does when a clock fired: the front effect
(solid white in headlight mode 0, else the headlight effect) for the strip that
becomes the front, the taillight effect for the strip that becomes the back.
The result is the new frame for the headlight buffer and for the taillight
buffer. -/
def renderNewRoles (lib : FxLib) (s : State) : List CRGB × List CRGB :=
  let newDirection : Bool := !s.isMovingForward
  let newFrontCount := if newDirection then s.headlightLedCount else s.taillightLedCount
  let newBackCount := if newDirection then s.taillightLedCount else s.headlightLedCount
  let newFrontLedType := if newDirection then s.headlightLedType else s.taillightLedType
  let newBackLedType := if newDirection then s.taillightLedType else s.headlightLedType
  let newFrontColorOrder :=
    if newDirection then s.headlightColorOrder else s.taillightColorOrder
  let newBackColorOrder :=
    if newDirection then s.taillightColorOrder else s.headlightColorOrder
  let newFrontTiming := if newDirection then s.headlightTiming else s.taillightTiming
  let newBackTiming := if newDirection then s.taillightTiming else s.headlightTiming
  let front : State × List CRGB :=
    if s.headlightMode = 0 then
      (s, fillSolidWithColorOrder (lib.freshArray newFrontCount) newFrontCount CRGB.White
        newFrontLedType newFrontColorOrder)
    else
      applyEffectToArray lib s (lib.freshArray newFrontCount) newFrontCount s.headlightEffect
        s.headlightColor newFrontTiming newFrontLedType newFrontColorOrder
        s.headlightBackgroundColor s.headlightBackgroundEnabled
  let back : State × List CRGB :=
    applyEffectToArray lib front.1 (lib.freshArray newBackCount) newBackCount
      front.1.taillightEffect front.1.taillightColor newBackTiming newBackLedType
      newBackColorOrder front.1.taillightBackgroundColor front.1.taillightBackgroundEnabled
  (if newDirection then front.2 else back.2, if newDirection then back.2 else front.2)

/-- The frame the specification describes for a pending fade: each buffer is the
blend of its snapshot array and its freshly rendered new-role frame by
`directionFadeProgress`. -/
def fadeBlendSpec (lib : FxLib) (s : State) (now : Nat) : List CRGB × List CRGB :=
  let p := fadeSnapshot lib s now
  (blendLEDArrays p.headlight p.headlightOld (renderNewRoles lib p).1 p.headlightLedCount
      p.directionFadeProgress,
   blendLEDArrays p.taillight p.taillightOld (renderNewRoles lib p).2 p.taillightLedCount
      p.directionFadeProgress)

/-- Two pixels per strip half-way through a fade from forward to backward: the
strips show white and red, and so do the snapshots taken at the start of the
fade. -/
def halfFaded : State :=
  { twoPixelState with
    directionBasedLighting := true
    directionChangePending := true
    directionFadeProgress := 1 / 2
    arraysInitialized := true
    fadeStateSaved := true
    headlight := [CRGB.White, CRGB.White]
    taillight := [CRGB.Red, CRGB.Red]
    headlightOld := [CRGB.White, CRGB.White]
    taillightOld := [CRGB.Red, CRGB.Red] }

/-! ## Calibrated axes on the captured poses -/

/-- The captured Forward pose as a sample. -/
def forwardPose (c : CalibrationData) : MotionData :=
  { accelX := c.forwardAccelX, accelY := c.forwardAccelY, accelZ := c.forwardAccelZ }

/-- The captured Backward pose as a sample. -/
def backwardPose (c : CalibrationData) : MotionData :=
  { accelX := c.backwardAccelX, accelY := c.backwardAccelY, accelZ := c.backwardAccelZ }

/-- The captured Left pose as a sample. -/
def leftPose (c : CalibrationData) : MotionData :=
  { accelX := c.leftAccelX, accelY := c.leftAccelY, accelZ := c.leftAccelZ }

/-- The captured Right pose as a sample. -/
def rightPose (c : CalibrationData) : MotionData :=
  { accelX := c.rightAccelX, accelY := c.rightAccelY, accelZ := c.rightAccelZ }

/-! ## Configuration left alone by the composer -/

/-- The LED strip configuration: counts, LED types and colour orders. -/
def ledConfig (s : State) : Nat × Nat × Nat × Nat × Nat × Nat :=
  (s.headlightLedCount, s.taillightLedCount, s.headlightLedType, s.taillightLedType,
    s.headlightColorOrder, s.taillightColorOrder)

/-- Two states agree on the motion settings, the park variables, the direction
variables and the LED strip configuration. -/
def SameConfig (a b : State) : Prop :=
  a.toMotionVars = b.toMotionVars ∧ a.toParkVars = b.toParkVars ∧
    a.toDirectionVars = b.toDirectionVars ∧ ledConfig a = ledConfig b

/-! ## Blinker overlay -/

/-- The colour `fillSolidWithColorOrder` stores for `color`: colour-order
converted on LED type 0, as it is otherwise. -/
def storedColor (color : CRGB) (ledType colorOrder : Nat) : CRGB :=
  if ledType = 0 then convertColorOrder color colorOrder else color

/-- The blink phase after the toggle test of `showBlinkerEffect` at `now`. -/
def blinkPhase (s : State) (now : Nat) : Bool :=
  if usub32 now s.lastBlinkTime > 500 then !s.blinkState else s.blinkState

/-- Two pixels per strip with the right blinker active. -/
def blinkingRight : State :=
  { twoPixelState with blinkerActive := true, blinkerDirection := 1 }

/-! ## BLE framing: round trip -/

/-- The header and payload part of a frame on the wire: everything before the
CRC field. -/
def bleFrameBody (type seq flags : Nat) (payload : List Nat) : List Nat :=
  [BLE_FRAME_MAGIC0, BLE_FRAME_MAGIC1, BLE_FRAME_VERSION, type, seq, flags,
    payload.length &&& 255, (payload.length >>> 8) &&& 255] ++ payload

/-! ## Cross-vehicle sync (ESP-NOW) -/

def ESPNOW_SYNC_MIN_INTERVAL : Nat := 200
def ESPNOW_SYNC_IDLE_INTERVAL : Nat := 1000
def PRESET_STANDARD : Nat := 0

/-- `sizeof(ESPNowLEDData)`: the packed struct has 30 bytes. -/
def ESPNOW_LED_DATA_SIZE : Nat := 30

/-- `sizeof(ESPNowGroupData)`: the packed struct has 41 bytes. -/
def ESPNOW_GROUP_DATA_SIZE : Nat := 41

/-- `struct ESPNowSyncState`: the settings last published. -/
structure ESPNowSyncState where
  brightness : Nat := 0
  headlightEffect : Nat := 0
  taillightEffect : Nat := 0
  effectSpeed : Nat := 0
  headlightColor : CRGB := CRGB.Black
  taillightColor : CRGB := CRGB.Black
  headlightBackgroundEnabled : Nat := 0
  taillightBackgroundEnabled : Nat := 0
  headlightBackgroundColor : CRGB := CRGB.Black
  taillightBackgroundColor : CRGB := CRGB.Black
  preset : Nat := 0
deriving DecidableEq, Repr

/-- The ESP-NOW and group globals of `main.cpp` that the sync functions read and
write; `espNowSent` lists the packets handed to `esp_now_send`, oldest first. -/
structure EspNowVars where
  enableESPNow : Bool := true
  useESPNowSync : Bool := true
  espNowState : Nat := 0
  isGroupMaster : Bool := false
  groupCode : String := ""
  hasGroupMaster : Bool := false
  groupMasterMac : List Nat := [0, 0, 0, 0, 0, 0]
  lastESPNowSend : Nat := 0
  lastSyncState : ESPNowSyncState := {}
  hasLastSyncState : Bool := false
  currentPreset : Nat := PRESET_STANDARD
  espNowSent : List (List Nat) := []

/-- A `bool` stored into a `uint8_t`. -/
def boolByte (b : Bool) : Nat := if b then 1 else 0

/-- The XOR of a byte string (the checksum loops of the ESP-NOW packets). -/
def xorChecksum (bytes : List Nat) : Nat :=
  bytes.foldl (fun acc b => (acc ^^^ b) % 256) 0

/-- The first 29 bytes of the `ESPNowLEDData` packet that `sendESPNowData`
builds (packed layout, little-endian `syncTimestamp` and `masterStep`). -/
def ledDataBytes (s : State) (e : EspNowVars) (now : Nat) : List Nat :=
  let masterStep :=
    if s.headlightTiming.step > s.taillightTiming.step then s.headlightTiming.step
    else s.taillightTiming.step
  let stripLength :=
    if s.headlightLedCount > s.taillightLedCount then s.headlightLedCount
    else s.taillightLedCount
  let t := now % ULONG_RANGE
  [65, 0, 1, s.globalBrightness, s.headlightEffect, s.taillightEffect, s.effectSpeed,
    s.headlightColor.r, s.headlightColor.g, s.headlightColor.b,
    s.taillightColor.r, s.taillightColor.g, s.taillightColor.b,
    boolByte s.headlightBackgroundEnabled, boolByte s.taillightBackgroundEnabled,
    s.headlightBackgroundColor.r, s.headlightBackgroundColor.g, s.headlightBackgroundColor.b,
    s.taillightBackgroundColor.r, s.taillightBackgroundColor.g, s.taillightBackgroundColor.b,
    e.currentPreset,
    t % 256, (t / 256) % 256, (t / 65536) % 256, (t / 16777216) % 256,
    masterStep % 256, (masterStep / 256) % 256,
    stripLength]

/-- The settings compared and stored by `sendESPNowData`. -/
def currentSyncState (s : State) (e : EspNowVars) : ESPNowSyncState :=
  { brightness := s.globalBrightness
    headlightEffect := s.headlightEffect
    taillightEffect := s.taillightEffect
    effectSpeed := s.effectSpeed
    headlightColor := s.headlightColor
    taillightColor := s.taillightColor
    headlightBackgroundEnabled := boolByte s.headlightBackgroundEnabled
    taillightBackgroundEnabled := boolByte s.taillightBackgroundEnabled
    headlightBackgroundColor := s.headlightBackgroundColor
    taillightBackgroundColor := s.taillightBackgroundColor
    preset := e.currentPreset }

/-- `sendESPNowData` at clock reading `now`; `sendOk` tells whether
`esp_now_send` returns `ESP_OK`. -/
def sendESPNowData (s : State) (e : EspNowVars) (now : Nat) (sendOk : Bool) : EspNowVars :=
  if e.enableESPNow = false ∨ e.useESPNowSync = false ∨ e.espNowState ≠ 1 then e
  else if e.groupCode.length = 0 ∨ e.isGroupMaster = false then e
  else if s.blinkerActive = true ∨ s.parkModeActive = true then e
  else
    let hasChange : Bool :=
      if e.hasLastSyncState = false then true
      else decide (e.lastSyncState ≠ currentSyncState s e)
    let interval := if hasChange then ESPNOW_SYNC_MIN_INTERVAL else ESPNOW_SYNC_IDLE_INTERVAL
    if usub32 now e.lastESPNowSend < interval then e
    else
      let body := ledDataBytes s e now
      let e1 : EspNowVars := { e with espNowSent := e.espNowSent ++ [body ++ [xorChecksum body]] }
      if sendOk then
        { e1 with
          lastESPNowSend := now % ULONG_RANGE
          lastSyncState := currentSyncState s e
          hasLastSyncState := true }
      else e1

/-- The speed normalisation of `espNowReceiveCallback` for a received speed and
strip length on strips of `maxLength` pixels: `lengthRatio` is a `uint8_t`. -/
def rescaleSpeed (speed maxLength stripLength : Nat) : Nat :=
  let lengthRatio := ((maxLength * 100) / stripLength) % 256
  let v := speed * lengthRatio / 100
  (if v > 255 then 255 else v) % 256

/-- `espNowReceiveCallback` for a packet `data` from `mac_addr`.  Group management
packets go to `handleGroupMessage`, which is taken as the parameter
`groupHandler`. -/
def espNowReceiveCallback (groupHandler : EspNowVars → List Nat → List Nat → EspNowVars)
    (s : State) (e : EspNowVars) (mac_addr data : List Nat) : State × EspNowVars :=
  if e.enableESPNow = false then (s, e)
  else if data.getD 0 0 = 71 then
    if data.length ≠ ESPNOW_GROUP_DATA_SIZE then (s, e)
    else (s, groupHandler e mac_addr data)
  else if data.getD 0 0 ≠ 65 then (s, e)
  else if data.length ≠ ESPNOW_LED_DATA_SIZE then (s, e)
  else if e.useESPNowSync = false then (s, e)
  else if xorChecksum (data.take (ESPNOW_LED_DATA_SIZE - 1)) ≠ data.getD 29 0 then (s, e)
  else if e.groupCode.length > 0 ∧ e.isGroupMaster = true then (s, e)
  else if e.groupCode.length > 0
      ∧ (e.hasGroupMaster = false ∨ mac_addr.take 6 ≠ e.groupMasterMac.take 6) then (s, e)
  else if s.blinkerActive = false ∧ s.parkModeActive = false then
    let masterStep := data.getD 26 0 + 256 * data.getD 27 0
    let stripLength := data.getD 28 0
    let s1 : State :=
      { s with
        globalBrightness := data.getD 3 0
        headlightEffect := data.getD 4 0
        taillightEffect := data.getD 5 0
        effectSpeed := data.getD 6 0
        headlightColor := ⟨data.getD 7 0, data.getD 8 0, data.getD 9 0⟩
        taillightColor := ⟨data.getD 10 0, data.getD 11 0, data.getD 12 0⟩
        headlightBackgroundEnabled := decide (data.getD 13 0 ≠ 0)
        taillightBackgroundEnabled := decide (data.getD 14 0 ≠ 0)
        headlightBackgroundColor := ⟨data.getD 15 0, data.getD 16 0, data.getD 17 0⟩
        taillightBackgroundColor := ⟨data.getD 18 0, data.getD 19 0, data.getD 20 0⟩ }
    let e1 : EspNowVars := { e with currentPreset := data.getD 21 0 }
    let s2 : State :=
      if masterStep > 0 then
        { s1 with
          headlightTiming := { s1.headlightTiming with step := masterStep }
          taillightTiming := { s1.taillightTiming with step := masterStep } }
      else s1
    let s3 : State :=
      if stripLength > 0 then
        let maxLength :=
          if s2.headlightLedCount > s2.taillightLedCount then s2.headlightLedCount
          else s2.taillightLedCount
        { s2 with effectSpeed := rescaleSpeed s2.effectSpeed maxLength stripLength }
      else s2
    ({ s3 with ledBrightness := s3.globalBrightness }, e1)
  else (s, e)

/-- The claimed normalisation: the speed rescaled by the ratio of the local to
the remote strip length, capped at 255. -/
def rescaleSpeedSpec (speed local_ remote : Nat) : Nat :=
  min 255 (speed * ((100 * local_) / remote) / 100)

/-- A group leader with 10 pixels per strip and effect speed 100, ESP-NOW on. -/
def leaderState : State :=
  { initialState with headlightLedCount := 10, taillightLedCount := 10, effectSpeed := 100 }

/-- The ESP-NOW variables of a group leader. -/
def leaderVars : EspNowVars :=
  { espNowState := 1, groupCode := "123456", isGroupMaster := true }

/-- A follower with 30 pixels per strip that is in no group. -/
def followerState : State :=
  { initialState with headlightLedCount := 30, taillightLedCount := 30 }

/-- The sync packet the leader sends at 5000 ms. -/
def leaderPacket : List Nat :=
  ((sendESPNowData leaderState leaderVars 5000 true).espNowSent).getD 0 []

/-! ## Command interface: numeric settings -/

/-- The numeric motion settings that `applyApiJson` assigns: `motionSensitivity`,
`blinkerDelay`, `blinkerTimeout`, `parkStationaryTime`, `parkAccelNoiseThreshold`,
`parkGyroNoiseThreshold`, `brakingThreshold`, `forwardAccelThreshold`. -/
def tunables (s : State) : ℚ × Nat × Nat × Nat × ℚ × ℚ × ℚ × ℚ :=
  (s.motionSensitivity, s.blinkerDelay, s.blinkerTimeout, s.parkStationaryTime,
    s.parkAccelNoiseThreshold, s.parkGyroNoiseThreshold, s.brakingThreshold,
    s.forwardAccelThreshold)

/-- A command with out-of-range values for the five real-valued settings. -/
def outOfRangeDoc : ApiDoc :=
  { motion_sensitivity := some 5
    braking_threshold := some (1 / 2)
    forward_accel_threshold := some (-1)
    park_accel_noise_threshold := some (-1)
    park_gyro_noise_threshold := some (-3) }

/-- The park enabled flag and the park activation flag. -/
def parkFlags (s : State) : Bool × Bool := (s.parkModeEnabled, s.parkModeActive)

/-- Manual braking switched on at 1000 ms with braking detection enabled. -/
def brakingOn : State :=
  apiManualBrake idleLib { twoPixelState with brakingEnabled := true } 1000 true

/-- A direction fade pending with direction-based lighting on. -/
def fadePending : State :=
  { twoPixelState with directionBasedLighting := true, directionChangePending := true }

/-! ## Park overlay: animation speed and effect coverage -/

/-- The state `parkedPolice` with the base `effectSpeed` at 0; `parkEffectSpeed`
has its initial value 64. -/
def parkedSlowBase : State := { parkedPolice with effectSpeed := 0 }

/-- The state `parkedPolice` with the base `effectSpeed` at 255; `parkEffectSpeed`
has its initial value 64. -/
def parkedFastBase : State := { parkedPolice with effectSpeed := 255 }

/-- A renderer library in which every library effect paints the first `numLeds`
pixels with the colour it is handed. -/
def paintLib : FxLib :=
  { render := fun _ h leds numLeds color _ _ => (h, fill_solid leds numLeds color)
    brakePulse := fun _ n _ => List.replicate n CRGB.Black
    freshArray := fun n => List.replicate n CRGB.Black }

/-- Park active with `parkEffect = FX_RAINBOW_WIPE` on two GRB strips of two
pixels; both buffers hold red from the previous frame and both park colours are
blue. -/
def parkedRainbowWipe : State :=
  { twoPixelState with
    parkModeActive := true
    parkEffect := FX_RAINBOW_WIPE
    headlightColorOrder := 1
    taillightColorOrder := 1
    parkHeadlightColor := CRGB.Blue
    parkTaillightColor := CRGB.Blue
    headlight := [CRGB.Red, CRGB.Red]
    taillight := [CRGB.Red, CRGB.Red] }

/-! ## Park controller: a sample at the noise threshold -/

/-- The initial configuration with `parkAccelNoiseThreshold` at the `float`
nearest to 0.05, the value the source initialises it with. -/
def parkDefaults : State :=
  { initialState with parkAccelNoiseThreshold := 13421773 / 268435456 }

/-- The sample `getMotionData` returns for the raw accelerometer reading
`(0, 2364, 17040)` with the gyroscope at rest: `raw / 16384` on each axis. -/
def thresholdSample : MotionData := { accelY := 2364 / 16384, accelZ := 17040 / 16384 }

/-- The sample `thresholdSample` read at 1000, 2000 and 3001 ms. -/
def thresholdRun : List (Nat × MotionData) :=
  [(1000, thresholdSample), (2000, thresholdSample), (3001, thresholdSample)]

/-! ## Direction fade blend: a progress of 300 ms -/

/-- The `float` `directionFadeProgress` holds 300 ms into a fade: the `float`
nearest to `300 / 1500`. -/
def progress300 : ℚ := 13421773 / 67108864

/-! ## BLE checksum: the CRC-16/CCITT shift register -/

/-- One step of the CRC shift register of width 16 with polynomial `0x1021`:
the message bit is compared with the top bit of the register, the register is
shifted left by one, and the polynomial is added (exclusive or) when the two
bits differ. -/
def crcFeedBit (crc : Nat) (bit : Bool) : Nat :=
  if (crc.testBit 15 != bit) then ((2 * crc) % 65536) ^^^ 4129 else (2 * crc) % 65536

/-- The bits of a byte, most significant first. -/
def byteBits (b : Nat) : List Bool :=
  [b.testBit 7, b.testBit 6, b.testBit 5, b.testBit 4, b.testBit 3, b.testBit 2, b.testBit 1,
   b.testBit 0]

/-- CRC-16/CCITT as the specification words it: the shift register with polynomial
`0x1021` starts at `0xFFFF` and is fed the bits of the bytes in order, each byte
most significant bit first; the register is the checksum. -/
def crc16CcittSpec (data : List Nat) : Nat :=
  (data.flatMap byteBits).foldl crcFeedBit 65535

/-- The value of a bit string read most significant bit first. -/
def bitsValue : List Bool → Nat
  | [] => 0
  | b :: rest => (if b then 2 ^ rest.length else 0) ^^^ bitsValue rest

/-- The ASCII bytes of `123456789`, the check input of the CRC catalogues. -/
def crcCheckInput : List Nat := [49, 50, 51, 52, 53, 54, 55, 56, 57]

/-! ## Direction fade blend in single precision -/

/-- The interpolation `a + (b - a) * p` evaluated in `float` arithmetic: `p` is
held in a `float`, and the product and the sum are each rounded to the nearest
`float`. -/
def floatBlend (a b : Nat) (p : ℚ) : ℚ :=
  roundFloat ((a : ℚ) + roundFloat (((b : ℚ) - (a : ℚ)) * roundFloat p))

/-! ## Direction controller: basic facts -/

theorem pdd_lighting (s : State) (now : Nat) (d : MotionData) :
    (processDirectionDetection s now d).directionBasedLighting = s.directionBasedLighting := by
  unfold processDirectionDetection
  simp only []
  split_ifs <;> rfl

theorem pdd_motion (s : State) (now : Nat) (d : MotionData) :
    (processDirectionDetection s now d).motionEnabled = s.motionEnabled := by
  unfold processDirectionDetection
  simp only []
  split_ifs <;> rfl

theorem pdd_threshold (s : State) (now : Nat) (d : MotionData) :
    (processDirectionDetection s now d).forwardAccelThreshold = s.forwardAccelThreshold := by
  unfold processDirectionDetection
  simp only []
  split_ifs <;> rfl

theorem pdd_filtered (s : State) (now : Nat) (d : MotionData)
    (hl : s.directionBasedLighting = true) (hm : s.motionEnabled = true) :
    (processDirectionDetection s now d).filteredForwardAccel = filteredForward s d := by
  unfold processDirectionDetection
  simp only [hl, hm]
  split_ifs <;> simp_all


theorem pdd_idle_step (s : State) (now : Nat) (d : MotionData)
    (hl : s.directionBasedLighting = true) (hm : s.motionEnabled = true)
    (hp : s.directionChangePending = false) :
    (processDirectionDetection s now d).isMovingForward = s.isMovingForward ∧
    ((Opposes s.isMovingForward s.forwardAccelThreshold (filteredForward s d) ∧
        ((s.directionChangeDetectedTime = 0 ∧
            (processDirectionDetection s now d).directionChangeDetectedTime = now ∧
            (processDirectionDetection s now d).directionChangePending = false) ∨
         (s.directionChangeDetectedTime ≠ 0 ∧
            500 ≤ usub32 now s.directionChangeDetectedTime ∧
            (processDirectionDetection s now d).directionChangePending = true ∧
            (processDirectionDetection s now d).directionChangeDetectedTime
              = s.directionChangeDetectedTime ∧
            (processDirectionDetection s now d).directionFadeStartTime = now ∧
            (processDirectionDetection s now d).directionFadeProgress = 0) ∨
         (s.directionChangeDetectedTime ≠ 0 ∧
            usub32 now s.directionChangeDetectedTime < 500 ∧
            (processDirectionDetection s now d).directionChangePending = false ∧
            (processDirectionDetection s now d).directionChangeDetectedTime
              = s.directionChangeDetectedTime))) ∨
     (¬ Opposes s.isMovingForward s.forwardAccelThreshold (filteredForward s d) ∧
        (processDirectionDetection s now d).directionChangeDetectedTime = 0 ∧
        (processDirectionDetection s now d).directionChangePending = false)) := by
  unfold processDirectionDetection Opposes
  simp only [hl, hm, hp, DIRECTION_SUSTAIN_TIME]
  cases hf : s.isMovingForward <;> split_ifs <;> simp_all

theorem pdd_fading_step (s : State) (now : Nat) (d : MotionData)
    (hl : s.directionBasedLighting = true) (hm : s.motionEnabled = true)
    (hp : s.directionChangePending = true) :
    (usub32 now s.directionFadeStartTime < 1500 ∧
       (processDirectionDetection s now d).directionChangePending = true ∧
       (processDirectionDetection s now d).isMovingForward = s.isMovingForward ∧
       (processDirectionDetection s now d).directionFadeProgress
         = (usub32 now s.directionFadeStartTime : ℚ) / 1500 ∧
       (processDirectionDetection s now d).directionFadeStartTime = s.directionFadeStartTime ∧
       (processDirectionDetection s now d).directionChangeDetectedTime
         = s.directionChangeDetectedTime) ∨
    (1500 ≤ usub32 now s.directionFadeStartTime ∧ s.directionFadeProgress < 1 ∧
       (processDirectionDetection s now d).directionChangePending = true ∧
       (processDirectionDetection s now d).isMovingForward = s.isMovingForward ∧
       (processDirectionDetection s now d).directionFadeProgress = 1 ∧
       (processDirectionDetection s now d).directionFadeStartTime = s.directionFadeStartTime ∧
       (processDirectionDetection s now d).directionChangeDetectedTime
         = s.directionChangeDetectedTime) ∨
    (1500 ≤ usub32 now s.directionFadeStartTime ∧ 1 ≤ s.directionFadeProgress ∧
       (processDirectionDetection s now d).directionChangePending = false ∧
       (processDirectionDetection s now d).isMovingForward = (!s.isMovingForward) ∧
       (processDirectionDetection s now d).directionFadeProgress = 0 ∧
       (processDirectionDetection s now d).directionChangeDetectedTime = 0) := by
  unfold processDirectionDetection
  simp only [hl, hm, hp, DIRECTION_FADE_DURATION]
  by_cases h1 : usub32 now s.directionFadeStartTime < 1500
  · left
    have hq : ((usub32 now s.directionFadeStartTime : ℕ) : ℚ) / ((1500 : ℕ) : ℚ) ≤ 1 := by
      rw [div_le_one (by norm_num)]
      exact_mod_cast h1.le
    have hq2 : ¬ (1 : ℚ) < (usub32 now s.directionFadeStartTime : ℚ) / 1500 := by
      push_cast at hq
      exact not_lt.mpr hq
    simp [h1, hq2]
  · right
    by_cases h2 : s.directionFadeProgress < 1
    · left
      simp [h1, h2]; omega
    · right
      simp [h1, h2]; exact ⟨by omega, not_lt.mp h2⟩

theorem pdd_progress_range (s : State) (now : Nat) (d : MotionData)
    (h0 : 0 ≤ s.directionFadeProgress) (h1 : s.directionFadeProgress ≤ 1) :
    0 ≤ (processDirectionDetection s now d).directionFadeProgress ∧
    (processDirectionDetection s now d).directionFadeProgress ≤ 1 := by
  by_cases hen : s.directionBasedLighting = true ∧ s.motionEnabled = true
  · obtain ⟨hl, hm⟩ := hen
    cases hp : s.directionChangePending with
    | true =>
      rcases pdd_fading_step s now d hl hm hp with h | h | h
      · rw [h.2.2.2.1]
        constructor
        · positivity
        · rw [div_le_one (by norm_num)]
          exact_mod_cast h.1.le
      · rw [h.2.2.2.2.1]; exact ⟨by norm_num, le_refl 1⟩
      · rw [h.2.2.2.2.1]; exact ⟨le_refl 0, by norm_num⟩
    | false =>
      unfold processDirectionDetection
      simp only [hl, hm, hp]
      split_ifs <;> simp_all
  · unfold processDirectionDetection
    have : s.directionBasedLighting = false ∨ s.motionEnabled = false := by
      by_contra hc
      push_neg at hc
      exact hen ⟨by simpa using hc.1, by simpa using hc.2⟩
    simp only [this, if_true]
    exact ⟨h0, h1⟩

theorem runDirection_append (s : State) (l1 l2 : List (Nat × MotionData)) :
    runDirection s (l1 ++ l2) = runDirection (runDirection s l1) l2 := by
  simp [runDirection, List.foldl_append]

theorem directionStateAt_zero (s : State) (ticks : List (Nat × MotionData)) :
    directionStateAt s ticks 0 = s := by
  simp [directionStateAt, runDirection]

theorem directionStateAt_succ (s : State) (ticks : List (Nat × MotionData)) (k : Nat)
    (hk : k < ticks.length) :
    directionStateAt s ticks (k + 1)
      = processDirectionDetection (directionStateAt s ticks k) ticks[k].1 ticks[k].2 := by
  unfold directionStateAt
  rw [List.take_succ, runDirection_append]
  simp [List.getElem?_eq_getElem hk, runDirection]

theorem runDirection_config (s : State) (ticks : List (Nat × MotionData)) :
    (runDirection s ticks).directionBasedLighting = s.directionBasedLighting ∧
    (runDirection s ticks).motionEnabled = s.motionEnabled ∧
    (runDirection s ticks).forwardAccelThreshold = s.forwardAccelThreshold := by
  induction ticks generalizing s with
  | nil => simp [runDirection]
  | cons t rest ih =>
    have h := ih (processDirectionDetection s t.1 t.2)
    simp only [runDirection, List.foldl_cons] at h ⊢
    rw [pdd_lighting, pdd_motion, pdd_threshold] at h
    exact h

theorem directionStateAt_config (s : State) (ticks : List (Nat × MotionData)) (k : Nat) :
    (directionStateAt s ticks k).directionBasedLighting = s.directionBasedLighting ∧
    (directionStateAt s ticks k).motionEnabled = s.motionEnabled ∧
    (directionStateAt s ticks k).forwardAccelThreshold = s.forwardAccelThreshold :=
  runDirection_config s (ticks.take k)

theorem sustain_invariant (s0 : State) (ticks : List (Nat × MotionData))
    (hl : s0.directionBasedLighting = true) (hm : s0.motionEnabled = true)
    (htimer : s0.directionChangeDetectedTime = 0) :
    ∀ k, k ≤ ticks.length →
      (directionStateAt s0 ticks k).directionChangePending = false →
      (directionStateAt s0 ticks k).directionChangeDetectedTime ≠ 0 →
      ∃ j, ∃ hj : j < ticks.length, j < k ∧
        (directionStateAt s0 ticks j).directionChangeDetectedTime = 0 ∧
        ticks[j].1 = (directionStateAt s0 ticks k).directionChangeDetectedTime ∧
        (∀ i, j < i → i ≤ k →
          (directionStateAt s0 ticks i).directionChangeDetectedTime = ticks[j].1) ∧
        (∀ i, j ≤ i → i < k →
          Opposes (directionStateAt s0 ticks k).isMovingForward s0.forwardAccelThreshold
            (directionStateAt s0 ticks (i + 1)).filteredForwardAccel) := by
  intro k
  induction k with
  | zero =>
    intro _ _ h
    rw [directionStateAt_zero] at h
    exact absurd htimer h
  | succ k ih =>
    intro hk hpend hdet
    have hk' : k < ticks.length := hk
    obtain ⟨hlk, hmk, hthr⟩ := directionStateAt_config s0 ticks k
    rw [hl] at hlk
    rw [hm] at hmk
    have hsucc := directionStateAt_succ s0 ticks k hk'
    cases hp : (directionStateAt s0 ticks k).directionChangePending with
    | true =>
      rcases pdd_fading_step (directionStateAt s0 ticks k) ticks[k].1 ticks[k].2 hlk hmk hp with
        h | h | h
      · rw [hsucc, h.2.1] at hpend; exact absurd hpend (by simp)
      · rw [hsucc, h.2.2.1] at hpend; exact absurd hpend (by simp)
      · rw [hsucc] at hdet; exact absurd h.2.2.2.2.2 hdet
    | false =>
      obtain ⟨hdir, hcase⟩ :=
        pdd_idle_step (directionStateAt s0 ticks k) ticks[k].1 ticks[k].2 hlk hmk hp
      have hfilt := pdd_filtered (directionStateAt s0 ticks k) ticks[k].1 ticks[k].2 hlk hmk
      rw [← hsucc] at hdir hcase hfilt
      rw [hthr] at hcase
      rcases hcase with ⟨hopp, hc⟩ | ⟨_, hz, _⟩
      · rcases hc with ⟨hz, hnow, _⟩ | ⟨_, _, hpt, _⟩ | ⟨hnz, _, _, hsame⟩
        · refine ⟨k, hk', Nat.lt_succ_self k, hz, hnow.symm, ?_, ?_⟩
          · intro i h1 h2
            have : i = k + 1 := by omega
            rw [this, hnow]
          · intro i h1 h2
            have : i = k := by omega
            rw [this, hdir, hfilt]
            exact hopp
        · rw [hpt] at hpend; exact absurd hpend (by simp)
        · obtain ⟨j, hj, hjk, hj0, hjt, hwin, hopps⟩ := ih (Nat.le_of_lt hk') hp hnz
          refine ⟨j, hj, Nat.lt_succ_of_lt hjk, hj0, by rw [hsame]; exact hjt, ?_, ?_⟩
          · intro i h1 h2
            by_cases hik : i ≤ k
            · exact hwin i h1 hik
            · have : i = k + 1 := by omega
              rw [this, hsame, hjt]
          · intro i h1 h2
            rw [hdir]
            by_cases hik : i < k
            · exact hopps i h1 hik
            · have : i = k := by omega
              rw [this, hfilt]
              exact hopp
      · exact absurd hz hdet

theorem pending_set_analysis (s0 : State) (ticks : List (Nat × MotionData))
    (hl : s0.directionBasedLighting = true) (hm : s0.motionEnabled = true)
    (htimer : s0.directionChangeDetectedTime = 0) :
    ∀ k, ∀ hk : k < ticks.length,
      (directionStateAt s0 ticks k).directionChangePending = false →
      (directionStateAt s0 ticks (k + 1)).directionChangePending = true →
      ∃ j, ∃ hj : j < ticks.length, j < k ∧
        (directionStateAt s0 ticks j).directionChangeDetectedTime = 0 ∧
        ticks[j].1 ≠ 0 ∧
        (∀ i, j < i → i ≤ k →
          (directionStateAt s0 ticks i).directionChangeDetectedTime = ticks[j].1) ∧
        500 ≤ usub32 ticks[k].1 ticks[j].1 ∧
        (∀ i, j ≤ i → i ≤ k →
          ((directionStateAt s0 ticks k).isMovingForward = true →
            (directionStateAt s0 ticks (i + 1)).filteredForwardAccel
              < -(7 / 10) * s0.forwardAccelThreshold) ∧
          ((directionStateAt s0 ticks k).isMovingForward = false →
            (directionStateAt s0 ticks (i + 1)).filteredForwardAccel
              > (7 / 10) * s0.forwardAccelThreshold)) := by
  intro k hk hp hp'
  obtain ⟨hlk, hmk, hthr⟩ := directionStateAt_config s0 ticks k
  rw [hl] at hlk
  rw [hm] at hmk
  have hsucc := directionStateAt_succ s0 ticks k hk
  obtain ⟨hdir, hcase⟩ :=
    pdd_idle_step (directionStateAt s0 ticks k) ticks[k].1 ticks[k].2 hlk hmk hp
  have hfilt := pdd_filtered (directionStateAt s0 ticks k) ticks[k].1 ticks[k].2 hlk hmk
  rw [← hsucc] at hdir hcase hfilt
  rw [hthr] at hcase
  have key : Opposes (directionStateAt s0 ticks k).isMovingForward s0.forwardAccelThreshold
        (filteredForward (directionStateAt s0 ticks k) ticks[k].2) ∧
      (directionStateAt s0 ticks k).directionChangeDetectedTime ≠ 0 ∧
      500 ≤ usub32 ticks[k].1 (directionStateAt s0 ticks k).directionChangeDetectedTime := by
    rcases hcase with ⟨hopp, hc⟩ | ⟨_, _, hpf⟩
    · rcases hc with ⟨_, _, hpf⟩ | ⟨hnz, hel, _⟩ | ⟨_, _, hpf, _⟩
      · rw [hpf] at hp'; exact absurd hp' (by simp)
      · exact ⟨hopp, hnz, hel⟩
      · rw [hpf] at hp'; exact absurd hp' (by simp)
    · rw [hpf] at hp'; exact absurd hp' (by simp)
  obtain ⟨hopp, hnz, hel⟩ := key
  obtain ⟨j, hj, hjk, hj0, hjt, hwin, hopps⟩ :=
    sustain_invariant s0 ticks hl hm htimer k (Nat.le_of_lt hk) hp hnz
  refine ⟨j, hj, hjk, hj0, by rw [hjt]; exact hnz, hwin, by rw [hjt]; exact hel, ?_⟩
  intro i h1 h2
  have hopp_i : Opposes (directionStateAt s0 ticks k).isMovingForward s0.forwardAccelThreshold
      (directionStateAt s0 ticks (i + 1)).filteredForwardAccel := by
    by_cases hik : i < k
    · exact hopps i h1 hik
    · have : i = k := by omega
      rw [this, hfilt]
      exact hopp
  unfold Opposes at hopp_i
  constructor
  · intro hf
    rw [hf] at hopp_i
    simp only [if_true] at hopp_i
    linarith
  · intro hf
    rw [hf] at hopp_i
    simp only [Bool.false_eq_true, if_false] at hopp_i
    linarith

theorem short_dip_never_triggers (s0 : State) (ticks : List (Nat × MotionData))
    (hl : s0.directionBasedLighting = true) (hm : s0.motionEnabled = true)
    (hfwd : s0.isMovingForward = true) (hpend : s0.directionChangePending = false)
    (htimer : s0.directionChangeDetectedTime = 0)
    (hthr : s0.forwardAccelThreshold = 3 / 10)
    (hdip : ∀ i j, ∀ hij : i ≤ j, ∀ hj : j < ticks.length,
      (∀ m, i ≤ m → m ≤ j →
        (directionStateAt s0 ticks (m + 1)).filteredForwardAccel < -(21 / 100)) →
      usub32 ticks[j].1 ticks[i].1 ≤ 100) :
    ∀ k, k ≤ ticks.length →
      (directionStateAt s0 ticks k).directionChangePending = false ∧
      (directionStateAt s0 ticks k).isMovingForward = true := by
  intro k
  induction k with
  | zero =>
    intro _
    rw [directionStateAt_zero]
    exact ⟨hpend, hfwd⟩
  | succ k ih =>
    intro hk
    have hk' : k < ticks.length := hk
    obtain ⟨hp, hf⟩ := ih (Nat.le_of_lt hk')
    obtain ⟨hlk, hmk, _⟩ := directionStateAt_config s0 ticks k
    rw [hl] at hlk
    rw [hm] at hmk
    have hsucc := directionStateAt_succ s0 ticks k hk'
    obtain ⟨hdir, _⟩ :=
      pdd_idle_step (directionStateAt s0 ticks k) ticks[k].1 ticks[k].2 hlk hmk hp
    rw [← hsucc] at hdir
    refine ⟨?_, by rw [hdir]; exact hf⟩
    cases hp' : (directionStateAt s0 ticks (k + 1)).directionChangePending with
    | false => rfl
    | true =>
      obtain ⟨j, hj, hjk, _, _, _, hel, hbelow⟩ :=
        pending_set_analysis s0 ticks hl hm htimer k hk' hp hp'
      have hshort := hdip j k (Nat.le_of_lt hjk) hk' (fun m h1 h2 => by
        have h := (hbelow m h1 h2).1 hf
        rw [hthr] at h
        norm_num at h ⊢
        exact h)
      omega

theorem forward_until_first_pending (s0 : State) (ticks : List (Nat × MotionData))
    (hl : s0.directionBasedLighting = true) (hm : s0.motionEnabled = true)
    (hfwd : s0.isMovingForward = true) :
    ∀ k, k ≤ ticks.length →
      (∀ i, i < k → (directionStateAt s0 ticks i).directionChangePending = false) →
      (directionStateAt s0 ticks k).isMovingForward = true := by
  intro k
  induction k with
  | zero =>
    intro _ _
    rw [directionStateAt_zero]
    exact hfwd
  | succ k ih =>
    intro hk hidle
    have hk' : k < ticks.length := hk
    obtain ⟨hlk, hmk, _⟩ := directionStateAt_config s0 ticks k
    rw [hl] at hlk
    rw [hm] at hmk
    rw [directionStateAt_succ s0 ticks k hk',
      (pdd_idle_step _ ticks[k].1 ticks[k].2 hlk hmk (hidle k (Nat.lt_succ_self k))).1]
    exact ih (Nat.le_of_lt hk') (fun i hi => hidle i (Nat.lt_succ_of_lt hi))

/-- C1: in every run of `processDirectionDetection` ticks from a stable Forward
state with direction-based lighting and motion enabled, whenever a tick `k` sets
`directionChangePending`, the sustain timer was started at an earlier tick `j`
and kept since, at least 500 ms lie between the two ticks, and at every tick
from `j` to `k` the filtered forward acceleration was below `-0.7 x threshold`
while the direction is Forward (above `0.7 x threshold` once a completed fade
has made the direction Backward).  The direction is Forward at every tick up
to the first one that sets pending.  With threshold 0.3 g, if every stretch of
ticks with the filtered value below -0.21 g spans at most 100 ms, pending is
never set and `isMovingForward` never changes. -/
theorem direction_change_needs_sustained_opposite
    (s0 : State) (ticks : List (Nat × MotionData))
    (hl : s0.directionBasedLighting = true) (hm : s0.motionEnabled = true)
    (hfwd : s0.isMovingForward = true) (hpend : s0.directionChangePending = false)
    (htimer : s0.directionChangeDetectedTime = 0) :
    (∀ k, ∀ hk : k < ticks.length,
      (directionStateAt s0 ticks k).directionChangePending = false →
      (directionStateAt s0 ticks (k + 1)).directionChangePending = true →
      ∃ j, ∃ hj : j < ticks.length, j < k ∧
        (directionStateAt s0 ticks j).directionChangeDetectedTime = 0 ∧
        ticks[j].1 ≠ 0 ∧
        (∀ i, j < i → i ≤ k →
          (directionStateAt s0 ticks i).directionChangeDetectedTime = ticks[j].1) ∧
        500 ≤ usub32 ticks[k].1 ticks[j].1 ∧
        (∀ i, j ≤ i → i ≤ k →
          ((directionStateAt s0 ticks k).isMovingForward = true →
            (directionStateAt s0 ticks (i + 1)).filteredForwardAccel
              < -(7 / 10) * s0.forwardAccelThreshold) ∧
          ((directionStateAt s0 ticks k).isMovingForward = false →
            (directionStateAt s0 ticks (i + 1)).filteredForwardAccel
              > (7 / 10) * s0.forwardAccelThreshold))) ∧
    (∀ k, k ≤ ticks.length →
      (∀ i, i < k → (directionStateAt s0 ticks i).directionChangePending = false) →
      (directionStateAt s0 ticks k).isMovingForward = true) ∧
    (s0.forwardAccelThreshold = 3 / 10 →
      (∀ i j, ∀ hij : i ≤ j, ∀ hj : j < ticks.length,
        (∀ m, i ≤ m → m ≤ j →
          (directionStateAt s0 ticks (m + 1)).filteredForwardAccel < -(21 / 100)) →
        usub32 ticks[j].1 ticks[i].1 ≤ 100) →
      ∀ k, k ≤ ticks.length →
        (directionStateAt s0 ticks k).directionChangePending = false ∧
        (directionStateAt s0 ticks k).isMovingForward = true) :=
  ⟨pending_set_analysis s0 ticks hl hm htimer,
   forward_until_first_pending s0 ticks hl hm hfwd,
   fun hthr hdip => short_dip_never_triggers s0 ticks hl hm hfwd hpend htimer hthr hdip⟩

theorem sustainedTicks_state3 :
    (directionStateAt forwardStart sustainedTicks 3).directionChangePending = false ∧
    (directionStateAt forwardStart sustainedTicks 3).isMovingForward = true := by
  simp [directionStateAt, runDirection, sustainedTicks, processDirectionDetection,
    forwardStart, initialState, backwardSample, filteredForward, usub32, ULONG_RANGE,
    FILTER_ALPHA, DIRECTION_SUSTAIN_TIME]
  norm_num

theorem sustainedTicks_state4 :
    (directionStateAt forwardStart sustainedTicks 4).directionChangePending = true := by
  simp [directionStateAt, runDirection, sustainedTicks, processDirectionDetection,
    forwardStart, initialState, backwardSample, filteredForward, usub32, ULONG_RANGE,
    FILTER_ALPHA, DIRECTION_SUSTAIN_TIME]
  norm_num

/-- Witness for C1: in the run `sustainedTicks` the fourth tick sets pending,
and the theorem yields the start of the sustain timer. -/
theorem direction_change_needs_sustained_opposite_witness :
    (forwardStart.directionBasedLighting = true ∧ forwardStart.motionEnabled = true ∧
      forwardStart.isMovingForward = true ∧ forwardStart.directionChangePending = false ∧
      forwardStart.directionChangeDetectedTime = 0) ∧
    (directionStateAt forwardStart sustainedTicks 3).directionChangePending = false ∧
    (directionStateAt forwardStart sustainedTicks 4).directionChangePending = true ∧
    ∃ j, ∃ hj : j < sustainedTicks.length, j < 3 ∧
      (directionStateAt forwardStart sustainedTicks j).directionChangeDetectedTime = 0 ∧
      sustainedTicks[j].1 ≠ 0 ∧
      (∀ i, j < i → i ≤ 3 →
        (directionStateAt forwardStart sustainedTicks i).directionChangeDetectedTime
          = sustainedTicks[j].1) ∧
      500 ≤ usub32 (sustainedTicks.get ⟨3, by decide⟩).1 sustainedTicks[j].1 ∧
      (∀ i, j ≤ i → i ≤ 3 →
        ((directionStateAt forwardStart sustainedTicks 3).isMovingForward = true →
          (directionStateAt forwardStart sustainedTicks (i + 1)).filteredForwardAccel
            < -(7 / 10) * forwardStart.forwardAccelThreshold) ∧
        ((directionStateAt forwardStart sustainedTicks 3).isMovingForward = false →
          (directionStateAt forwardStart sustainedTicks (i + 1)).filteredForwardAccel
            > (7 / 10) * forwardStart.forwardAccelThreshold)) :=
  ⟨⟨rfl, rfl, rfl, rfl, rfl⟩, sustainedTicks_state3.1, sustainedTicks_state4,
   (direction_change_needs_sustained_opposite forwardStart sustainedTicks rfl rfl rfl rfl rfl).1
     3 (by decide) sustainedTicks_state3.1 sustainedTicks_state4⟩

/-- C2: while `directionChangePending` is true (detection enabled, progress
within its range), a `processDirectionDetection` tick toggles `isMovingForward`
exactly when the 1500 ms fade duration has elapsed and `directionFadeProgress`
was already 1.0 on entry.  A tick before the duration leaves the progress below
1.0; the tick that first sets it to 1.0 leaves `isMovingForward` and the pending
flag unchanged; the following tick toggles the direction, clears the pending
flag and the sustain timer and resets the progress to 0, and the tick after that
does not toggle again. -/
theorem direction_toggles_one_tick_after_full_fade
    (s : State) (now : Nat) (d : MotionData)
    (hl : s.directionBasedLighting = true) (hm : s.motionEnabled = true)
    (hp : s.directionChangePending = true) (hprog : s.directionFadeProgress ≤ 1) :
    ((processDirectionDetection s now d).isMovingForward ≠ s.isMovingForward ↔
      (1500 ≤ usub32 now s.directionFadeStartTime ∧ s.directionFadeProgress = 1)) ∧
    (usub32 now s.directionFadeStartTime < 1500 →
      (processDirectionDetection s now d).directionFadeProgress < 1) ∧
    (1500 ≤ usub32 now s.directionFadeStartTime → s.directionFadeProgress < 1 →
      (processDirectionDetection s now d).directionFadeProgress = 1 ∧
      (processDirectionDetection s now d).isMovingForward = s.isMovingForward ∧
      (processDirectionDetection s now d).directionChangePending = true ∧
      ∀ (now2 : Nat) (d2 : MotionData), 1500 ≤ usub32 now2 s.directionFadeStartTime →
        (processDirectionDetection (processDirectionDetection s now d) now2 d2).isMovingForward
          = (!s.isMovingForward) ∧
        (processDirectionDetection (processDirectionDetection s now d) now2 d2).directionChangePending
          = false ∧
        (processDirectionDetection (processDirectionDetection s now d) now2 d2).directionChangeDetectedTime
          = 0 ∧
        (processDirectionDetection (processDirectionDetection s now d) now2 d2).directionFadeProgress
          = 0 ∧
        ∀ (now3 : Nat) (d3 : MotionData),
          (processDirectionDetection
            (processDirectionDetection (processDirectionDetection s now d) now2 d2)
            now3 d3).isMovingForward = (!s.isMovingForward)) := by
  have hstep := pdd_fading_step s now d hl hm hp
  refine ⟨?_, ?_, ?_⟩
  · constructor
    · intro hne
      rcases hstep with h | h | h
      · exact absurd h.2.2.1 hne
      · exact absurd h.2.2.2.1 hne
      · exact ⟨h.1, le_antisymm hprog h.2.1⟩
    · rintro ⟨hel, hone⟩
      rcases hstep with h | h | h
      · omega
      · rw [hone] at h; exact absurd h.2.1 (lt_irrefl 1)
      · rw [h.2.2.2.1]; cases s.isMovingForward <;> simp
  · intro hlt
    rcases hstep with h | h | h
    · rw [h.2.2.2.1, div_lt_one (by norm_num)]
      exact_mod_cast hlt
    · omega
    · omega
  · intro hel hlt
    rcases hstep with h | h | h
    · omega
    · obtain ⟨_, _, hp1, hf1, hpr1, hfs1, _⟩ := h
      refine ⟨hpr1, hf1, hp1, ?_⟩
      intro now2 d2 hel2
      have hl1 : (processDirectionDetection s now d).directionBasedLighting = true := by
        rw [pdd_lighting]; exact hl
      have hm1 : (processDirectionDetection s now d).motionEnabled = true := by
        rw [pdd_motion]; exact hm
      rcases pdd_fading_step (processDirectionDetection s now d) now2 d2 hl1 hm1 hp1 with
        g | g | g
      · rw [hfs1] at g; omega
      · rw [hpr1] at g; exact absurd g.2.1 (lt_irrefl 1)
      · obtain ⟨_, _, hp2, hf2, hpr2, hd2⟩ := g
        rw [hf1] at hf2
        refine ⟨hf2, hp2, hd2, hpr2, ?_⟩
        intro now3 d3
        have hl2 : (processDirectionDetection (processDirectionDetection s now d) now2
            d2).directionBasedLighting = true := by
          rw [pdd_lighting]; exact hl1
        have hm2 : (processDirectionDetection (processDirectionDetection s now d) now2
            d2).motionEnabled = true := by
          rw [pdd_motion]; exact hm1
        rw [(pdd_idle_step _ now3 d3 hl2 hm2 hp2).1, hf2]
    · exact absurd hlt (not_lt.mpr h.2.1)

/-- Witness for C2: a fading state whose 1500 ms elapse at clock reading 3200. -/
theorem direction_toggles_one_tick_after_full_fade_witness :
    (fadingState.directionBasedLighting = true ∧ fadingState.motionEnabled = true ∧
      fadingState.directionChangePending = true ∧ fadingState.directionFadeProgress ≤ 1) ∧
    ((processDirectionDetection fadingState 3200 backwardSample).isMovingForward
        ≠ fadingState.isMovingForward ↔
      (1500 ≤ usub32 3200 fadingState.directionFadeStartTime ∧
        fadingState.directionFadeProgress = 1)) :=
  ⟨⟨rfl, rfl, rfl, by norm_num [fadingState]⟩,
   (direction_toggles_one_tick_after_full_fade fadingState 3200 backwardSample rfl rfl rfl
     (by norm_num [fadingState])).1⟩

theorem usub32_of_le (a b : Nat) (h : b ≤ a) (ha : a < ULONG_RANGE) : usub32 a b = a - b := by
  unfold usub32
  unfold ULONG_RANGE at *
  omega

theorem shouldUpdateEffect_fired (t : EffectTiming) (now speed length : Nat) :
    (shouldUpdateEffect t now speed length).1
      = decide (FRAMETIME_FIXED ≤ usub32 now t.lastFrame) := by
  unfold shouldUpdateEffect
  simp only []
  split_ifs <;> simp_all

theorem shouldUpdateEffect_lastFrame (t : EffectTiming) (now speed length : Nat) :
    (shouldUpdateEffect t now speed length).2.lastFrame
      = if FRAMETIME_FIXED ≤ usub32 now t.lastFrame then now else t.lastFrame := by
  unfold shouldUpdateEffect
  simp only []
  split_ifs <;> simp_all

theorem clockAt_succ (t : EffectTiming) (calls : List (Nat × Nat × Nat)) (k : Nat)
    (hk : k < calls.length) :
    clockAt t calls (k + 1)
      = (shouldUpdateEffect (clockAt t calls k) calls[k].1 calls[k].2.1 calls[k].2.2).2 := by
  unfold clockAt runClock
  rw [List.take_succ, List.foldl_append]
  simp [List.getElem?_eq_getElem hk]

theorem firedAt_eq (t : EffectTiming) (calls : List (Nat × Nat × Nat)) (k : Nat)
    (hk : k < calls.length) :
    firedAt t calls k
      = decide (FRAMETIME_FIXED ≤ usub32 calls[k].1 (clockAt t calls k).lastFrame) := by
  unfold firedAt
  rw [List.getElem?_eq_getElem hk]
  exact shouldUpdateEffect_fired _ _ _ _

theorem clock_lastFrame_after_fire (t : EffectTiming) (calls : List (Nat × Nat × Nat))
    (hmono : ∀ i j, ∀ hij : i ≤ j, ∀ hj : j < calls.length, calls[i].1 ≤ calls[j].1)
    (i : Nat) (hi : i < calls.length) (hfire : firedAt t calls i = true) :
    ∀ k, i < k → k ≤ calls.length →
      calls[i].1 ≤ (clockAt t calls k).lastFrame ∧
      (∀ m, ∀ hm : m < calls.length, k ≤ m → (clockAt t calls k).lastFrame ≤ calls[m].1) := by
  intro k hik
  induction k with
  | zero => omega
  | succ k ih =>
    intro hk
    have hk' : k < calls.length := hk
    rw [clockAt_succ t calls k hk', shouldUpdateEffect_lastFrame]
    by_cases hki : k = i
    · subst hki
      rw [firedAt_eq t calls k hk'] at hfire
      rw [if_pos (of_decide_eq_true hfire)]
      exact ⟨le_refl _, fun m hm hkm => hmono k m (by omega) hm⟩
    · obtain ⟨h1, h2⟩ := ih (by omega) (by omega)
      split_ifs
      · exact ⟨hmono i k (by omega) hk', fun m hm hkm => hmono k m (by omega) hm⟩
      · exact ⟨h1, fun m hm hkm => h2 m hm (by omega)⟩

/-- C9: for every sequence of `shouldUpdateEffect` calls on one `EffectTiming`
with non-decreasing clock readings and no wrap-around, and whatever the speed
(and length) arguments are, any two calls that return `true` are at least
`FRAMETIME_FIXED` milliseconds apart, and `FRAMETIME_FIXED` is 23. -/
theorem fired_calls_spaced_by_frametime
    (t : EffectTiming) (calls : List (Nat × Nat × Nat))
    (hmono : ∀ i j, ∀ hij : i ≤ j, ∀ hj : j < calls.length, calls[i].1 ≤ calls[j].1)
    (hbound : ∀ i, ∀ hi : i < calls.length, calls[i].1 < ULONG_RANGE) :
    FRAMETIME_FIXED = 23 ∧
    ∀ i j, ∀ hij : i < j, ∀ hj : j < calls.length,
      firedAt t calls i = true → firedAt t calls j = true →
      calls[i].1 + FRAMETIME_FIXED ≤ calls[j].1 := by
  refine ⟨by decide, ?_⟩
  intro i j hij hj hfi hfj
  obtain ⟨h1, h2⟩ :=
    clock_lastFrame_after_fire t calls hmono i (by omega) hfi j hij (Nat.le_of_lt hj)
  have h3 := h2 j hj (le_refl j)
  rw [firedAt_eq t calls j hj] at hfj
  have h4 := of_decide_eq_true hfj
  rw [usub32_of_le _ _ h3 (hbound j hj)] at h4
  omega

theorem clockCalls_mono : ∀ i j, ∀ hij : i ≤ j, ∀ hj : j < clockCalls.length,
    clockCalls[i].1 ≤ clockCalls[j].1 := by
  intro i j hij hj
  have hj5 : j < 5 := hj
  interval_cases j <;> interval_cases i <;> simp [clockCalls]

/-- Witness for C9: five calls from the initial clock; the calls at 100 and 123
fire, 23 ms apart. -/
theorem fired_calls_spaced_by_frametime_witness :
    firedAt {} clockCalls 0 = true ∧ firedAt {} clockCalls 2 = true ∧
    (clockCalls.get ⟨0, by decide⟩).1 + FRAMETIME_FIXED ≤ (clockCalls.get ⟨2, by decide⟩).1 :=
  ⟨by decide, by decide,
   (fired_calls_spaced_by_frametime {} clockCalls clockCalls_mono (by decide)).2 0 2
     (by decide) (by decide) (by decide) (by decide)⟩

theorem clockStream_length_irrelevant (t : EffectTiming) (calls : List (Nat × Nat))
    (l1 l2 : Nat) :
    clockStream t (calls.map (fun c => (c.1, c.2, l1)))
      = clockStream t (calls.map (fun c => (c.1, c.2, l2))) ∧
    runClock t (calls.map (fun c => (c.1, c.2, l1)))
      = runClock t (calls.map (fun c => (c.1, c.2, l2))) := by
  induction calls generalizing t with
  | nil => exact ⟨rfl, rfl⟩
  | cons c rest ih =>
    have h : shouldUpdateEffect t c.1 c.2 l1 = shouldUpdateEffect t c.1 c.2 l2 := rfl
    obtain ⟨ih1, ih2⟩ := ih (shouldUpdateEffect t c.1 c.2 l2).2
    constructor
    · simp only [List.map_cons, clockStream, h, ih1]
    · simp only [List.map_cons, runClock, List.foldl_cons, h] at ih2 ⊢
      exact ih2

/-- C10: the return value of `shouldUpdateEffect` and the `EffectTiming` it
leaves do not depend on the length argument; two channels of lengths `l1` and
`l2` driven from the same timing state with the same speeds at the same times
produce the same fired flags, the same step stream and the same final clock. -/
theorem clock_independent_of_length (t : EffectTiming) (now speed l1 l2 : Nat)
    (calls : List (Nat × Nat)) :
    shouldUpdateEffect t now speed l1 = shouldUpdateEffect t now speed l2 ∧
    clockStream t (calls.map (fun c => (c.1, c.2, l1)))
      = clockStream t (calls.map (fun c => (c.1, c.2, l2))) ∧
    runClock t (calls.map (fun c => (c.1, c.2, l1)))
      = runClock t (calls.map (fun c => (c.1, c.2, l2))) :=
  ⟨rfl, clockStream_length_irrelevant t calls l1 l2⟩

/-! ## Calibrator: facts -/

theorem completeCalibration_forwardAxis (s : State) :
    (completeCalibration s).calibration.forwardAxis
      = if |s.calibration.forwardAccelX - s.calibration.backwardAccelX|
            > |s.calibration.forwardAccelY - s.calibration.backwardAccelY| ∧
           |s.calibration.forwardAccelX - s.calibration.backwardAccelX|
            > |s.calibration.forwardAccelZ - s.calibration.backwardAccelZ| then 'X'
        else if |s.calibration.forwardAccelY - s.calibration.backwardAccelY|
            > |s.calibration.forwardAccelZ - s.calibration.backwardAccelZ| then 'Y'
        else 'Z' := by
  unfold completeCalibration
  simp only []
  split_ifs <;> rfl

theorem completeCalibration_forwardSign (s : State) :
    (completeCalibration s).calibration.forwardSign
      = if |s.calibration.forwardAccelX - s.calibration.backwardAccelX|
            > |s.calibration.forwardAccelY - s.calibration.backwardAccelY| ∧
           |s.calibration.forwardAccelX - s.calibration.backwardAccelX|
            > |s.calibration.forwardAccelZ - s.calibration.backwardAccelZ| then
          (if s.calibration.forwardAccelX > s.calibration.backwardAccelX then 1 else -1)
        else if |s.calibration.forwardAccelY - s.calibration.backwardAccelY|
            > |s.calibration.forwardAccelZ - s.calibration.backwardAccelZ| then
          (if s.calibration.forwardAccelY > s.calibration.backwardAccelY then 1 else -1)
        else (if s.calibration.forwardAccelZ > s.calibration.backwardAccelZ then 1 else -1) := by
  unfold completeCalibration
  simp only []
  split_ifs <;> rfl

theorem completeCalibration_leftRightAxis (s : State) :
    (completeCalibration s).calibration.leftRightAxis
      = if |s.calibration.leftAccelX - s.calibration.rightAccelX|
            > |s.calibration.leftAccelY - s.calibration.rightAccelY| ∧
           |s.calibration.leftAccelX - s.calibration.rightAccelX|
            > |s.calibration.leftAccelZ - s.calibration.rightAccelZ| then 'X'
        else if |s.calibration.leftAccelY - s.calibration.rightAccelY|
            > |s.calibration.leftAccelZ - s.calibration.rightAccelZ| then 'Y'
        else 'Z' := by
  unfold completeCalibration
  simp only []
  split_ifs <;> rfl

theorem completeCalibration_leftRightSign (s : State) :
    (completeCalibration s).calibration.leftRightSign
      = if |s.calibration.leftAccelX - s.calibration.rightAccelX|
            > |s.calibration.leftAccelY - s.calibration.rightAccelY| ∧
           |s.calibration.leftAccelX - s.calibration.rightAccelX|
            > |s.calibration.leftAccelZ - s.calibration.rightAccelZ| then
          (if s.calibration.leftAccelX > s.calibration.rightAccelX then 1 else -1)
        else if |s.calibration.leftAccelY - s.calibration.rightAccelY|
            > |s.calibration.leftAccelZ - s.calibration.rightAccelZ| then
          (if s.calibration.leftAccelY > s.calibration.rightAccelY then 1 else -1)
        else (if s.calibration.leftAccelZ > s.calibration.rightAccelZ then 1 else -1) := by
  unfold completeCalibration
  simp only []
  split_ifs <;> rfl

/-- The axis and sign selection of `completeCalibration`, on three deltas. -/
theorem axis_choice_maximal (dx dy dz : ℚ) :
    let axis : Char := if |dx| > |dy| ∧ |dx| > |dz| then 'X' else if |dy| > |dz| then 'Y' else 'Z'
    (axis = 'X' ∨ axis = 'Y' ∨ axis = 'Z') ∧
    |dx| ≤ |axisValue axis dx dy dz| ∧ |dy| ≤ |axisValue axis dx dy dz| ∧
    |dz| ≤ |axisValue axis dx dy dz| := by
  intro axis
  by_cases h1 : |dx| > |dy| ∧ |dx| > |dz|
  · have : axis = 'X' := if_pos h1
    rw [this]
    obtain ⟨hxy, hxz⟩ := h1
    refine ⟨Or.inl rfl, ?_, ?_, ?_⟩ <;> simp [axisValue] <;> linarith
  · by_cases h2 : |dy| > |dz|
    · have : axis = 'Y' := by simp only [axis, if_neg h1, if_pos h2]
      rw [this]
      have hxy : |dx| ≤ |dy| := by
        by_contra hc
        push_neg at hc
        exact h1 ⟨hc, lt_trans h2 hc⟩
      refine ⟨Or.inr (Or.inl rfl), ?_, ?_, ?_⟩ <;> simp [axisValue] <;> linarith
    · have : axis = 'Z' := by simp only [axis, if_neg h1, if_neg h2]
      rw [this]
      push_neg at h2
      have hxz : |dx| ≤ |dz| := by
        by_contra hc
        push_neg at hc
        exact h1 ⟨lt_of_le_of_lt h2 hc, hc⟩
      refine ⟨Or.inr (Or.inr rfl), ?_, ?_, ?_⟩ <;> simp [axisValue] <;> linarith

theorem sign_choice_eq (fx fy fz bx by_ bz : ℚ) :
    (if |fx - bx| > |fy - by_| ∧ |fx - bx| > |fz - bz| then (if fx > bx then (1 : Int) else -1)
      else if |fy - by_| > |fz - bz| then (if fy > by_ then 1 else -1)
      else (if fz > bz then 1 else -1))
    = if axisValue
          (if |fx - bx| > |fy - by_| ∧ |fx - bx| > |fz - bz| then 'X'
            else if |fy - by_| > |fz - bz| then 'Y' else 'Z')
          (fx - bx) (fy - by_) (fz - bz) > 0 then 1 else -1 := by
  by_cases h1 : |fx - bx| > |fy - by_| ∧ |fx - bx| > |fz - bz|
  · simp only [if_pos h1, axisValue, if_true, gt_iff_lt, sub_pos]
  · by_cases h2 : |fy - by_| > |fz - bz|
    · simp [if_neg h1, if_pos h2, axisValue]
    · simp [if_neg h1, if_neg h2, axisValue]

/-- C7 (amended): `completeCalibration` sets `forwardAxis` to one of X, Y, Z whose
absolute Forward-minus-Backward delta is maximal among the three, and
`forwardSign` to +1 when that axis's delta is positive and to -1 otherwise
(the sign of the delta whenever the delta is not zero); `leftRightAxis` and
`leftRightSign` are computed identically from the Left and Right poses; for
forward pose (0.1, 0.05, 0.9) and backward pose (-0.1, 0.0, 0.85) the result is
axis X with sign +1. -/
theorem calibration_axis_maximal_sign_positive_or_minus_one (s : State) :
    (((completeCalibration s).calibration.forwardAxis = 'X' ∨
        (completeCalibration s).calibration.forwardAxis = 'Y' ∨
        (completeCalibration s).calibration.forwardAxis = 'Z') ∧
      |forwardDelta s.calibration 'X'|
        ≤ |forwardDelta s.calibration (completeCalibration s).calibration.forwardAxis| ∧
      |forwardDelta s.calibration 'Y'|
        ≤ |forwardDelta s.calibration (completeCalibration s).calibration.forwardAxis| ∧
      |forwardDelta s.calibration 'Z'|
        ≤ |forwardDelta s.calibration (completeCalibration s).calibration.forwardAxis| ∧
      (completeCalibration s).calibration.forwardSign
        = (if forwardDelta s.calibration (completeCalibration s).calibration.forwardAxis > 0
            then 1 else -1) ∧
      (forwardDelta s.calibration (completeCalibration s).calibration.forwardAxis ≠ 0 →
        (completeCalibration s).calibration.forwardSign
          = signOfDelta
              (forwardDelta s.calibration (completeCalibration s).calibration.forwardAxis))) ∧
    (((completeCalibration s).calibration.leftRightAxis = 'X' ∨
        (completeCalibration s).calibration.leftRightAxis = 'Y' ∨
        (completeCalibration s).calibration.leftRightAxis = 'Z') ∧
      |leftRightDelta s.calibration 'X'|
        ≤ |leftRightDelta s.calibration (completeCalibration s).calibration.leftRightAxis| ∧
      |leftRightDelta s.calibration 'Y'|
        ≤ |leftRightDelta s.calibration (completeCalibration s).calibration.leftRightAxis| ∧
      |leftRightDelta s.calibration 'Z'|
        ≤ |leftRightDelta s.calibration (completeCalibration s).calibration.leftRightAxis| ∧
      (completeCalibration s).calibration.leftRightSign
        = (if leftRightDelta s.calibration (completeCalibration s).calibration.leftRightAxis > 0
            then 1 else -1) ∧
      (leftRightDelta s.calibration (completeCalibration s).calibration.leftRightAxis ≠ 0 →
        (completeCalibration s).calibration.leftRightSign
          = signOfDelta
              (leftRightDelta s.calibration
                (completeCalibration s).calibration.leftRightAxis))) ∧
    ((completeCalibration
        { s with calibration :=
          { s.calibration with
            forwardAccelX := 1 / 10, forwardAccelY := 1 / 20, forwardAccelZ := 9 / 10
            backwardAccelX := -(1 / 10), backwardAccelY := 0, backwardAccelZ := 17 / 20 } }
      ).calibration.forwardAxis = 'X' ∧
     (completeCalibration
        { s with calibration :=
          { s.calibration with
            forwardAccelX := 1 / 10, forwardAccelY := 1 / 20, forwardAccelZ := 9 / 10
            backwardAccelX := -(1 / 10), backwardAccelY := 0, backwardAccelZ := 17 / 20 } }
      ).calibration.forwardSign = 1) := by
  refine ⟨?_, ?_, ?_⟩
  · have hmax := axis_choice_maximal
      (s.calibration.forwardAccelX - s.calibration.backwardAccelX)
      (s.calibration.forwardAccelY - s.calibration.backwardAccelY)
      (s.calibration.forwardAccelZ - s.calibration.backwardAccelZ)
    have hsign := sign_choice_eq s.calibration.forwardAccelX s.calibration.forwardAccelY
      s.calibration.forwardAccelZ s.calibration.backwardAccelX s.calibration.backwardAccelY
      s.calibration.backwardAccelZ
    simp only [] at hmax
    rw [← completeCalibration_forwardAxis] at hmax hsign
    rw [← completeCalibration_forwardSign] at hsign
    obtain ⟨hax, hx, hy, hz⟩ := hmax
    have hS : (completeCalibration s).calibration.forwardSign
        = (if forwardDelta s.calibration (completeCalibration s).calibration.forwardAxis > 0
            then 1 else -1) := hsign
    refine ⟨hax, ?_, ?_, ?_, hS, ?_⟩
    · simpa [forwardDelta, axisValue] using hx
    · simpa [forwardDelta, axisValue] using hy
    · simpa [forwardDelta, axisValue] using hz
    · intro hne
      rw [hS]
      unfold signOfDelta
      by_cases hpos : forwardDelta s.calibration (completeCalibration s).calibration.forwardAxis > 0
      · simp [hpos]
      · have hneg : forwardDelta s.calibration (completeCalibration s).calibration.forwardAxis < 0 :=
          lt_of_le_of_ne (not_lt.mp hpos) hne
        simp [hpos, hneg]
  · have hmax := axis_choice_maximal
      (s.calibration.leftAccelX - s.calibration.rightAccelX)
      (s.calibration.leftAccelY - s.calibration.rightAccelY)
      (s.calibration.leftAccelZ - s.calibration.rightAccelZ)
    have hsign := sign_choice_eq s.calibration.leftAccelX s.calibration.leftAccelY
      s.calibration.leftAccelZ s.calibration.rightAccelX s.calibration.rightAccelY
      s.calibration.rightAccelZ
    simp only [] at hmax
    rw [← completeCalibration_leftRightAxis] at hmax hsign
    rw [← completeCalibration_leftRightSign] at hsign
    obtain ⟨hax, hx, hy, hz⟩ := hmax
    have hS : (completeCalibration s).calibration.leftRightSign
        = (if leftRightDelta s.calibration (completeCalibration s).calibration.leftRightAxis > 0
            then 1 else -1) := hsign
    refine ⟨hax, ?_, ?_, ?_, hS, ?_⟩
    · simpa [leftRightDelta, axisValue] using hx
    · simpa [leftRightDelta, axisValue] using hy
    · simpa [leftRightDelta, axisValue] using hz
    · intro hne
      rw [hS]
      unfold signOfDelta
      by_cases hpos :
          leftRightDelta s.calibration (completeCalibration s).calibration.leftRightAxis > 0
      · simp [hpos]
      · have hneg :
            leftRightDelta s.calibration (completeCalibration s).calibration.leftRightAxis < 0 :=
          lt_of_le_of_ne (not_lt.mp hpos) hne
        simp [hpos, hneg]
  · constructor
    · rw [completeCalibration_forwardAxis]
      norm_num [abs_of_pos]
    · rw [completeCalibration_forwardSign]
      norm_num [abs_of_pos]

/-- C7, counterexample: when the Forward and Backward poses coincide (here all
zero) every delta is 0, axis Z is chosen and `forwardSign` is -1, which is not
the sign of the delta 0. -/
theorem calibration_sign_not_sign_of_zero_delta :
    forwardDelta initialState.calibration
        (completeCalibration initialState).calibration.forwardAxis = 0 ∧
    (completeCalibration initialState).calibration.forwardSign = -1 ∧
    (completeCalibration initialState).calibration.forwardSign
      ≠ signOfDelta (forwardDelta initialState.calibration
          (completeCalibration initialState).calibration.forwardAxis) := by
  rw [completeCalibration_forwardSign, completeCalibration_forwardAxis]
  simp [initialState, forwardDelta, axisValue, signOfDelta]

/-! ## Braking controller: facts -/

theorem applyEffectToArray_braking (lib : FxLib) (s : State) (leds : List CRGB)
    (numLeds effect : Nat) (color : CRGB) (timing : EffectTiming) (ledType colorOrder : Nat)
    (bgc : CRGB) (bge : Bool) :
    (applyEffectToArray lib s leds numLeds effect color timing ledType colorOrder bgc
      bge).1.toBrakingVars = s.toBrakingVars := by
  unfold applyEffectToArray
  simp only []
  split_ifs <;> rfl

theorem showParkEffect_braking (lib : FxLib) (s : State) :
    (showParkEffect lib s).toBrakingVars = s.toBrakingVars := by
  unfold showParkEffect
  simp only []
  split_ifs <;> rfl

theorem showBlinkerEffect_braking (s : State) (now : Nat) (d : Int) :
    (showBlinkerEffect s now d).toBrakingVars = s.toBrakingVars := by
  unfold showBlinkerEffect
  simp only []
  split_ifs <;> rfl

theorem renderFixedRoles_braking (lib : FxLib) (s : State) (hu tu : Bool) :
    (renderFixedRoles lib s hu tu).toBrakingVars = s.toBrakingVars := by
  unfold renderFixedRoles
  simp only []
  split_ifs <;> simp [applyEffectToArray_braking]

theorem renderDirectionNormal_braking (lib : FxLib) (s : State) (fu bu : Bool) :
    (renderDirectionNormal lib s fu bu).toBrakingVars = s.toBrakingVars := by
  unfold renderDirectionNormal
  simp only []
  split_ifs <;> simp [applyEffectToArray_braking]

theorem renderDirectionFade_braking (lib : FxLib) (s : State) (fu bu : Bool) :
    (renderDirectionFade lib s fu bu).toBrakingVars = s.toBrakingVars := by
  unfold renderDirectionFade
  simp only []
  split_ifs <;> simp [applyEffectToArray_braking]

theorem tickClocks_braking (s : State) (now : Nat) :
    (tickClocks s now).toBrakingVars = s.toBrakingVars := rfl

theorem initFadeArrays_braking (lib : FxLib) (s : State) :
    (initFadeArrays lib s).toBrakingVars = s.toBrakingVars := by
  unfold initFadeArrays
  simp only []
  split_ifs <;> rfl

theorem renderBase_braking (lib : FxLib) (s : State) (hu tu : Bool) :
    (renderBase lib s hu tu).toBrakingVars = s.toBrakingVars := by
  unfold renderBase renderDirectionBased
  simp only []
  split_ifs <;>
    simp [renderFixedRoles_braking, renderDirectionNormal_braking, renderDirectionFade_braking,
      initFadeArrays_braking]

theorem overlayBlinker_braking (s : State) (now : Nat) :
    (overlayBlinker s now).toBrakingVars = s.toBrakingVars := by
  unfold overlayBlinker
  split_ifs
  · rw [showBlinkerEffect_braking]
  · rfl

theorem showBrakingEffect_counts (lib : FxLib) (s : State) (now : Nat) :
    ((showBrakingEffect lib s now).brakingFlashCount = s.brakingFlashCount ∨
      (s.brakingFlashCount < 3 ∧
        (showBrakingEffect lib s now).brakingFlashCount = (s.brakingFlashCount + 1) % 256)) ∧
    ((showBrakingEffect lib s now).brakingPulseCount = s.brakingPulseCount ∨
      (s.brakingPulseCount < 3 ∧
        (showBrakingEffect lib s now).brakingPulseCount = (s.brakingPulseCount + 1) % 256)) := by
  unfold showBrakingEffect setTargetLights BRAKING_CYCLE_COUNT
  simp only []
  split_ifs <;> simp_all

theorem showBrakingEffect_bounded (lib : FxLib) (s : State) (now : Nat)
    (h1 : s.brakingFlashCount ≤ 3) (h2 : s.brakingPulseCount ≤ 3) :
    (showBrakingEffect lib s now).brakingFlashCount ≤ 3 ∧
    (showBrakingEffect lib s now).brakingPulseCount ≤ 3 := by
  obtain ⟨hf, hp⟩ := showBrakingEffect_counts lib s now
  constructor
  · rcases hf with h | ⟨hlt, h⟩
    · rw [h]; exact h1
    · rw [h]; omega
  · rcases hp with h | ⟨hlt, h⟩
    · rw [h]; exact h2
    · rw [h]; omega

theorem processBrakingDetection_counts (s : State) (now : Nat) (d : MotionData) :
    ((processBrakingDetection s now d).brakingFlashCount = s.brakingFlashCount ∨
      (processBrakingDetection s now d).brakingFlashCount = 0) ∧
    ((processBrakingDetection s now d).brakingPulseCount = s.brakingPulseCount ∨
      (processBrakingDetection s now d).brakingPulseCount = 0) := by
  unfold processBrakingDetection
  simp only []
  split_ifs <;> simp

theorem counts_of_braking_eq (s t : State) (h : t.toBrakingVars = s.toBrakingVars) :
    t.brakingFlashCount = s.brakingFlashCount ∧ t.brakingPulseCount = s.brakingPulseCount := by
  constructor
  · show t.toBrakingVars.brakingFlashCount = _; rw [h]
  · show t.toBrakingVars.brakingPulseCount = _; rw [h]

theorem updateEffects_bounded (lib : FxLib) (s : State) (now : Nat)
    (h1 : s.brakingFlashCount ≤ 3) (h2 : s.brakingPulseCount ≤ 3) :
    (updateEffects lib s now).brakingFlashCount ≤ 3 ∧
    (updateEffects lib s now).brakingPulseCount ≤ 3 := by
  unfold updateEffects
  simp only []
  split_ifs
  · obtain ⟨e1, e2⟩ := counts_of_braking_eq s _ (tickClocks_braking s now)
    rw [e1, e2]; exact ⟨h1, h2⟩
  · obtain ⟨e1, e2⟩ := counts_of_braking_eq s _
      ((showParkEffect_braking lib (tickClocks s now)).trans (tickClocks_braking s now))
    rw [e1, e2]; exact ⟨h1, h2⟩
  · obtain ⟨e1, e2⟩ := counts_of_braking_eq _ _ (overlayBlinker_braking
      (overlayBraking lib (renderBase lib (tickClocks s now)
        (shouldUpdateEffect s.headlightTiming now s.effectSpeed s.headlightLedCount).1
        (shouldUpdateEffect s.taillightTiming now s.effectSpeed s.taillightLedCount).1) now) now)
    rw [e1, e2]
    obtain ⟨b1, b2⟩ := counts_of_braking_eq s _
      ((renderBase_braking lib (tickClocks s now)
        (shouldUpdateEffect s.headlightTiming now s.effectSpeed s.headlightLedCount).1
        (shouldUpdateEffect s.taillightTiming now s.effectSpeed s.taillightLedCount).1).trans
        (tickClocks_braking s now))
    unfold overlayBraking
    split_ifs
    · exact showBrakingEffect_bounded lib _ now (by rw [b1]; exact h1) (by rw [b2]; exact h2)
    · rw [b1, b2]; exact ⟨h1, h2⟩

theorem brakingReachable_bounded (lib : FxLib) (s : State) (h : BrakingReachable lib s) :
    s.brakingFlashCount ≤ 3 ∧ s.brakingPulseCount ≤ 3 := by
  induction h with
  | start s h1 h2 => rw [h1, h2]; exact ⟨by norm_num, by norm_num⟩
  | detect s now data _ ih =>
    obtain ⟨hf, hp⟩ := processBrakingDetection_counts s now data
    constructor
    · rcases hf with h | h
      · rw [h]; exact ih.1
      · rw [h]; norm_num
    · rcases hp with h | h
      · rw [h]; exact ih.2
      · rw [h]; norm_num
  | showEffect s now _ ih => exact showBrakingEffect_bounded lib s now ih.1 ih.2
  | frame s now _ ih => exact updateEffects_bounded lib s now ih.1 ih.2
  | manual s now m _ ih =>
    unfold apiManualBrake resetToNormalEffects
    simp only []
    split_ifs
    · exact updateEffects_bounded lib _ now (by simp) (by simp)
    · exact ⟨by simp, by simp⟩

theorem showBrakingEffect_saturated (lib : FxLib) (s : State) (now : Nat)
    (hact : s.brakingActive = true) (hsat : brakingCycleCount s = 3) :
    brakingCycleCount (showBrakingEffect lib s now) = 3 ∧
    (showBrakingEffect lib s now).brakingActive = true ∧
    rearLights (showBrakingEffect lib s now)
      = fill_solid (rearLights s) (rearCount s) (rearRed s) := by
  unfold brakingCycleCount at hsat
  unfold showBrakingEffect setTargetLights BRAKING_CYCLE_COUNT brakingCycleCount rearLights
    rearCount rearRed fillSolidWithColorOrder
  simp only [hact]
  by_cases he : s.brakingEffect = 0
  · rw [if_pos he] at hsat
    cases hf : s.isMovingForward <;> simp [he, hsat, hf] <;> split_ifs <;> simp_all
  · rw [if_neg he] at hsat
    cases hf : s.isMovingForward <;> simp [he, hsat, hf] <;> split_ifs <;> simp_all

theorem fill_solid_getElem (leds : List CRGB) (n : Nat) (c : CRGB) (i : Nat) (hi : i < n) :
    (fill_solid leds n c)[i]? = some c := by
  unfold fill_solid
  rw [List.getElem?_append_left (by simpa using hi)]
  simp [hi]

/-- C5: in every state reachable through `processBrakingDetection`,
`showBrakingEffect` (alone or inside a composer frame) and the `manualBrake`
command from counters at their initial value 0, `brakingFlashCount <= 3` and
`brakingPulseCount <= 3`; and once the counter of the selected braking mode
equals 3 while braking is active, `showBrakingEffect` leaves it at 3, keeps
braking active and fills every pixel of the rear-role strip with red (stored
colour-order converted on LED type 0). -/
theorem braking_cycle_count_saturates (lib : FxLib) (s : State)
    (h : BrakingReachable lib s) :
    s.brakingFlashCount ≤ 3 ∧ s.brakingPulseCount ≤ 3 ∧
    ∀ now : Nat, s.brakingActive = true → brakingCycleCount s = 3 →
      brakingCycleCount (showBrakingEffect lib s now) = 3 ∧
      (showBrakingEffect lib s now).brakingActive = true ∧
      (showBrakingEffect lib s now).brakingFlashCount ≤ 3 ∧
      (showBrakingEffect lib s now).brakingPulseCount ≤ 3 ∧
      ∀ i, i < rearCount s → (rearLights (showBrakingEffect lib s now))[i]? = some (rearRed s) := by
  obtain ⟨h1, h2⟩ := brakingReachable_bounded lib s h
  refine ⟨h1, h2, ?_⟩
  intro now hact hsat
  obtain ⟨g1, g2, g3⟩ := showBrakingEffect_saturated lib s now hact hsat
  obtain ⟨b1, b2⟩ := showBrakingEffect_bounded lib s now h1 h2
  refine ⟨g1, g2, b1, b2, ?_⟩
  intro i hi
  rw [g3]
  exact fill_solid_getElem _ _ _ i hi

theorem saturatedBraking_reachable : BrakingReachable idleLib saturatedBraking :=
  BrakingReachable.showEffect _ 2200
    (BrakingReachable.showEffect _ 1800
      (BrakingReachable.showEffect _ 1400
        (BrakingReachable.manual _ 1000 true (BrakingReachable.start twoPixelState rfl rfl))))

theorem saturatedBraking_count :
    saturatedBraking.brakingActive = true ∧ brakingCycleCount saturatedBraking = 3 := by
  decide

/-- Witness for C5: after manual braking and three flash cycles the counter is 3;
the next overlay keeps it at 3 and shows red on both rear pixels. -/
theorem braking_cycle_count_saturates_witness :
    saturatedBraking.brakingFlashCount ≤ 3 ∧
    brakingCycleCount (showBrakingEffect idleLib saturatedBraking 2300) = 3 ∧
    (∀ i, i < rearCount saturatedBraking →
      (rearLights (showBrakingEffect idleLib saturatedBraking 2300))[i]?
        = some (rearRed saturatedBraking)) :=
  ⟨(braking_cycle_count_saturates idleLib saturatedBraking saturatedBraking_reachable).1,
   ((braking_cycle_count_saturates idleLib saturatedBraking saturatedBraking_reachable).2.2
      2300 saturatedBraking_count.1 saturatedBraking_count.2).1,
   ((braking_cycle_count_saturates idleLib saturatedBraking saturatedBraking_reachable).2.2
      2300 saturatedBraking_count.1 saturatedBraking_count.2).2.2.2.2⟩

/-! ## Layer composer: park pre-emption -/

theorem updateEffects_park (lib : FxLib) (s : State) (now : Nat)
    (hpark : s.parkModeActive = true) (hgate : rendersFrame s now = true) :
    updateEffects lib s now = showParkEffect lib (tickClocks s now) := by
  unfold updateEffects
  have hp : (tickClocks s now).parkModeActive = true := hpark
  simp only [hgate, hp, if_true]
  simp

theorem showParkEffect_buffers_step_only (lib : FxLib) (s : State) (t1 t2 : EffectTiming)
    (h1 : t1.step = s.headlightTiming.step) (h2 : t2.step = s.taillightTiming.step) :
    (showParkEffect lib { s with headlightTiming := t1, taillightTiming := t2 }).headlight
      = (showParkEffect lib s).headlight ∧
    (showParkEffect lib { s with headlightTiming := t1, taillightTiming := t2 }).taillight
      = (showParkEffect lib s).taillight := by
  unfold showParkEffect getEffectBackgroundColor
  simp only [h1, h2]
  split_ifs <;> exact ⟨rfl, rfl⟩

theorem shouldUpdateEffect_step_of_not_fired (t : EffectTiming) (now speed length : Nat)
    (h : (shouldUpdateEffect t now speed length).1 = false) :
    (shouldUpdateEffect t now speed length).2.step = t.step := by
  unfold shouldUpdateEffect at h ⊢
  simp only [] at h ⊢
  split_ifs at h ⊢
  all_goals simp_all

/-- C6 (amended): in every state with `parkModeActive = true` in which
`updateEffects` renders a frame (whatever `blinkerActive` and `brakingActive`
are), the state after `updateEffects`, and so both pixel buffers, is the one
`showParkEffect` alone produces from the state in which the two
`shouldUpdateEffect` calls of the frame have advanced the animation clocks; no
other layer writes a pixel.  When neither clock fired, the buffers equal those
`showParkEffect` produces from the state `updateEffects` started from. -/
theorem park_frame_is_park_effect_after_clock_tick (lib : FxLib) (s : State) (now : Nat)
    (hpark : s.parkModeActive = true) (hgate : rendersFrame s now = true) :
    updateEffects lib s now = showParkEffect lib (tickClocks s now) ∧
    (updateEffects lib s now).headlight = (showParkEffect lib (tickClocks s now)).headlight ∧
    (updateEffects lib s now).taillight = (showParkEffect lib (tickClocks s now)).taillight ∧
    ((shouldUpdateEffect s.headlightTiming now s.effectSpeed s.headlightLedCount).1 = false →
      (shouldUpdateEffect s.taillightTiming now s.effectSpeed s.taillightLedCount).1 = false →
      (updateEffects lib s now).headlight = (showParkEffect lib s).headlight ∧
      (updateEffects lib s now).taillight = (showParkEffect lib s).taillight) := by
  have h := updateEffects_park lib s now hpark hgate
  refine ⟨h, by rw [h], by rw [h], ?_⟩
  intro hh ht
  rw [h]
  exact showParkEffect_buffers_step_only lib s _ _
    (shouldUpdateEffect_step_of_not_fired _ _ _ _ hh)
    (shouldUpdateEffect_step_of_not_fired _ _ _ _ ht)

theorem parkedPolice_renders : rendersFrame parkedPolice 100 = true := by decide

/-- Witness for C6 (amended): Park, blinker and braking all active. -/
theorem park_frame_is_park_effect_after_clock_tick_witness :
    (parkedPolice.parkModeActive = true ∧ parkedPolice.blinkerActive = true ∧
      parkedPolice.brakingActive = true) ∧
    (updateEffects idleLib parkedPolice 100).headlight
      = (showParkEffect idleLib (tickClocks parkedPolice 100)).headlight :=
  ⟨⟨rfl, rfl, rfl⟩,
   (park_frame_is_park_effect_after_clock_tick idleLib parkedPolice 100 rfl
     parkedPolice_renders).2.1⟩

/-- C6, counterexample: with the police pattern as park effect and the headlight
clock at step 9, the frame fires the clock (step 11), so `updateEffects` shows
blue on pixel 0 where `showParkEffect` alone from the same state shows red. -/
theorem park_frame_differs_from_park_effect_on_same_state :
    parkedPolice.parkModeActive = true ∧ rendersFrame parkedPolice 100 = true ∧
    (updateEffects idleLib parkedPolice 100).headlight = [CRGB.Blue, CRGB.Red] ∧
    (showParkEffect idleLib parkedPolice).headlight = [CRGB.Red, CRGB.Blue] ∧
    (updateEffects idleLib parkedPolice 100).headlight
      ≠ (showParkEffect idleLib parkedPolice).headlight := by
  decide

/-! ## Deferred settings hand-off: facts -/

theorem busyPayload_eq :
    asciiBytes "\x7b\"error\":\"" ++ asciiBytes "Busy" ++ asciiBytes "\"\x7d" = busyPayload := by
  decide

theorem handleBleFrame_busy (s : State) (frame : BleFrame)
    (hpend : s.blePendingApply = true) (htype : frame.type = BLE_MSG_SETTINGS_JSON)
    (hpay : frame.payload ≠ []) :
    handleBleFrame s frame
      = { s with bleSent := s.bleSent ++
            [{ type := BLE_MSG_ERROR, seq := frame.seq, flags := 0, payload := busyPayload }] } := by
  unfold handleBleFrame sendBleError sendBleFrame
  rw [busyPayload_eq]
  simp [htype, hpay, hpend]

theorem loopApplyPending_pending {Doc : Type} (parse : List Nat → Option Doc)
    (apply : Doc → State → State) (s : State) (hpend : s.blePendingApply = true) :
    loopApplyPending parse apply s
      = if s.blePendingJson = [] then { s with blePendingApply := false, blePendingJson := [] }
        else
          match parse s.blePendingJson with
          | none => { s with blePendingApply := false, blePendingJson := [] }
          | some doc => apply doc { s with blePendingApply := false, blePendingJson := [] } := by
  unfold loopApplyPending
  simp only [hpend, if_true, true_and]
  by_cases hj : s.blePendingJson = []
  · simp [hj]
  · have hlen : s.blePendingJson.length > 0 := List.length_pos.mpr hj
    simp [hj, hlen]

theorem loopApplyPending_idle {Doc : Type} (parse : List Nat → Option Doc)
    (apply : Doc → State → State) (s : State) (hpend : s.blePendingApply = false) :
    loopApplyPending parse apply s = s := by
  unfold loopApplyPending
  simp [hpend]

/-- C8 (amended): if a settings frame with a non-empty payload is handled in
`MyCallbacks::onWrite` while `blePendingApply` is already true, the state is left
as it was (the stored `blePendingJson` and the flag in particular) except that
an error frame with the frame's sequence number and the payload `Busy` is sent.
The next loop iteration then clears the pending flag and the stored payload and
hands exactly the stored first payload to the JSON parser: if it parses,
`applyApiJson` is applied once to the parsed document; if it is empty or does
not parse, nothing is applied.  A loop iteration that finds the flag cleared
applies nothing. -/
theorem ble_busy_first_pending_wins {Doc : Type} (parse : List Nat → Option Doc)
    (apply : Doc → State → State) (s : State) (frame : BleFrame)
    (hpend : s.blePendingApply = true) (htype : frame.type = BLE_MSG_SETTINGS_JSON)
    (hpay : frame.payload ≠ []) :
    (handleBleFrame s frame).blePendingJson = s.blePendingJson ∧
    (handleBleFrame s frame).blePendingApply = true ∧
    handleBleFrame s frame
      = { s with bleSent := s.bleSent ++
            [{ type := BLE_MSG_ERROR, seq := frame.seq, flags := 0, payload := busyPayload }] } ∧
    loopApplyPending parse apply (handleBleFrame s frame)
      = (if s.blePendingJson = [] then
          { handleBleFrame s frame with blePendingApply := false, blePendingJson := [] }
        else
          match parse s.blePendingJson with
          | none => { handleBleFrame s frame with blePendingApply := false, blePendingJson := [] }
          | some doc =>
            apply doc
              { handleBleFrame s frame with blePendingApply := false, blePendingJson := [] }) ∧
    loopApplyPending parse apply
        { handleBleFrame s frame with blePendingApply := false, blePendingJson := [] }
      = { handleBleFrame s frame with blePendingApply := false, blePendingJson := [] } := by
  have h := handleBleFrame_busy s frame hpend htype hpay
  have hj : (handleBleFrame s frame).blePendingJson = s.blePendingJson := by rw [h]
  have hp : (handleBleFrame s frame).blePendingApply = true := by rw [h]; exact hpend
  refine ⟨hj, hp, h, ?_, ?_⟩
  · rw [loopApplyPending_pending parse apply _ hp, hj]
  · exact loopApplyPending_idle parse apply _ rfl

/-- Witness for C8 (amended): a second settings frame while the text of an empty
object is pending; the parser stand-in accepts every payload and the applier
stand-in records nothing. -/
theorem ble_busy_first_pending_wins_witness :
    (pendingState.blePendingApply = true ∧ secondFrame.type = BLE_MSG_SETTINGS_JSON ∧
      secondFrame.payload ≠ []) ∧
    (handleBleFrame pendingState secondFrame).blePendingJson = pendingState.blePendingJson ∧
    (handleBleFrame pendingState secondFrame).blePendingApply = true :=
  ⟨⟨rfl, rfl, by decide⟩,
   (ble_busy_first_pending_wins (fun p => some p) (fun _ st => st) pendingState secondFrame
     rfl rfl (by decide)).1,
   (ble_busy_first_pending_wins (fun p => some p) (fun _ st => st) pendingState secondFrame
     rfl rfl (by decide)).2.1⟩

set_option maxRecDepth 100000 in
/-- C8, counterexample: a settings frame with an empty payload that arrives
through `onWrite` while a request is pending is answered with the error
`Empty settings payload`, not with `Busy`. -/
theorem empty_settings_frame_not_answered_busy :
    pendingState.blePendingApply = true ∧
    (onWrite pendingState (encodeBleFrame BLE_MSG_SETTINGS_JSON 2 1 [])).bleSent
      = [{ type := BLE_MSG_ERROR, seq := 2, flags := 0
           payload := asciiBytes "\x7b\"error\":\"Empty settings payload\"\x7d" }] ∧
    (onWrite pendingState (encodeBleFrame BLE_MSG_SETTINGS_JSON 2 1 [])).bleSent
      ≠ [{ type := BLE_MSG_ERROR, seq := 2, flags := 0, payload := busyPayload }] := by
  decide

set_option maxRecDepth 100000 in
theorem onWrite_second_frame_busy :
    (onWrite pendingState
      (encodeBleFrame secondFrame.type secondFrame.seq secondFrame.flags secondFrame.payload))
      = handleBleFrame pendingState secondFrame ∧
    (onWrite pendingState
      (encodeBleFrame secondFrame.type secondFrame.seq secondFrame.flags
        secondFrame.payload)).bleSent
      = [{ type := BLE_MSG_ERROR, seq := 2, flags := 0, payload := busyPayload }] := by
  constructor
  · rfl
  · decide

/-! ## Loop schedule: the final blend frame -/

set_option maxRecDepth 100000 in
/-- C4, failing run: the classifier tick at 3240 sets `directionFadeProgress` to
1.0 while the composer gate is closed (10 ms after the frame of 3230); the next
loop iteration starts at 3750 and runs the classifier first, which toggles
`isMovingForward`.  No composer frame was rendered at progress 1.0. -/
theorem direction_toggles_without_full_blend_frame :
    validSchedule fadeRunSchedule = true ∧
    loopEvents idleLib fadeRunStart fadeRunSchedule
      = [LoopEvent.tick true 0 true, LoopEvent.frame true 0 true,
         LoopEvent.tick true (1 / 3) true, LoopEvent.frame true (1 / 3) true,
         LoopEvent.tick true (2 / 3) true, LoopEvent.frame true (2 / 3) true,
         LoopEvent.tick true (149 / 150) true, LoopEvent.frame true (149 / 150) true,
         LoopEvent.frame true (149 / 150) true,
         LoopEvent.tick true 1 true,
         LoopEvent.tick false 0 false, LoopEvent.frame false 0 false] ∧
    shownAtFullProgress (loopEvents idleLib fadeRunStart fadeRunSchedule) = false ∧
    (runLoop idleLib fadeRunStart fadeRunSchedule).isMovingForward = false := by
  decide!

/-! ## Frame clock: idle and firing calls -/

theorem shouldUpdateEffect_frameTime (t : EffectTiming) (now speed length : Nat) :
    (shouldUpdateEffect t now speed length).2.frameTime = FRAMETIME_FIXED := by
  unfold shouldUpdateEffect
  simp only []
  split_ifs <;> rfl

theorem clockReachable_frameTime (t : EffectTiming) (h : ClockReachable t) :
    t.frameTime = FRAMETIME_FIXED := by
  induction h with
  | init => rfl
  | call t now speed length _ _ => exact shouldUpdateEffect_frameTime t now speed length
  | sync t m _ ih => exact ih

theorem shouldUpdateEffect_idle (t : EffectTiming) (now speed length : Nat)
    (hft : t.frameTime = FRAMETIME_FIXED)
    (hel : usub32 now t.lastFrame < FRAMETIME_FIXED) :
    shouldUpdateEffect t now speed length = (false, t) := by
  unfold shouldUpdateEffect
  have hn : ¬ (usub32 now t.lastFrame ≥ FRAMETIME_FIXED) := not_le.mpr hel
  simp only [hn, if_false]
  cases t
  simp_all

/-- C11: if fewer than `FRAMETIME_FIXED` milliseconds have elapsed since
`timing.lastFrame`, `shouldUpdateEffect` returns `false` and leaves every field
of the `EffectTiming` (`lastFrame`, `frameTime`, `step`, `stepAccumulator`,
`needsUpdate`) unchanged, for every `EffectTiming` the firmware can hold (its
`frameTime` is `FRAMETIME_FIXED` from the initialiser on, so the assignment that
opens the function rewrites the value it already has). -/
theorem clock_idle_call_changes_nothing (t : EffectTiming) (now speed length : Nat)
    (hreach : ClockReachable t) (hel : usub32 now t.lastFrame < FRAMETIME_FIXED) :
    (shouldUpdateEffect t now speed length).1 = false ∧
    (shouldUpdateEffect t now speed length).2 = t ∧
    (shouldUpdateEffect t now speed length).2.lastFrame = t.lastFrame ∧
    (shouldUpdateEffect t now speed length).2.frameTime = t.frameTime ∧
    (shouldUpdateEffect t now speed length).2.step = t.step ∧
    (shouldUpdateEffect t now speed length).2.stepAccumulator = t.stepAccumulator ∧
    (shouldUpdateEffect t now speed length).2.needsUpdate = t.needsUpdate := by
  have h := shouldUpdateEffect_idle t now speed length (clockReachable_frameTime t hreach) hel
  rw [h]
  exact ⟨rfl, rfl, rfl, rfl, rfl, rfl, rfl⟩

/-- Witness for C11: the clock after a call at 100, called again 10 ms later. -/
theorem clock_idle_call_changes_nothing_witness :
    usub32 110 (shouldUpdateEffect {} 100 64 20).2.lastFrame < FRAMETIME_FIXED ∧
    (shouldUpdateEffect (shouldUpdateEffect {} 100 64 20).2 110 64 20).1 = false ∧
    (shouldUpdateEffect (shouldUpdateEffect {} 100 64 20).2 110 64 20).2
      = (shouldUpdateEffect {} 100 64 20).2 :=
  ⟨by decide,
   (clock_idle_call_changes_nothing (shouldUpdateEffect {} 100 64 20).2 110 64 20
     (ClockReachable.call {} 100 64 20 ClockReachable.init) (by decide)).1,
   (clock_idle_call_changes_nothing (shouldUpdateEffect {} 100 64 20).2 110 64 20
     (ClockReachable.call {} 100 64 20 ClockReachable.init) (by decide)).2.1⟩

theorem map_speed_eq (speed : Nat) :
    map (speed : Int) 0 255 10 800 = ((10 + speed * 790 / 255 : Nat) : Int) := by
  unfold map
  have h : ((speed : Int) - 0) * (800 - 10) = ((speed * 790 : Nat) : Int) := by
    push_cast; ring
  rw [h, Int.tdiv_eq_ediv (Int.natCast_nonneg _) (by norm_num)]
  push_cast
  omega

theorem stepIncrementOf_eq (speed : Nat) (hs : speed ≤ 255) :
    stepIncrementOf speed = 10 + speed * 790 / 255 := by
  unfold stepIncrementOf
  rw [map_speed_eq]
  have hb : 10 + speed * 790 / 255 < 65536 := by omega
  omega

theorem shouldUpdateEffect_fire_spec (t : EffectTiming) (now speed length : Nat)
    (hfire : (shouldUpdateEffect t now speed length).1 = true) :
    (shouldUpdateEffect t now speed length).2.lastFrame = now ∧
    (shouldUpdateEffect t now speed length).2.stepAccumulator
      = (if (t.stepAccumulator + stepIncrementOf speed) % 65536 ≥ 100 then
          ((t.stepAccumulator + stepIncrementOf speed) % 65536) % 100
        else (t.stepAccumulator + stepIncrementOf speed) % 65536) ∧
    (shouldUpdateEffect t now speed length).2.step
      = (if (t.stepAccumulator + stepIncrementOf speed) % 65536 ≥ 100 then
          (t.step + ((t.stepAccumulator + stepIncrementOf speed) % 65536) / 100) % 65536
        else t.step) := by
  unfold shouldUpdateEffect stepIncrementOf at *
  simp only [] at hfire ⊢
  split_ifs at hfire ⊢ <;> simp_all

theorem step_wrap_diff (a k : Nat) (ha : a < 65536) (hk : k ≤ 8) :
    ((a + k) % 65536 + 65536 - a) % 65536 = k := by
  by_cases h : a + k < 65536
  · rw [Nat.mod_eq_of_lt h, show a + k + 65536 - a = k + 65536 by omega, Nat.add_mod_right]
    exact Nat.mod_eq_of_lt (by omega)
  · have h2 : (a + k) % 65536 = a + k - 65536 := by omega
    rw [h2, show a + k - 65536 + 65536 - a = k by omega]
    exact Nat.mod_eq_of_lt (by omega)

/-- C12: with `inc = map(speed, 0, 255, 10, 800)`, which is
`10 + (speed * 790) / 255` in integer division, lies between 10 and 800 and is
non-decreasing in the 8-bit speed, every call of `shouldUpdateEffect` that fires
from `stepAccumulator < 100` leaves
`100 * d + stepAccumulator' = stepAccumulator + inc` with `stepAccumulator' < 100`,
where `d = (step' - step) mod 2^16` and `d <= 8`; it also stores the clock
reading in `lastFrame`. -/
theorem fired_tick_accumulates_increment (t : EffectTiming) (now speed length : Nat)
    (hs : speed ≤ 255) (hacc : t.stepAccumulator < 100) (hstep : t.step < 65536)
    (hfire : (shouldUpdateEffect t now speed length).1 = true) :
    stepIncrementOf speed = 10 + speed * 790 / 255 ∧
    10 ≤ stepIncrementOf speed ∧ stepIncrementOf speed ≤ 800 ∧
    (∀ slower, slower ≤ speed → stepIncrementOf slower ≤ stepIncrementOf speed) ∧
    100 * (((shouldUpdateEffect t now speed length).2.step + 65536 - t.step) % 65536)
        + (shouldUpdateEffect t now speed length).2.stepAccumulator
      = t.stepAccumulator + stepIncrementOf speed ∧
    (shouldUpdateEffect t now speed length).2.stepAccumulator < 100 ∧
    ((shouldUpdateEffect t now speed length).2.step + 65536 - t.step) % 65536 ≤ 8 ∧
    (shouldUpdateEffect t now speed length).2.lastFrame = now := by
  have hinc := stepIncrementOf_eq speed hs
  obtain ⟨hlf, ha, hst⟩ := shouldUpdateEffect_fire_spec t now speed length hfire
  have hlo : 10 ≤ stepIncrementOf speed := by omega
  have hhi : stepIncrementOf speed ≤ 800 := by omega
  refine ⟨hinc, hlo, hhi, ?_, ?_, ?_, ?_, hlf⟩
  · intro slower hle
    rw [hinc, stepIncrementOf_eq slower (by omega)]
    have : slower * 790 / 255 ≤ speed * 790 / 255 :=
      Nat.div_le_div_right (Nat.mul_le_mul_right 790 hle)
    omega
  all_goals
    have hmod : (t.stepAccumulator + stepIncrementOf speed) % 65536
        = t.stepAccumulator + stepIncrementOf speed := Nat.mod_eq_of_lt (by omega)
    rw [hmod] at ha hst
    have hk : (t.stepAccumulator + stepIncrementOf speed) / 100 ≤ 8 := by omega
    by_cases hx : t.stepAccumulator + stepIncrementOf speed ≥ 100
    · rw [if_pos hx] at ha hst
      try rw [hst, step_wrap_diff _ _ hstep hk]
      try rw [ha]
      omega
    · rw [if_neg hx] at ha hst
      try rw [hst]
      try rw [ha]
      try rw [show t.step + 65536 - t.step = 65536 by omega]
      omega

/-- Witness for C12: the first call on the initial clock at speed 64 (increment
208) advances `step` by 2 and carries 8. -/
theorem fired_tick_accumulates_increment_witness :
    (shouldUpdateEffect {} 100 64 20).1 = true ∧
    stepIncrementOf 64 = 208 ∧
    (shouldUpdateEffect {} 100 64 20).2.step = 2 ∧
    (shouldUpdateEffect {} 100 64 20).2.stepAccumulator = 8 ∧
    100 * (((shouldUpdateEffect {} 100 64 20).2.step + 65536 - ({} : EffectTiming).step) % 65536)
        + (shouldUpdateEffect {} 100 64 20).2.stepAccumulator
      = ({} : EffectTiming).stepAccumulator + stepIncrementOf 64 :=
  ⟨by decide, by decide, by decide, by decide,
   (fired_tick_accumulates_increment {} 100 64 20 (by decide) (by decide) (by decide)
     (by decide)).2.2.2.2.1⟩

theorem completeCalibration_poses (s : State) :
    poseSlots (completeCalibration s).calibration = poseSlots s.calibration := by
  unfold completeCalibration poseSlots
  simp only []
  split_ifs <;> rfl

theorem completeCalibration_flags (s : State) :
    (completeCalibration s).calibration.valid = true ∧
    (completeCalibration s).calibrationMode = false ∧
    (completeCalibration s).calibrationComplete = true ∧
    (completeCalibration s).calibrationStep = s.calibrationStep ∧
    (completeCalibration s).calibrationStartTime = s.calibrationStartTime := by
  unfold completeCalibration
  exact ⟨rfl, rfl, rfl, rfl, rfl⟩

theorem capture_timeout (s : State) (now : Nat) (data : MotionData)
    (h : usub32 now s.calibrationStartTime > calibrationTimeout) :
    captureCalibrationStep s now data = startCalibration s now := by
  unfold captureCalibrationStep
  simp only []
  rw [if_pos h]

theorem capture_in_time (s : State) (now : Nat) (data : MotionData) (k : Nat)
    (h : usub32 now s.calibrationStartTime ≤ calibrationTimeout)
    (hk : s.calibrationStep = k) (hk4 : k < 4) (hv : s.calibration.valid = false)
    (hm : s.calibrationMode = true) :
    (captureCalibrationStep s now data).calibrationStep = k + 1 ∧
    (captureCalibrationStep s now data).calibrationStartTime = now ∧
    (captureCalibrationStep s now data).calibration.valid = false ∧
    (captureCalibrationStep s now data).calibrationMode = true ∧
    poseSlots (captureCalibrationStep s now data).calibration
      = (poseSlots s.calibration).set k (accelOf data) := by
  unfold captureCalibrationStep
  simp only []
  rw [if_neg (by omega), if_neg (by omega)]
  have hk' : k = 0 ∨ k = 1 ∨ k = 2 ∨ k = 3 := by omega
  rcases hk' with h0 | h0 | h0 | h0 <;> subst h0 <;>
    simp [hk, hv, hm, poseSlots, accelOf]

theorem capture_last (s : State) (now : Nat) (data : MotionData)
    (h : usub32 now s.calibrationStartTime ≤ calibrationTimeout)
    (hk : s.calibrationStep = 4) :
    (captureCalibrationStep s now data).calibration.valid = true ∧
    (captureCalibrationStep s now data).calibrationMode = false ∧
    poseSlots (captureCalibrationStep s now data).calibration
      = (poseSlots s.calibration).set 4 (accelOf data) := by
  unfold captureCalibrationStep
  simp only []
  rw [if_neg (by omega), if_pos hk]
  refine ⟨(completeCalibration_flags _).1, (completeCalibration_flags _).2.1, ?_⟩
  rw [completeCalibration_poses]
  simp [poseSlots, accelOf]

theorem updateMotionControl_calibrating (lib : FxLib) (s : State) (now : Nat)
    (data : MotionData) (h : s.calibrationMode = true) :
    updateMotionControl lib s now data = s := by
  unfold updateMotionControl
  rw [if_pos h]

theorem startCalibration_spec (s : State) (now : Nat) :
    (startCalibration s now).calibrationStep = 0 ∧
    (startCalibration s now).calibrationStartTime = now ∧
    (startCalibration s now).calibration.valid = false ∧
    (startCalibration s now).calibrationMode = true ∧
    poseSlots (startCalibration s now).calibration = poseSlots s.calibration :=
  ⟨rfl, rfl, rfl, rfl, rfl⟩

theorem captureRun_zero (s : State) (calls : List (Nat × MotionData)) :
    captureRun s calls 0 = s := rfl

theorem captureRun_cons_succ (s : State) (c : Nat × MotionData)
    (calls : List (Nat × MotionData)) (k : Nat) :
    captureRun s (c :: calls) (k + 1) = captureRun (captureCalibrationStep s c.1 c.2) calls k :=
  rfl

/-- C13: starting from `startCalibration`, five successive
`captureCalibrationStep` calls, each within the 30 s timeout of the previous
event, with samples `d0 .. d4` leave the pose slots Level, Forward, Backward,
Left, Right holding `d0, d1, d2, d3, d4` in that order; the fifth call sets
`calibration.valid = true` and `calibrationMode = false`, while after the start and
after each of the first four calls `valid` is false, the mode is on and
`calibrationStep` counts the calls; and `updateMotionControl` in calibration mode
returns the state unchanged, so it neither advances `calibrationStep` nor stores
a pose. -/
theorem five_captures_store_poses_in_order (lib : FxLib) (s : State)
    (t0 t1 t2 t3 t4 t5 : Nat) (d0 d1 d2 d3 d4 : MotionData)
    (h1 : usub32 t1 t0 ≤ calibrationTimeout) (h2 : usub32 t2 t1 ≤ calibrationTimeout)
    (h3 : usub32 t3 t2 ≤ calibrationTimeout) (h4 : usub32 t4 t3 ≤ calibrationTimeout)
    (h5 : usub32 t5 t4 ≤ calibrationTimeout) :
    poseSlots (captureRun (startCalibration s t0)
        [(t1, d0), (t2, d1), (t3, d2), (t4, d3), (t5, d4)] 5).calibration
      = [accelOf d0, accelOf d1, accelOf d2, accelOf d3, accelOf d4] ∧
    (captureRun (startCalibration s t0)
        [(t1, d0), (t2, d1), (t3, d2), (t4, d3), (t5, d4)] 5).calibration.valid = true ∧
    (captureRun (startCalibration s t0)
        [(t1, d0), (t2, d1), (t3, d2), (t4, d3), (t5, d4)] 5).calibrationMode = false ∧
    (∀ k, k < 5 →
      (captureRun (startCalibration s t0)
        [(t1, d0), (t2, d1), (t3, d2), (t4, d3), (t5, d4)] k).calibration.valid = false ∧
      (captureRun (startCalibration s t0)
        [(t1, d0), (t2, d1), (t3, d2), (t4, d3), (t5, d4)] k).calibrationMode = true ∧
      (captureRun (startCalibration s t0)
        [(t1, d0), (t2, d1), (t3, d2), (t4, d3), (t5, d4)] k).calibrationStep = k) ∧
    (∀ st now data, st.calibrationMode = true →
      updateMotionControl lib st now data = st ∧
      (updateMotionControl lib st now data).calibrationStep = st.calibrationStep ∧
      poseSlots (updateMotionControl lib st now data).calibration
        = poseSlots st.calibration) := by
  obtain ⟨a0, b0, c0, m0, p0⟩ := startCalibration_spec s t0
  obtain ⟨a1, b1, c1, m1, p1⟩ := capture_in_time (startCalibration s t0) t1 d0 0
    (by rw [b0]; exact h1) a0 (by decide) c0 m0
  obtain ⟨a2, b2, c2, m2, p2⟩ := capture_in_time _ t2 d1 1 (by rw [b1]; exact h2) a1
    (by decide) c1 m1
  obtain ⟨a3, b3, c3, m3, p3⟩ := capture_in_time _ t3 d2 2 (by rw [b2]; exact h3) a2
    (by decide) c2 m2
  obtain ⟨a4, b4, c4, m4, p4⟩ := capture_in_time _ t4 d3 3 (by rw [b3]; exact h4) a3
    (by decide) c3 m3
  obtain ⟨v5, m5, p5⟩ := capture_last _ t5 d4 (by rw [b4]; exact h5) a4
  refine ⟨?_, ?_, ?_, ?_, ?_⟩
  · simp only [captureRun_cons_succ, captureRun_zero]
    rw [p5, p4, p3, p2, p1, p0]
    rfl
  · simp only [captureRun_cons_succ, captureRun_zero]
    exact v5
  · simp only [captureRun_cons_succ, captureRun_zero]
    exact m5
  · intro k hk
    interval_cases k <;> simp only [captureRun_cons_succ, captureRun_zero]
    · exact ⟨c0, m0, a0⟩
    · exact ⟨c1, m1, a1⟩
    · exact ⟨c2, m2, a2⟩
    · exact ⟨c3, m3, a3⟩
    · exact ⟨c4, m4, a4⟩
  · intro st now data hst
    have h := updateMotionControl_calibrating lib st now data hst
    rw [h]
    exact ⟨rfl, rfl, rfl⟩

/-- Witness for C13: a session started at 1000 ms with captures at 5 s, 12 s,
20 s, 31 s and 40 s. -/
theorem five_captures_store_poses_in_order_witness :
    poseSlots (captureRun (startCalibration initialState 1000)
        [(5000, { accelZ := 1 }), (12000, { accelX := 1 / 2, accelZ := 9 / 10 }),
         (20000, { accelX := -1 / 2, accelZ := 9 / 10 }),
         (31000, { accelY := 1 / 2, accelZ := 9 / 10 }),
         (40000, { accelY := -1 / 2, accelZ := 9 / 10 })] 5).calibration
      = [(0, 0, 1), (1 / 2, 0, 9 / 10), (-1 / 2, 0, 9 / 10), (0, 1 / 2, 9 / 10),
         (0, -1 / 2, 9 / 10)] :=
  (five_captures_store_poses_in_order idleLib initialState 1000 5000 12000 20000 31000 40000
    { accelZ := 1 } { accelX := 1 / 2, accelZ := 9 / 10 } { accelX := -1 / 2, accelZ := 9 / 10 }
    { accelY := 1 / 2, accelZ := 9 / 10 } { accelY := -1 / 2, accelZ := 9 / 10 }
    (by decide) (by decide) (by decide) (by decide) (by decide)).1

/-- C14: a `captureCalibrationStep` call arriving more than 30000 ms
(`calibrationTimeout`) after `calibrationStartTime`, the time of the session start
or of the previously captured step, restarts the session: `calibrationStep = 0`,
`calibrationMode = true`, `calibration.valid = false`, the timer holds the current
reading, and no pose slot is written. -/
theorem capture_after_timeout_restarts (s : State) (now : Nat) (data : MotionData)
    (h : usub32 now s.calibrationStartTime > calibrationTimeout) :
    (captureCalibrationStep s now data).calibrationStep = 0 ∧
    (captureCalibrationStep s now data).calibrationMode = true ∧
    (captureCalibrationStep s now data).calibration.valid = false ∧
    (captureCalibrationStep s now data).calibrationStartTime = now ∧
    poseSlots (captureCalibrationStep s now data).calibration = poseSlots s.calibration ∧
    captureCalibrationStep s now data = startCalibration s now := by
  rw [capture_timeout s now data h]
  exact ⟨rfl, rfl, rfl, rfl, rfl, rfl⟩

/-- Witness for C14: after a start at 1000 ms and a Level capture at 5000 ms, a
call at 35001 ms comes 30001 ms after the previous step and restarts. -/
theorem capture_after_timeout_restarts_witness :
    (captureCalibrationStep
        (captureCalibrationStep (startCalibration initialState 1000) 5000 { accelZ := 1 })
        35001 { accelX := 1 / 2 }).calibrationStep = 0 ∧
    poseSlots (captureCalibrationStep
        (captureCalibrationStep (startCalibration initialState 1000) 5000 { accelZ := 1 })
        35001 { accelX := 1 / 2 }).calibration
      = poseSlots (captureCalibrationStep (startCalibration initialState 1000) 5000
          { accelZ := 1 }).calibration :=
  have h := capture_after_timeout_restarts
    (captureCalibrationStep (startCalibration initialState 1000) 5000 { accelZ := 1 })
    35001 { accelX := 1 / 2 } (by decide)
  ⟨h.1, h.2.2.2.2.1⟩

theorem runTicks_append (step : State → Nat → MotionData → State) (s : State)
    (a b : List (Nat × MotionData)) :
    runTicks step s (a ++ b) = runTicks step (runTicks step s a) b := by
  simp [runTicks, List.foldl_append]

theorem stateAt_zero (step : State → Nat → MotionData → State) (s : State)
    (ticks : List (Nat × MotionData)) : stateAt step s ticks 0 = s := rfl

theorem stateAt_succ (step : State → Nat → MotionData → State) (s : State)
    (ticks : List (Nat × MotionData)) (k : Nat) (hk : k < ticks.length) :
    stateAt step s ticks (k + 1) = step (stateAt step s ticks k) ticks[k].1 ticks[k].2 := by
  unfold stateAt
  rw [List.take_succ, runTicks_append]
  simp [List.getElem?_eq_getElem hk, runTicks]

theorem applyEffectToArray_blinkerVars (lib : FxLib) (s : State) (leds : List CRGB)
    (numLeds effect : Nat) (color : CRGB) (timing : EffectTiming) (ledType colorOrder : Nat)
    (bgc : CRGB) (bge : Bool) :
    (applyEffectToArray lib s leds numLeds effect color timing ledType colorOrder bgc
      bge).1.toBlinkerVars = s.toBlinkerVars := by
  unfold applyEffectToArray
  simp only []
  split_ifs <;> rfl

theorem showParkEffect_blinkerVars (lib : FxLib) (s : State) :
    (showParkEffect lib s).toBlinkerVars = s.toBlinkerVars := by
  unfold showParkEffect
  simp only []
  split_ifs <;> rfl

theorem showBrakingEffect_blinkerVars (lib : FxLib) (s : State) (now : Nat) :
    (showBrakingEffect lib s now).toBlinkerVars = s.toBlinkerVars := by
  unfold showBrakingEffect setTargetLights
  simp only []
  split_ifs <;> rfl

theorem renderFixedRoles_blinkerVars (lib : FxLib) (s : State) (hu tu : Bool) :
    (renderFixedRoles lib s hu tu).toBlinkerVars = s.toBlinkerVars := by
  unfold renderFixedRoles
  simp only []
  split_ifs <;> simp [applyEffectToArray_blinkerVars]

theorem renderDirectionNormal_blinkerVars (lib : FxLib) (s : State) (fu bu : Bool) :
    (renderDirectionNormal lib s fu bu).toBlinkerVars = s.toBlinkerVars := by
  unfold renderDirectionNormal
  simp only []
  split_ifs <;> simp [applyEffectToArray_blinkerVars]

theorem renderDirectionFade_blinkerVars (lib : FxLib) (s : State) (fu bu : Bool) :
    (renderDirectionFade lib s fu bu).toBlinkerVars = s.toBlinkerVars := by
  unfold renderDirectionFade
  simp only []
  split_ifs <;> simp [applyEffectToArray_blinkerVars]

theorem initFadeArrays_blinkerVars (lib : FxLib) (s : State) :
    (initFadeArrays lib s).toBlinkerVars = s.toBlinkerVars := by
  unfold initFadeArrays
  simp only []
  split_ifs <;> rfl

theorem renderBase_blinkerVars (lib : FxLib) (s : State) (hu tu : Bool) :
    (renderBase lib s hu tu).toBlinkerVars = s.toBlinkerVars := by
  unfold renderBase renderDirectionBased
  simp only []
  split_ifs <;>
    simp [renderFixedRoles_blinkerVars, renderDirectionNormal_blinkerVars,
      renderDirectionFade_blinkerVars, initFadeArrays_blinkerVars]

theorem blinkerFlags_of_blinkerVars (a b : State) (h : a.toBlinkerVars = b.toBlinkerVars) :
    blinkerFlags a = blinkerFlags b := by
  unfold blinkerFlags
  rw [show a.manualBlinkerActive = a.toBlinkerVars.manualBlinkerActive from rfl,
    show a.blinkerActive = a.toBlinkerVars.blinkerActive from rfl,
    show a.blinkerDirection = a.toBlinkerVars.blinkerDirection from rfl, h]

theorem showBlinkerEffect_blinkerFlags (s : State) (now : Nat) (d : Int) :
    blinkerFlags (showBlinkerEffect s now d) = blinkerFlags s := by
  unfold showBlinkerEffect
  simp only []
  split_ifs <;> rfl

theorem overlayBraking_blinkerVars (lib : FxLib) (s : State) (now : Nat) :
    (overlayBraking lib s now).toBlinkerVars = s.toBlinkerVars := by
  unfold overlayBraking
  split_ifs
  · rw [showBrakingEffect_blinkerVars]
  · rfl

theorem overlayBlinker_blinkerFlags (s : State) (now : Nat) :
    blinkerFlags (overlayBlinker s now) = blinkerFlags s := by
  unfold overlayBlinker
  split_ifs
  · rw [showBlinkerEffect_blinkerFlags]; rfl
  · rfl

theorem updateEffects_blinkerFlags (lib : FxLib) (s : State) (now : Nat) :
    blinkerFlags (updateEffects lib s now) = blinkerFlags s := by
  unfold updateEffects
  simp only []
  split_ifs
  · rfl
  · exact blinkerFlags_of_blinkerVars _ _ (showParkEffect_blinkerVars lib (tickClocks s now))
  · rw [overlayBlinker_blinkerFlags]
    exact blinkerFlags_of_blinkerVars _ _
      ((overlayBraking_blinkerVars lib _ now).trans (renderBase_blinkerVars lib _ _ _))

theorem resetToNormalEffects_blinkerFlags (lib : FxLib) (s : State) (now : Nat) :
    blinkerFlags (resetToNormalEffects lib s now) = blinkerFlags s := by
  unfold resetToNormalEffects
  rw [updateEffects_blinkerFlags]
  rfl

theorem onKey_blinkerFlags {α : Type} (v : Option α) (block : State → α → State) (s : State)
    (h : ∀ st a, blinkerFlags (block st a) = blinkerFlags st) :
    blinkerFlags (onKey v block s) = blinkerFlags s := by
  cases v with
  | none => rfl
  | some a => exact h s a

theorem apiMotionSettings_blinkerFlags (s : State) (doc : ApiDoc) :
    blinkerFlags (apiMotionSettings s doc) = blinkerFlags s := by
  unfold apiMotionSettings
  simp only []
  iterate 4 rw [onKey_blinkerFlags]
  all_goals intro _ _; rfl

theorem apiParkSettings_blinkerFlags (s : State) (doc : ApiDoc) :
    blinkerFlags (apiParkSettings s doc) = blinkerFlags s := by
  unfold apiParkSettings
  simp only []
  iterate 13 rw [onKey_blinkerFlags]
  all_goals intro _ _; rfl

theorem apiDirectionSettings_blinkerFlags (s : State) (doc : ApiDoc) :
    blinkerFlags (apiDirectionSettings s doc) = blinkerFlags s := by
  unfold apiDirectionSettings
  simp only []
  iterate 3 rw [onKey_blinkerFlags]
  all_goals intro _ _; rfl

theorem apiManualBrake_blinkerFlags (lib : FxLib) (s : State) (now : Nat) (manual : Bool) :
    blinkerFlags (apiManualBrake lib s now manual) = blinkerFlags s := by
  unfold apiManualBrake
  simp only []
  split_ifs
  · rw [resetToNormalEffects_blinkerFlags]; rfl
  · rfl

theorem apiBrakingSettings_blinkerFlags (lib : FxLib) (s : State) (now : Nat) (doc : ApiDoc) :
    blinkerFlags (apiBrakingSettings lib s now doc) = blinkerFlags s := by
  unfold apiBrakingSettings
  simp only []
  iterate 5 rw [onKey_blinkerFlags]
  all_goals intro st v
  all_goals first | rfl | exact apiManualBrake_blinkerFlags lib st now v

theorem apiParkModeEnabled_blinkerFlags (lib : FxLib) (s : State) (now : Nat) (v : Bool) :
    blinkerFlags (apiParkModeEnabled lib s now v) = blinkerFlags s := by
  unfold apiParkModeEnabled
  simp only []
  split_ifs
  · exact (resetToNormalEffects_blinkerFlags lib _ now)
  · rfl

theorem apiMotionEnabled_kept (lib : FxLib) (s : State) (now : Nat) (v : Bool)
    (h : ¬ (s.motionEnabled = true ∧ v = false)) :
    apiMotionEnabled lib s now v = { s with motionEnabled := v } := by
  unfold apiMotionEnabled
  simp only []
  rw [if_neg h]

theorem apiBlinkerEnabled_kept (lib : FxLib) (s : State) (now : Nat) (v : Bool)
    (h : ¬ (s.blinkerEnabled = true ∧ v = false)) :
    apiBlinkerEnabled lib s now v = { s with blinkerEnabled := v } := by
  unfold apiBlinkerEnabled
  simp only []
  rw [if_neg (fun hc => h ⟨hc.1, hc.2.1⟩)]

theorem apiManualBlinker_other (lib : FxLib) (s : State) (now : Nat) (manual : String)
    (h1 : manual ≠ "left") (h2 : manual ≠ "right") (h3 : manual ≠ "off") :
    apiManualBlinker lib s now manual = s := by
  unfold apiManualBlinker
  rw [if_neg (by simp [h1, h2]), if_neg h3]

/-- Counterexample to C16 as stated: with the manual blinker set to the right,
commands other than `manualBlinker = "off"` change the flags or the direction:
`blinker_enabled = false` and `motion_enabled = false` clear both flags, and
`manualBlinker = "left"` turns the direction from 1 to -1. -/
theorem manual_blinker_changed_by_other_commands :
    blinkerFlags manualRight = (true, true, 1) ∧
    blinkerFlags (applyApiJson idleLib manualRight 2000 { blinker_enabled := some false })
      = (false, false, 1) ∧
    blinkerFlags (applyApiJson idleLib manualRight 2000 { motion_enabled := some false })
      = (false, false, 1) ∧
    blinkerFlags (applyApiJson idleLib manualRight 2000 { manualBlinker := some "left" })
      = (true, true, -1) := by
  decide!

/-- C16 as amended: once a manual blinker is set (`manualBlinkerActive` and
`blinkerActive` true), every `processBlinkers` tick returns the state unchanged,
for any sample and clock reading, and the two flags and `blinkerDirection` are
unchanged by every `applyApiJson` command (of the motion-control keys) that
neither switches `motion_enabled` or `blinker_enabled` from true to false nor
carries a `manualBlinker` value `"left"`, `"right"` or `"off"`. -/
theorem manual_blinker_kept_unless_switched_off (lib : FxLib) (s : State)
    (hman : s.manualBlinkerActive = true) (hact : s.blinkerActive = true) :
    (∀ now data, processBlinkers s now data = s) ∧
    (∀ now doc,
      ¬ (s.motionEnabled = true ∧ doc.motion_enabled = some false) →
      ¬ (s.blinkerEnabled = true ∧ doc.blinker_enabled = some false) →
      (∀ m, doc.manualBlinker = some m → m ≠ "left" ∧ m ≠ "right" ∧ m ≠ "off") →
      blinkerFlags (applyApiJson lib s now doc) = (true, true, s.blinkerDirection)) := by
  constructor
  · intro now data
    unfold processBlinkers
    rw [if_pos hman]
  · intro now doc hmotion hblinker hmanual
    have hs : blinkerFlags s = (true, true, s.blinkerDirection) := by
      unfold blinkerFlags
      rw [hman, hact]
    rw [← hs]
    unfold applyApiJson
    simp only []
    rw [apiDirectionSettings_blinkerFlags, apiBrakingSettings_blinkerFlags,
      apiParkSettings_blinkerFlags]
    have h5 : ∀ st : State, blinkerFlags (onKey doc.manualBlinker
        (fun st v => apiManualBlinker lib st now v) st) = blinkerFlags st := by
      intro st
      cases hm : doc.manualBlinker with
      | none => rfl
      | some m =>
        obtain ⟨h1, h2, h3⟩ := hmanual m hm
        show blinkerFlags (apiManualBlinker lib st now m) = _
        rw [apiManualBlinker_other lib st now m h1 h2 h3]
    rw [h5, apiMotionSettings_blinkerFlags,
      onKey_blinkerFlags _ _ _ (fun st v => apiParkModeEnabled_blinkerFlags lib st now v)]
    have h1 : onKey doc.motion_enabled (fun st v => apiMotionEnabled lib st now v) s
        = (match doc.motion_enabled with
           | some v => { s with motionEnabled := v }
           | none => s) := by
      cases hv : doc.motion_enabled with
      | none => rfl
      | some v =>
        show apiMotionEnabled lib s now v = _
        rw [apiMotionEnabled_kept]
        intro hc
        exact hmotion ⟨hc.1, by rw [hv, hc.2]⟩
    rw [h1]
    cases hv : doc.motion_enabled <;> cases hb : doc.blinker_enabled <;>
      simp only [onKey] <;> try rfl
    all_goals
      rw [apiBlinkerEnabled_kept]
      · rfl
      · intro hc
        exact hblinker ⟨hc.1, by rw [hb, hc.2]⟩

/-- Witness for C16 as amended: the manual right blinker under a command that
sets the blinker timeout and the motion sensitivity. -/
theorem manual_blinker_kept_unless_switched_off_witness :
    blinkerFlags (applyApiJson idleLib manualRight 2000
      { blinker_timeout := some 500, motion_sensitivity := some (1 / 2) })
      = (true, true, manualRight.blinkerDirection) :=
  (manual_blinker_kept_unless_switched_off idleLib manualRight (by decide!) (by decide!)).2
    2000 { blinker_timeout := some 500, motion_sensitivity := some (1 / 2) }
    (by decide!) (by decide!) (by intro m hm; exact absurd hm (by simp))

/-- Counterexample to C17 as stated: with `braking_threshold = 0.5` accepted by
`applyApiJson`, a forward acceleration of 0.25 g counts as deceleration; detection
activates braking at the second tick, and the third tick, whose forward
acceleration is non-negative, leaves `brakingActive` true. -/
theorem braking_stays_active_below_positive_threshold :
    positiveThresholdStart.brakingThreshold = 1 / 2 ∧
    positiveThresholdStart.manualBrakeActive = false ∧
    positiveThresholdStart.brakingEnabled = true ∧
    positiveThresholdStart.motionEnabled = true ∧
    (stateAt processBrakingDetection positiveThresholdStart gentleAcceleration 1).brakingActive
      = false ∧
    (stateAt processBrakingDetection positiveThresholdStart gentleAcceleration 2).brakingActive
      = true ∧
    (stateAt processBrakingDetection positiveThresholdStart gentleAcceleration 2).manualBrakeActive
      = false ∧
    0 ≤ brakingForwardAccel
      (stateAt processBrakingDetection positiveThresholdStart gentleAcceleration 2)
      { accelX := 1 / 4 } ∧
    (stateAt processBrakingDetection positiveThresholdStart gentleAcceleration 3).brakingActive
      = true := by
  decide!

/-- C17 as amended: for every state with `brakingActive = true`, no manual brake,
braking and motion enabled, a `processBrakingDetection` tick during which
`parkModeActive` is true, or whose forward acceleration is non-negative and is
not counted as deceleration (it is not below `brakingThreshold`, as always when
`brakingThreshold <= 0`, or the vehicle is moving backward), leaves
`brakingActive = false` with `brakingFlashCount` and `brakingPulseCount` reset
to 0. -/
theorem braking_released_on_nonnegative_accel_or_park (s : State) (now : Nat)
    (data : MotionData)
    (hact : s.brakingActive = true) (hman : s.manualBrakeActive = false)
    (hen : s.brakingEnabled = true) (hmot : s.motionEnabled = true)
    (hrel : s.parkModeActive = true ∨
      (0 ≤ brakingForwardAccel s data ∧
        (s.brakingThreshold ≤ brakingForwardAccel s data ∨ s.brakingThreshold ≤ 0 ∨
          s.isMovingForward = false))) :
    (processBrakingDetection s now data).brakingActive = false ∧
    (processBrakingDetection s now data).brakingFlashCount = 0 ∧
    (processBrakingDetection s now data).brakingPulseCount = 0 := by
  have hdec : (s.isMovingForward && decide (brakingForwardAccel s data < s.brakingThreshold)
      && !s.parkModeActive) = false := by
    rcases hrel with hp | ⟨h0, hthr | hthr | hback⟩
    · simp [hp]
    · simp [not_lt.mpr hthr]
    · have : ¬ brakingForwardAccel s data < s.brakingThreshold := by
        intro hc
        linarith
      simp [this]
    · simp [hback]
  have hstop : brakingForwardAccel s data ≥ 0 ∨ s.parkModeActive = true := by
    rcases hrel with hp | ⟨h0, _⟩
    · exact Or.inr hp
    · exact Or.inl h0
  unfold brakingForwardAccel at hdec hstop
  unfold processBrakingDetection
  simp only [hman, hen, hmot, hdec]
  by_cases hd : s.brakingDetectedTime > 0
  · simp [hd, hact, hstop]
  · simp [hd, hact, hstop]

/-- Witness for C17 as amended: braking active under the default threshold
-0.5, released by a tick with forward acceleration 0.1 g. -/
theorem braking_released_on_nonnegative_accel_or_park_witness :
    (processBrakingDetection
      { initialState with brakingEnabled := true, brakingActive := true, brakingFlashCount := 2 }
      1000 { accelX := 1 / 10 }).brakingActive = false ∧
    (processBrakingDetection
      { initialState with brakingEnabled := true, brakingActive := true, brakingFlashCount := 2 }
      1000 { accelX := 1 / 10 }).brakingFlashCount = 0 :=
  have h := braking_released_on_nonnegative_accel_or_park
    { initialState with brakingEnabled := true, brakingActive := true, brakingFlashCount := 2 }
    1000 { accelX := 1 / 10 } (by decide) (by decide) (by decide) (by decide)
    (Or.inr ⟨by decide!, Or.inr (Or.inl (by decide!))⟩)
  ⟨h.1, h.2.1⟩

/-! ## Park controller: facts -/

theorem sqrtLt_iff (x y : ℚ) :
    sqrtLt x y = true ↔ Real.sqrt (x : ℝ) < (y : ℝ) := by
  unfold sqrtLt
  rw [decide_eq_true_iff]
  constructor
  · rintro ⟨hy, h⟩
    have hy' : (0 : ℝ) < (y : ℝ) := by exact_mod_cast hy
    rw [Real.sqrt_lt' hy']
    have : (x : ℝ) < (y : ℝ) * (y : ℝ) := by exact_mod_cast h
    nlinarith
  · intro h
    have hy' : (0 : ℝ) < (y : ℝ) := lt_of_le_of_lt (Real.sqrt_nonneg _) h
    rw [Real.sqrt_lt' hy'] at h
    have h2 : (x : ℝ) < (y : ℝ) * (y : ℝ) := by nlinarith
    exact ⟨by exact_mod_cast hy', by exact_mod_cast h2⟩

theorem ltSqrt_iff (y x : ℚ) :
    ltSqrt y x = true ↔ (y : ℝ) < Real.sqrt (x : ℝ) := by
  unfold ltSqrt
  rw [decide_eq_true_iff]
  by_cases hy : y < 0
  · have hy' : (y : ℝ) < 0 := by exact_mod_cast hy
    constructor
    · intro _
      exact lt_of_lt_of_le hy' (Real.sqrt_nonneg _)
    · intro _
      exact Or.inl hy
  · have hy' : (0 : ℝ) ≤ (y : ℝ) := by exact_mod_cast not_lt.mp hy
    rw [Real.lt_sqrt hy']
    constructor
    · rintro (h | h)
      · exact absurd h hy
      · have : (y : ℝ) * (y : ℝ) < (x : ℝ) := by exact_mod_cast h
        nlinarith
    · intro h
      have h2 : (y : ℝ) * (y : ℝ) < (x : ℝ) := by nlinarith
      exact Or.inr (by exact_mod_cast h2)

/-- The root-free test `stationaryFormula` decides the specification's formula. -/
theorem stationaryFormula_iff_spec (accelNoise gyroNoise : ℚ) (data : MotionData) :
    stationaryFormula accelNoise gyroNoise data = true
      ↔ StationarySpec accelNoise gyroNoise data := by
  unfold stationaryFormula StationarySpec
  simp only [Bool.and_eq_true]
  rw [sqrtLt_iff, sqrtLt_iff, ltSqrt_iff, abs_lt]
  push_cast
  constructor
  · rintro ⟨⟨h1, h2⟩, h3⟩
    exact ⟨⟨by linarith, by linarith⟩, h3⟩
  · rintro ⟨⟨h1, h2⟩, h3⟩
    exact ⟨⟨by linarith, by linarith⟩, h3⟩

theorem isStationary_iff (s : State) (data : MotionData) :
    isStationary s data = true
      ↔ accelDeviation data < s.parkAccelNoiseThreshold ∧
        gyroMagnitude data < s.parkGyroNoiseThreshold := by
  unfold isStationary
  simp

theorem showParkEffect_parkVars (lib : FxLib) (s : State) :
    (showParkEffect lib s).toParkVars = s.toParkVars := by
  unfold showParkEffect
  simp only []
  split_ifs <;> rfl

/-- One `processParkMode` tick, by cases. -/
theorem processParkMode_step (lib : FxLib) (s : State) (now : Nat) (data : MotionData) :
    (processParkMode lib s now data).parkAccelNoiseThreshold = s.parkAccelNoiseThreshold ∧
    (processParkMode lib s now data).parkGyroNoiseThreshold = s.parkGyroNoiseThreshold ∧
    (processParkMode lib s now data).parkStationaryTime = s.parkStationaryTime ∧
    ((isStationary s data = false ∧
        (processParkMode lib s now data).parkModeActive = false ∧
        (processParkMode lib s now data).parkStartTime = 0) ∨
     (isStationary s data = true ∧ s.parkModeActive = true ∧
        (processParkMode lib s now data).parkModeActive = true ∧
        (processParkMode lib s now data).parkStartTime = s.parkStartTime) ∨
     (isStationary s data = true ∧ s.parkModeActive = false ∧ s.parkStartTime = 0 ∧
        (processParkMode lib s now data).parkModeActive = false ∧
        (processParkMode lib s now data).parkStartTime = now) ∨
     (isStationary s data = true ∧ s.parkModeActive = false ∧ s.parkStartTime ≠ 0 ∧
        usub32 now s.parkStartTime > s.parkStationaryTime ∧
        (processParkMode lib s now data).parkModeActive = true ∧
        (processParkMode lib s now data).parkStartTime = s.parkStartTime) ∨
     (isStationary s data = true ∧ s.parkModeActive = false ∧ s.parkStartTime ≠ 0 ∧
        ¬ usub32 now s.parkStartTime > s.parkStationaryTime ∧
        (processParkMode lib s now data).parkModeActive = false ∧
        (processParkMode lib s now data).parkStartTime = s.parkStartTime)) := by
  have hp : ∀ st : State, (showParkEffect lib st).parkAccelNoiseThreshold
        = st.parkAccelNoiseThreshold ∧
      (showParkEffect lib st).parkGyroNoiseThreshold = st.parkGyroNoiseThreshold ∧
      (showParkEffect lib st).parkStationaryTime = st.parkStationaryTime ∧
      (showParkEffect lib st).parkModeActive = st.parkModeActive ∧
      (showParkEffect lib st).parkStartTime = st.parkStartTime := by
    intro st
    have h := showParkEffect_parkVars lib st
    exact ⟨congrArg ParkVars.parkAccelNoiseThreshold h, congrArg ParkVars.parkGyroNoiseThreshold h,
      congrArg ParkVars.parkStationaryTime h, congrArg ParkVars.parkModeActive h,
      congrArg ParkVars.parkStartTime h⟩
  unfold processParkMode
  cases hst : isStationary s data <;> cases ha : s.parkModeActive <;>
    by_cases h0 : s.parkStartTime = 0 <;>
    by_cases ht : usub32 now s.parkStartTime > s.parkStationaryTime <;>
    simp [Nat.pos_iff_ne_zero, h0, ht, ha, hp]

theorem isStationary_congr (a b : State) (data : MotionData)
    (h1 : a.parkAccelNoiseThreshold = b.parkAccelNoiseThreshold)
    (h2 : a.parkGyroNoiseThreshold = b.parkGyroNoiseThreshold) :
    isStationary a data = isStationary b data := by
  unfold isStationary
  rw [h1, h2]

theorem park_run_config (lib : FxLib) (s0 : State) (ticks : List (Nat × MotionData)) :
    ∀ k, k ≤ ticks.length →
      (stateAt (processParkMode lib) s0 ticks k).parkAccelNoiseThreshold
        = s0.parkAccelNoiseThreshold ∧
      (stateAt (processParkMode lib) s0 ticks k).parkGyroNoiseThreshold
        = s0.parkGyroNoiseThreshold ∧
      (stateAt (processParkMode lib) s0 ticks k).parkStationaryTime = s0.parkStationaryTime := by
  intro k
  induction k with
  | zero => intro _; exact ⟨rfl, rfl, rfl⟩
  | succ k ih =>
    intro hk
    obtain ⟨h1, h2, h3⟩ := ih (by omega)
    obtain ⟨g1, g2, g3, _⟩ :=
      processParkMode_step lib (stateAt (processParkMode lib) s0 ticks k) ticks[k].1 ticks[k].2
    rw [stateAt_succ _ _ _ _ hk]
    exact ⟨g1.trans h1, g2.trans h2, g3.trans h3⟩

theorem park_timer_invariant (lib : FxLib) (s0 : State) (ticks : List (Nat × MotionData))
    (htimer : s0.parkStartTime = 0) :
    ∀ k, k ≤ ticks.length →
      (stateAt (processParkMode lib) s0 ticks k).parkModeActive = false →
      (stateAt (processParkMode lib) s0 ticks k).parkStartTime ≠ 0 →
      ∃ j, ∃ hj : j < ticks.length, j < k ∧
        (stateAt (processParkMode lib) s0 ticks j).parkStartTime = 0 ∧
        (stateAt (processParkMode lib) s0 ticks k).parkStartTime = ticks[j].1 ∧
        (∀ i, ∀ hi : i < ticks.length, j ≤ i → i < k →
          isStationary s0 ticks[i].2 = true ∧
          (stateAt (processParkMode lib) s0 ticks (i + 1)).parkStartTime = ticks[j].1) := by
  intro k
  induction k with
  | zero =>
    intro _ _ h
    rw [stateAt_zero] at h
    exact absurd htimer h
  | succ k ih =>
    intro hk hoff hne
    have hk' : k < ticks.length := hk
    obtain ⟨c1, c2, _⟩ := park_run_config lib s0 ticks k (by omega)
    have hsucc := stateAt_succ (processParkMode lib) s0 ticks k hk'
    have hstat : isStationary (stateAt (processParkMode lib) s0 ticks k) ticks[k].2
        = isStationary s0 ticks[k].2 := isStationary_congr _ _ _ c1 c2
    obtain ⟨_, _, _, hcase⟩ :=
      processParkMode_step lib (stateAt (processParkMode lib) s0 ticks k) ticks[k].1 ticks[k].2
    rw [← hsucc, hstat] at hcase
    rcases hcase with ⟨_, _, hz⟩ | ⟨_, _, ha, _⟩ | ⟨hs, _, hz, _, hset⟩ | ⟨_, _, _, _, ha, _⟩ |
      ⟨hs, hin, hnz, _, _, hkeep⟩
    · exact absurd hz hne
    · rw [ha] at hoff
      exact absurd hoff (by simp)
    · refine ⟨k, hk', by omega, hz, hset, ?_⟩
      intro i hi hji hik
      have : i = k := by omega
      subst this
      exact ⟨hs, hset⟩
    · rw [ha] at hoff
      exact absurd hoff (by simp)
    · obtain ⟨j, hj, hjk, h1, h2, h3⟩ := ih (by omega) hin hnz
      refine ⟨j, hj, by omega, h1, hkeep.trans h2, ?_⟩
      intro i hi hji hik
      by_cases hlast : i = k
      · subst hlast
        exact ⟨hs, hkeep.trans h2⟩
      · exact h3 i hi hji (by omega)

/-- Counterexample to C18 as stated: with the raw accelerometer reading
`(0, 2364, 17040)` the magnitude is 1.0500000031 g, so the deviation from 1 g is
not below the threshold 0.05 (the `float` 0.0500000007) and the sample is not
stationary by the formula; `processParkMode`, computing in `float`, finds the
deviation 0.04999995, takes the sample for stationary, starts the stillness timer
at 1000 ms and activates park at 3001 ms. -/
theorem park_activates_outside_stationary_formula :
    parkDefaults.parkStartTime = 0 ∧
    accelDeviation thresholdSample = 209715 / 4194304 ∧
    isStationary parkDefaults thresholdSample = true ∧
    ¬ StationarySpec parkDefaults.parkAccelNoiseThreshold parkDefaults.parkGyroNoiseThreshold
        thresholdSample ∧
    (stateAt (processParkMode idleLib) parkDefaults thresholdRun 1).parkStartTime = 1000 ∧
    (stateAt (processParkMode idleLib) parkDefaults thresholdRun 2).parkModeActive = false ∧
    (stateAt (processParkMode idleLib) parkDefaults thresholdRun 3).parkModeActive = true := by
  refine ⟨rfl, by decide!, by decide!, ?_, by decide!, by decide!, by decide!⟩
  intro h
  have hf := (stationaryFormula_iff_spec _ _ _).mpr h
  have hn : stationaryFormula parkDefaults.parkAccelNoiseThreshold
      parkDefaults.parkGyroNoiseThreshold thresholdSample = false := by decide!
  rw [hn] at hf
  exact absurd hf (by simp)

/-- C18 as amended: in a run of `processParkMode` ticks that starts with the
stillness timer clear, a tick sets `parkModeActive` to true only if the stillness
timer was started at an earlier tick `j`, the sample is stationary as the code
evaluates it in `float` arithmetic (`accelDeviation`, the rounded deviation of
the rounded acceleration magnitude from 1 g, is below `parkAccelNoiseThreshold`
and `gyroMagnitude`, the rounded gyro magnitude, is below
`parkGyroNoiseThreshold`) at that tick, at the activating tick and at every tick
in between, and more than `parkStationaryTime` ms (mod 2^32) lie between the two
ticks; and every tick whose sample is not stationary in this evaluation, from any
state, leaves `parkStartTime = 0` and `parkModeActive = false`.  The last part
spells the evaluation out: each product, each sum, the square root and the
deviation are rounded to the nearest `float`. -/
theorem park_activates_only_after_continuous_stillness (lib : FxLib) (s0 : State)
    (ticks : List (Nat × MotionData)) (htimer : s0.parkStartTime = 0) :
    (∀ k, ∀ hk : k < ticks.length,
      (stateAt (processParkMode lib) s0 ticks k).parkModeActive = false →
      (stateAt (processParkMode lib) s0 ticks (k + 1)).parkModeActive = true →
      ∃ j, ∃ hj : j < ticks.length, j < k ∧
        (stateAt (processParkMode lib) s0 ticks j).parkStartTime = 0 ∧
        (stateAt (processParkMode lib) s0 ticks (j + 1)).parkStartTime = ticks[j].1 ∧
        usub32 ticks[k].1 ticks[j].1 > s0.parkStationaryTime ∧
        (∀ i, ∀ hi : i < ticks.length, j ≤ i → i ≤ k →
          accelDeviation ticks[i].2 < s0.parkAccelNoiseThreshold ∧
          gyroMagnitude ticks[i].2 < s0.parkGyroNoiseThreshold)) ∧
    (∀ (s : State) (now : Nat) (data : MotionData),
      ¬ (accelDeviation data < s.parkAccelNoiseThreshold ∧
          gyroMagnitude data < s.parkGyroNoiseThreshold) →
      (processParkMode lib s now data).parkStartTime = 0 ∧
      (processParkMode lib s now data).parkModeActive = false) ∧
    (∀ data : MotionData,
      accelDeviation data
        = roundFloat |sqrtFloat (roundFloat (roundFloat (roundFloat (data.accelX * data.accelX)
            + roundFloat (data.accelY * data.accelY))
            + roundFloat (data.accelZ * data.accelZ))) - 1| ∧
      gyroMagnitude data
        = sqrtFloat (roundFloat (roundFloat (roundFloat (data.gyroX * data.gyroX)
            + roundFloat (data.gyroY * data.gyroY))
            + roundFloat (data.gyroZ * data.gyroZ)))) := by
  refine ⟨?_, ?_, fun _ => ⟨rfl, rfl⟩⟩
  · intro k hk hoff hon
    obtain ⟨c1, c2, c3⟩ := park_run_config lib s0 ticks k (by omega)
    have hsucc := stateAt_succ (processParkMode lib) s0 ticks k hk
    have hstat : isStationary (stateAt (processParkMode lib) s0 ticks k) ticks[k].2
        = isStationary s0 ticks[k].2 := isStationary_congr _ _ _ c1 c2
    obtain ⟨_, _, _, hcase⟩ :=
      processParkMode_step lib (stateAt (processParkMode lib) s0 ticks k) ticks[k].1 ticks[k].2
    rw [← hsucc, hstat] at hcase
    rcases hcase with ⟨_, ha, _⟩ | ⟨_, ha, _⟩ | ⟨_, _, _, ha, _⟩ | ⟨hs, hin, hnz, ht, _, _⟩ |
      ⟨_, _, _, _, ha, _⟩
    · rw [ha] at hon; exact absurd hon (by simp)
    · rw [ha] at hoff; exact absurd hoff (by simp)
    · rw [ha] at hon; exact absurd hon (by simp)
    · obtain ⟨j, hj, hjk, h1, h2, h3⟩ :=
        park_timer_invariant lib s0 ticks htimer k (by omega) hin hnz
      refine ⟨j, hj, hjk, h1, (h3 j hj (le_refl _) hjk).2, ?_, ?_⟩
      · rw [h2, c3] at ht
        exact ht
      · intro i hi hji hik
        have hsi : isStationary s0 ticks[i].2 = true := by
          by_cases hlast : i = k
          · subst hlast
            exact hs
          · exact (h3 i hi hji (by omega)).1
        exact (isStationary_iff s0 ticks[i].2).mp hsi
    · rw [ha] at hon; exact absurd hon (by simp)
  · intro s now data hns
    have hst : isStationary s data = false := by
      cases h : isStationary s data with
      | false => rfl
      | true => exact absurd ((isStationary_iff s data).mp h) hns
    obtain ⟨_, _, _, hcase⟩ := processParkMode_step lib s now data
    rcases hcase with ⟨_, ha, hz⟩ | ⟨h, _⟩ | ⟨h, _⟩ | ⟨h, _⟩ | ⟨h, _⟩
    · exact ⟨hz, ha⟩
    all_goals
      rw [hst] at h
      exact absurd h (by simp)

/-- Witness for C18 as amended: at rest from 1000 ms on, the tick at 3001 ms
activates park; the timer was started by the tick at 1000 ms. -/
theorem park_activates_only_after_continuous_stillness_witness :
    initialState.parkStartTime = 0 ∧
    (stateAt (processParkMode idleLib) initialState atRest 2).parkModeActive = false ∧
    (stateAt (processParkMode idleLib) initialState atRest 3).parkModeActive = true ∧
    ∃ j, ∃ hj : j < atRest.length, j < 2 ∧
      (stateAt (processParkMode idleLib) initialState atRest j).parkStartTime = 0 ∧
      (stateAt (processParkMode idleLib) initialState atRest (j + 1)).parkStartTime
        = atRest[j].1 ∧
      usub32 atRest[2].1 atRest[j].1 > initialState.parkStationaryTime ∧
      (∀ i, ∀ hi : i < atRest.length, j ≤ i → i ≤ 2 →
        accelDeviation atRest[i].2 < initialState.parkAccelNoiseThreshold ∧
        gyroMagnitude atRest[i].2 < initialState.parkGyroNoiseThreshold) :=
  ⟨rfl, by decide!, by decide!,
   (park_activates_only_after_continuous_stillness idleLib initialState atRest rfl).1 2
     (by decide) (by decide!) (by decide!)⟩

/-- C19, the code at the failing input: a sample of 1.9 g on each axis has a
magnitude above `impactThreshold = 3` (its square 10.83 exceeds 9), and more than
1000 ms have passed since `lastImpactTime`, yet `processImpactDetection` does not
fire: `lastImpactTime` and both buffers stay as they were, because the magnitude,
already in g, is divided by 9.8 before the comparison. -/
theorem impact_above_threshold_not_fired :
    initialState.impactThreshold = 3 ∧
    ltSqrt (initialState.impactThreshold : ℚ)
      (accelSqOf { accelX := 19 / 10, accelY := 19 / 10, accelZ := 19 / 10 }) = true ∧
    usub32 5000 initialState.lastImpactTime > 1000 ∧
    (processImpactDetection initialState 5000
      { accelX := 19 / 10, accelY := 19 / 10, accelZ := 19 / 10 }).lastImpactTime = 0 ∧
    (processImpactDetection initialState 5000
      { accelX := 19 / 10, accelY := 19 / 10, accelZ := 19 / 10 }).headlight
      = initialState.headlight ∧
    (processImpactDetection initialState 5000
      { accelX := 19 / 10, accelY := 19 / 10, accelZ := 19 / 10 }).taillight
      = initialState.taillight := by
  decide!

/-! ## Layer composer: the direction fade, facts -/

theorem applyEffectToArray_frame (lib : FxLib) (s : State) (leds : List CRGB)
    (numLeds effect : Nat) (color : CRGB) (timing : EffectTiming) (ledType colorOrder : Nat)
    (bgc : CRGB) (bge : Bool) :
    (applyEffectToArray lib s leds numLeds effect color timing ledType colorOrder bgc
      bge).1.toLedVars = s.toLedVars ∧
    (applyEffectToArray lib s leds numLeds effect color timing ledType colorOrder bgc
      bge).1.toDirectionVars = s.toDirectionVars ∧
    (applyEffectToArray lib s leds numLeds effect color timing ledType colorOrder bgc
      bge).1.headlightOld = s.headlightOld ∧
    (applyEffectToArray lib s leds numLeds effect color timing ledType colorOrder bgc
      bge).1.taillightOld = s.taillightOld := by
  unfold applyEffectToArray
  simp only []
  split_ifs <;> exact ⟨rfl, rfl, rfl, rfl⟩

theorem applyEffectToArray_fields (lib : FxLib) (s : State) (leds : List CRGB)
    (numLeds effect : Nat) (color : CRGB) (timing : EffectTiming) (ledType colorOrder : Nat)
    (bgc : CRGB) (bge : Bool) :
    (applyEffectToArray lib s leds numLeds effect color timing ledType colorOrder bgc
      bge).1.headlight = s.headlight ∧
    (applyEffectToArray lib s leds numLeds effect color timing ledType colorOrder bgc
      bge).1.taillight = s.taillight ∧
    (applyEffectToArray lib s leds numLeds effect color timing ledType colorOrder bgc
      bge).1.headlightOld = s.headlightOld ∧
    (applyEffectToArray lib s leds numLeds effect color timing ledType colorOrder bgc
      bge).1.taillightOld = s.taillightOld ∧
    (applyEffectToArray lib s leds numLeds effect color timing ledType colorOrder bgc
      bge).1.directionFadeProgress = s.directionFadeProgress := by
  unfold applyEffectToArray
  simp only []
  split_ifs <;> exact ⟨rfl, rfl, rfl, rfl, rfl⟩

theorem renderDirectionFade_buffers (lib : FxLib) (s : State) (fu bu : Bool)
    (hfire : (fu || bu) = true) :
    (renderDirectionFade lib s fu bu).headlight
      = blendLEDArrays s.headlight (saveFadeState s).headlightOld
          (renderNewRoles lib (saveFadeState s)).1 s.headlightLedCount s.directionFadeProgress ∧
    (renderDirectionFade lib s fu bu).taillight
      = blendLEDArrays s.taillight (saveFadeState s).taillightOld
          (renderNewRoles lib (saveFadeState s)).2 s.taillightLedCount
          s.directionFadeProgress := by
  unfold renderDirectionFade renderNewRoles saveFadeState
  simp only [hfire, if_true]
  by_cases hc : s.directionFadeProgress = 0 ∧ s.fadeStateSaved = false <;>
    cases hd : s.isMovingForward <;>
    by_cases hm : s.headlightMode = 0 <;>
    simp only [hc, hd, hm, if_true, if_false, and_self, Bool.not_true, Bool.not_false,
      Bool.false_eq_true, applyEffectToArray_fields]

theorem saveFadeState_fields (s : State) :
    (saveFadeState s).toLedVars = s.toLedVars ∧
    (saveFadeState s).toDirectionVars = s.toDirectionVars ∧
    (saveFadeState s).headlightTiming = s.headlightTiming ∧
    (saveFadeState s).taillightTiming = s.taillightTiming ∧
    (saveFadeState s).headlightOld
      = (if s.directionFadeProgress = 0 ∧ s.fadeStateSaved = false then
          memcpyLeds s.headlightOld s.headlight s.headlightLedCount
        else s.headlightOld) ∧
    (saveFadeState s).taillightOld
      = (if s.directionFadeProgress = 0 ∧ s.fadeStateSaved = false then
          memcpyLeds s.taillightOld s.taillight s.taillightLedCount
        else s.taillightOld) := by
  unfold saveFadeState
  split_ifs <;> exact ⟨rfl, rfl, rfl, rfl, rfl, rfl⟩

theorem initFadeArrays_fields (lib : FxLib) (s : State) :
    (initFadeArrays lib s).toLedVars = s.toLedVars ∧
    (initFadeArrays lib s).toDirectionVars = s.toDirectionVars ∧
    (initFadeArrays lib s).headlightTiming = s.headlightTiming ∧
    (initFadeArrays lib s).taillightTiming = s.taillightTiming ∧
    (initFadeArrays lib s).fadeStateSaved = s.fadeStateSaved ∧
    (s.arraysInitialized = true → (initFadeArrays lib s).headlightOld = s.headlightOld ∧
      (initFadeArrays lib s).taillightOld = s.taillightOld) := by
  unfold initFadeArrays
  by_cases h : s.arraysInitialized = false
  · rw [if_pos h]
    refine ⟨rfl, rfl, rfl, rfl, rfl, ?_⟩
    intro h2
    rw [h] at h2
    exact absurd h2 (by simp)
  · rw [if_neg h]
    exact ⟨rfl, rfl, rfl, rfl, rfl, fun _ => ⟨rfl, rfl⟩⟩

theorem updateEffects_fade_frame (lib : FxLib) (s : State) (now : Nat)
    (hdir : s.directionBasedLighting = true) (hpend : s.directionChangePending = true)
    (hp0 : 0 ≤ s.directionFadeProgress) (hp1 : s.directionFadeProgress ≤ 1)
    (hpark : s.parkModeActive = false) (hbrk : s.brakingActive = false)
    (hbl : s.blinkerActive = false) :
    updateEffects lib s now
      = renderDirectionFade lib
          (initFadeArrays lib
            { tickClocks s now with ledBrightness := (tickClocks s now).globalBrightness })
          (if s.isMovingForward then
            (shouldUpdateEffect s.headlightTiming now s.effectSpeed s.headlightLedCount).1
           else (shouldUpdateEffect s.taillightTiming now s.effectSpeed s.taillightLedCount).1)
          (if s.isMovingForward then
            (shouldUpdateEffect s.taillightTiming now s.effectSpeed s.taillightLedCount).1
           else
            (shouldUpdateEffect s.headlightTiming now s.effectSpeed s.headlightLedCount).1) := by
  have hrf : rendersFrame s now = true := by
    unfold rendersFrame
    simp [hpend]
  have hb1 : ∀ hu tu, (renderBase lib (tickClocks s now) hu tu).brakingActive = false := by
    intro hu tu
    have h := (renderBase_braking lib (tickClocks s now) hu tu).trans (tickClocks_braking s now)
    exact (congrArg BrakingVars.brakingActive h).trans hbrk
  have hb2 : ∀ hu tu, (renderBase lib (tickClocks s now) hu tu).blinkerActive = false := by
    intro hu tu
    have h := renderBase_blinkerVars lib (tickClocks s now) hu tu
    exact (congrArg BlinkerVars.blinkerActive h).trans hbl
  have hpk : (tickClocks s now).parkModeActive = false := hpark
  unfold updateEffects
  simp only [hrf, hpk]
  unfold overlayBlinker overlayBraking
  simp only [hb1, hb2, Bool.false_eq_true, if_false]
  unfold renderBase renderDirectionBased
  have hi := initFadeArrays_fields lib
    { tickClocks s now with ledBrightness := (tickClocks s now).globalBrightness }
  have hpd : (initFadeArrays lib
      { tickClocks s now with ledBrightness := (tickClocks s now).globalBrightness
      }).directionChangePending = true :=
    (congrArg DirectionVars.directionChangePending hi.2.1).trans hpend
  have hpr : (initFadeArrays lib
      { tickClocks s now with ledBrightness := (tickClocks s now).globalBrightness
      }).directionFadeProgress = s.directionFadeProgress :=
    congrArg DirectionVars.directionFadeProgress hi.2.1
  have hdl : (tickClocks s now).directionBasedLighting = true := hdir
  simp [hdl, hpd, hpr, hp0, hp1]
  rfl

/-- Counterexample to C20 as stated, half-way through a fade on two pixels per
strip.  With the blinker active the rendered frame (clocks fired at 100 ms) shows
the blinker overlay, solid white on the headlight, not the blend.  On a frame
forced by the pending fade at 10 ms, when neither clock fires, the new roles are
not rendered and the headlight is the blend of the snapshot with the unrendered
temporary array (grey `127,127,127` here) instead of the blend with the new
rear colour (`255,127,127`). -/
theorem fade_frame_not_always_blend_of_new_roles :
    (updateEffects idleLib { halfFaded with blinkerActive := true, blinkerDirection := 1 }
        100).headlight = [CRGB.White, CRGB.White] ∧
    (fadeBlendSpec idleLib { halfFaded with blinkerActive := true, blinkerDirection := 1 }
        100).1 = [⟨255, 127, 127⟩, ⟨255, 127, 127⟩] ∧
    rendersFrame halfFaded 10 = true ∧
    (shouldUpdateEffect halfFaded.headlightTiming 10 halfFaded.effectSpeed
      halfFaded.headlightLedCount).1 = false ∧
    (shouldUpdateEffect halfFaded.taillightTiming 10 halfFaded.effectSpeed
      halfFaded.taillightLedCount).1 = false ∧
    (updateEffects idleLib halfFaded 10).headlight = [⟨127, 127, 127⟩, ⟨127, 127, 127⟩] ∧
    (fadeBlendSpec idleLib halfFaded 10).1 = [⟨255, 127, 127⟩, ⟨255, 127, 127⟩] := by
  decide!

/-- C20 as amended: on a frame that `updateEffects` renders while a direction
fade is pending (direction-based lighting on, progress within `[0, 1]`, Park
inactive), on which at least one frame clock fired and neither the braking nor
the blinker overlay is active, each physical buffer equals `blendLEDArrays` of
that buffer's snapshot array and the freshly rendered new-role frame for that
buffer by `directionFadeProgress`.  The snapshot array receives the displayed
buffer on the fade's first frame (progress exactly 0, nothing saved yet) and is
kept as it is on every other frame; the new roles are rendered with the clocks
as advanced by this frame. -/
theorem fade_frame_blends_snapshot_with_new_roles (lib : FxLib) (s : State) (now : Nat)
    (hdir : s.directionBasedLighting = true) (hpend : s.directionChangePending = true)
    (hp0 : 0 ≤ s.directionFadeProgress) (hp1 : s.directionFadeProgress ≤ 1)
    (hpark : s.parkModeActive = false) (hbrk : s.brakingActive = false)
    (hbl : s.blinkerActive = false)
    (hfire : (shouldUpdateEffect s.headlightTiming now s.effectSpeed s.headlightLedCount).1 = true
      ∨ (shouldUpdateEffect s.taillightTiming now s.effectSpeed s.taillightLedCount).1 = true) :
    (updateEffects lib s now).headlight = (fadeBlendSpec lib s now).1 ∧
    (updateEffects lib s now).taillight = (fadeBlendSpec lib s now).2 ∧
    (fadeBlendSpec lib s now).1
      = blendLEDArrays s.headlight (fadeSnapshot lib s now).headlightOld
          (renderNewRoles lib (fadeSnapshot lib s now)).1 s.headlightLedCount
          s.directionFadeProgress ∧
    (fadeBlendSpec lib s now).2
      = blendLEDArrays s.taillight (fadeSnapshot lib s now).taillightOld
          (renderNewRoles lib (fadeSnapshot lib s now)).2 s.taillightLedCount
          s.directionFadeProgress ∧
    (s.arraysInitialized = true →
      (fadeSnapshot lib s now).headlightOld
        = (if s.directionFadeProgress = 0 ∧ s.fadeStateSaved = false then
            memcpyLeds s.headlightOld s.headlight s.headlightLedCount
          else s.headlightOld) ∧
      (fadeSnapshot lib s now).taillightOld
        = (if s.directionFadeProgress = 0 ∧ s.fadeStateSaved = false then
            memcpyLeds s.taillightOld s.taillight s.taillightLedCount
          else s.taillightOld)) ∧
    (fadeSnapshot lib s now).headlightTiming
      = (shouldUpdateEffect s.headlightTiming now s.effectSpeed s.headlightLedCount).2 ∧
    (fadeSnapshot lib s now).taillightTiming
      = (shouldUpdateEffect s.taillightTiming now s.effectSpeed s.taillightLedCount).2 := by
  have hfb : ((if s.isMovingForward then
        (shouldUpdateEffect s.headlightTiming now s.effectSpeed s.headlightLedCount).1
      else (shouldUpdateEffect s.taillightTiming now s.effectSpeed s.taillightLedCount).1)
      || (if s.isMovingForward then
        (shouldUpdateEffect s.taillightTiming now s.effectSpeed s.taillightLedCount).1
      else (shouldUpdateEffect s.headlightTiming now s.effectSpeed s.headlightLedCount).1))
      = true := by
    cases s.isMovingForward <;> rcases hfire with h | h <;> simp [h]
  have hframe := updateEffects_fade_frame lib s now hdir hpend hp0 hp1 hpark hbrk hbl
  obtain ⟨hH, hT⟩ := renderDirectionFade_buffers lib
    (initFadeArrays lib
      { tickClocks s now with ledBrightness := (tickClocks s now).globalBrightness }) _ _ hfb
  obtain ⟨i1, i2, i3, i4, i5, i6⟩ := initFadeArrays_fields lib
    { tickClocks s now with ledBrightness := (tickClocks s now).globalBrightness }
  obtain ⟨v1, v2, v3, v4, v5, v6⟩ := saveFadeState_fields
    (initFadeArrays lib
      { tickClocks s now with ledBrightness := (tickClocks s now).globalBrightness })
  have j1 := congrArg LedVars.headlight i1
  have j2 := congrArg LedVars.taillight i1
  have j3 := congrArg LedVars.headlightLedCount i1
  have j4 := congrArg LedVars.taillightLedCount i1
  have j5 := congrArg DirectionVars.directionFadeProgress i2
  have eH : (fadeSnapshot lib s now).headlight = s.headlight :=
    (congrArg LedVars.headlight v1).trans j1
  have eT : (fadeSnapshot lib s now).taillight = s.taillight :=
    (congrArg LedVars.taillight v1).trans j2
  have eHc : (fadeSnapshot lib s now).headlightLedCount = s.headlightLedCount :=
    (congrArg LedVars.headlightLedCount v1).trans j3
  have eTc : (fadeSnapshot lib s now).taillightLedCount = s.taillightLedCount :=
    (congrArg LedVars.taillightLedCount v1).trans j4
  have eP : (fadeSnapshot lib s now).directionFadeProgress = s.directionFadeProgress :=
    (congrArg DirectionVars.directionFadeProgress v2).trans j5
  have hspec1 : (fadeBlendSpec lib s now).1
      = blendLEDArrays s.headlight (fadeSnapshot lib s now).headlightOld
          (renderNewRoles lib (fadeSnapshot lib s now)).1 s.headlightLedCount
          s.directionFadeProgress := by
    unfold fadeBlendSpec
    simp only [eH, eHc, eP]
  have hspec2 : (fadeBlendSpec lib s now).2
      = blendLEDArrays s.taillight (fadeSnapshot lib s now).taillightOld
          (renderNewRoles lib (fadeSnapshot lib s now)).2 s.taillightLedCount
          s.directionFadeProgress := by
    unfold fadeBlendSpec
    simp only [eT, eTc, eP]
  refine ⟨?_, ?_, hspec1, hspec2, ?_, v3.trans i3, v4.trans i4⟩
  · rw [hframe, hH, hspec1, j1, j3, j5]
    rfl
  · rw [hframe, hT, hspec2, j2, j4, j5]
    rfl
  · intro hinit
    obtain ⟨o1, o2⟩ := i6 hinit
    constructor
    · show (saveFadeState _).headlightOld = _
      rw [v5, o1]
      simp only [j1, j3, j5, i5]
      rfl
    · show (saveFadeState _).taillightOld = _
      rw [v6, o2]
      simp only [j2, j4, j5, i5]
      rfl

/-- Witness for C20 as amended: `halfFaded` rendered at 100 ms, when both clocks
fire; headlight and taillight are the half-way blends of white and red. -/
theorem fade_frame_blends_snapshot_with_new_roles_witness :
    (updateEffects idleLib halfFaded 100).headlight = (fadeBlendSpec idleLib halfFaded 100).1 ∧
    (fadeBlendSpec idleLib halfFaded 100).1 = [⟨255, 127, 127⟩, ⟨255, 127, 127⟩] :=
  ⟨(fade_frame_blends_snapshot_with_new_roles idleLib halfFaded 100 (by decide) (by decide)
      (by decide!) (by decide!) (by decide) (by decide) (by decide)
      (Or.inl (by decide))).1,
   by decide!⟩

/-! ## Calibrated axes on the captured poses: facts -/

theorem signed_axis_orders_poses (f b : ℚ) :
    f * ((if f > b then (1 : Int) else -1 : Int) : ℚ)
      ≥ b * ((if f > b then (1 : Int) else -1 : Int) : ℚ) := by
  split_ifs with h
  · push_cast
    linarith
  · push_cast
    linarith

/-- The axis and sign selection of `completeCalibration` orients the chosen axis
from the second pose towards the first. -/
theorem oriented_choice (fx fy fz bx by_ bz : ℚ) (A B : Prop) [Decidable A] [Decidable B]
    (axis : Char) (sign : Int)
    (haxis : axis = if A then 'X' else if B then 'Y' else 'Z')
    (hsign : sign = if A then (if fx > bx then 1 else -1)
      else if B then (if fy > by_ then 1 else -1) else (if fz > bz then 1 else -1))
    (dflt1 dflt2 : ℚ) :
    (if axis = 'X' then fx * (sign : ℚ) else if axis = 'Y' then fy * (sign : ℚ)
      else if axis = 'Z' then fz * (sign : ℚ) else dflt1)
    ≥ (if axis = 'X' then bx * (sign : ℚ) else if axis = 'Y' then by_ * (sign : ℚ)
      else if axis = 'Z' then bz * (sign : ℚ) else dflt2) := by
  by_cases hA : A
  · rw [if_pos hA] at haxis hsign
    subst haxis hsign
    simp only [if_true]
    exact signed_axis_orders_poses fx bx
  · have e1 : (('Y' : Char) = 'X') = False := eq_false (by decide)
    have e2 : (('Z' : Char) = 'X') = False := eq_false (by decide)
    have e3 : (('Z' : Char) = 'Y') = False := eq_false (by decide)
    by_cases hB : B
    · rw [if_neg hA, if_pos hB] at haxis hsign
      subst haxis hsign
      simp only [e1, if_false, if_true]
      exact signed_axis_orders_poses fy by_
    · rw [if_neg hA, if_neg hB] at haxis hsign
      subst haxis hsign
      simp only [e2, e3, if_false, if_true]
      exact signed_axis_orders_poses fz bz

theorem completeCalibration_pose_fields (s : State) :
    forwardPose (completeCalibration s).calibration = forwardPose s.calibration ∧
    backwardPose (completeCalibration s).calibration = backwardPose s.calibration ∧
    leftPose (completeCalibration s).calibration = leftPose s.calibration ∧
    rightPose (completeCalibration s).calibration = rightPose s.calibration := by
  unfold completeCalibration forwardPose backwardPose leftPose rightPose
  simp only []
  split_ifs <;> exact ⟨rfl, rfl, rfl, rfl⟩

/-- C29: after `completeCalibration`, for every set of captured poses,
`getCalibratedForwardAccel` on the captured Forward pose is at least its value
on the captured Backward pose, and `getCalibratedLeftRightAccel` on the captured
Left pose is at least its value on the captured Right pose. -/
theorem calibrated_axes_orient_first_pose_over_second (s : State) :
    getCalibratedForwardAccel (completeCalibration s).calibration
        (forwardPose (completeCalibration s).calibration)
      ≥ getCalibratedForwardAccel (completeCalibration s).calibration
        (backwardPose (completeCalibration s).calibration) ∧
    getCalibratedLeftRightAccel (completeCalibration s).calibration
        (leftPose (completeCalibration s).calibration)
      ≥ getCalibratedLeftRightAccel (completeCalibration s).calibration
        (rightPose (completeCalibration s).calibration) := by
  obtain ⟨pf, pb, pl, pr⟩ := completeCalibration_pose_fields s
  have hv : ¬ (completeCalibration s).calibration.valid = false := by
    rw [(completeCalibration_flags s).1]
    decide
  rw [pf, pb, pl, pr]
  constructor
  · unfold getCalibratedForwardAccel
    rw [if_neg hv, if_neg hv]
    exact oriented_choice _ _ _ _ _ _ _ _ _ _ (completeCalibration_forwardAxis s)
      (completeCalibration_forwardSign s) _ _
  · unfold getCalibratedLeftRightAccel
    rw [if_neg hv, if_neg hv]
    exact oriented_choice _ _ _ _ _ _ _ _ _ _ (completeCalibration_leftRightAxis s)
      (completeCalibration_leftRightSign s) _ _

/-! ## Single-precision arithmetic: facts -/

theorem pow2_eq (e : Int) : pow2 e = (2 : ℚ) ^ e := by
  unfold pow2
  split_ifs with h
  · obtain ⟨n, rfl⟩ := Int.eq_ofNat_of_zero_le h
    simp
  · obtain ⟨n, rfl⟩ := Int.exists_eq_neg_ofNat (le_of_lt (not_le.mp h))
    simp

theorem pow2_pos (e : Int) : 0 < pow2 e := by
  rw [pow2_eq]
  positivity

theorem pow2_mono {e f : Int} (h : e ≤ f) : pow2 e ≤ pow2 f := by
  rw [pow2_eq, pow2_eq]
  exact zpow_le_zpow_right₀ (by norm_num) h

theorem pow2_add (e f : Int) : pow2 (e + f) = pow2 e * pow2 f := by
  rw [pow2_eq, pow2_eq, pow2_eq, zpow_add₀ (by norm_num)]

theorem roundHalfEven_intCast (n : Int) : roundHalfEven (n : ℚ) = n := by
  unfold roundHalfEven
  simp

theorem roundHalfEven_bounds (x : ℚ) : ⌊x⌋ ≤ roundHalfEven x ∧ roundHalfEven x ≤ ⌊x⌋ + 1 := by
  unfold roundHalfEven
  split_ifs <;> constructor <;> omega

theorem roundHalfEven_mono {x y : ℚ} (h : x ≤ y) : roundHalfEven x ≤ roundHalfEven y := by
  have hf : ⌊x⌋ ≤ ⌊y⌋ := Int.floor_mono h
  rcases lt_or_eq_of_le hf with hlt | heq
  · have h1 := (roundHalfEven_bounds x).2
    have h2 := (roundHalfEven_bounds y).1
    omega
  · have hxy : x - (⌊x⌋ : ℚ) ≤ y - (⌊y⌋ : ℚ) := by
      rw [heq]
      linarith
    unfold roundHalfEven
    rw [heq] at hxy ⊢
    split_ifs <;> first | omega | (exfalso; linarith)

theorem exponentFrom_le (n : Nat) (e : Int) (x : ℚ) : exponentFrom n e x ≤ e := by
  induction n generalizing e with
  | zero => exact le_refl _
  | succ n ih =>
    unfold exponentFrom
    split_ifs
    · exact le_refl _
    · have := ih (e - 1)
      omega

theorem exponentFrom_ge (n : Nat) (e : Int) (x : ℚ) : e - n ≤ exponentFrom n e x := by
  induction n generalizing e with
  | zero => simp [exponentFrom]
  | succ n ih =>
    unfold exponentFrom
    split_ifs
    · push_cast
      omega
    · have := ih (e - 1)
      push_cast
      omega

theorem exponentFrom_found (n : Nat) (e : Int) (x : ℚ) (h : e - n < exponentFrom n e x) :
    pow2 (exponentFrom n e x) ≤ x := by
  induction n generalizing e with
  | zero => simp [exponentFrom] at h
  | succ n ih =>
    unfold exponentFrom at h ⊢
    split_ifs at h ⊢ with hx
    · exact hx
    · apply ih
      push_cast at h
      omega

theorem exponentFrom_above (n : Nat) (e : Int) (x : ℚ) (h : exponentFrom n e x < e) :
    x < pow2 (exponentFrom n e x + 1) := by
  induction n generalizing e with
  | zero => simp [exponentFrom] at h
  | succ n ih =>
    unfold exponentFrom at h ⊢
    split_ifs at h ⊢ with hx
    · exact absurd h (lt_irrefl _)
    · rcases lt_or_eq_of_le (exponentFrom_le n (e - 1) x) with hlt | heq
      · exact ih (e - 1) hlt
      · rw [heq]
        have : e - 1 + 1 = e := by omega
        rw [this]
        exact not_le.mp hx

theorem exponentFrom_mono (n : Nat) (e : Int) {x y : ℚ} (h : x ≤ y) :
    exponentFrom n e x ≤ exponentFrom n e y := by
  induction n generalizing e with
  | zero => exact le_refl _
  | succ n ih =>
    unfold exponentFrom
    by_cases hx : pow2 e ≤ x
    · rw [if_pos hx, if_pos (le_trans hx h)]
    · rw [if_neg hx]
      by_cases hy : pow2 e ≤ y
      · rw [if_pos hy]
        have := exponentFrom_le n (e - 1) x
        omega
      · rw [if_neg hy]
        exact ih (e - 1)

theorem exponentFrom_of_le (n : Nat) (e f : Int) (x : ℚ) (hf : f ≤ e) (hfx : pow2 f ≤ x) :
    f ≤ exponentFrom n e x := by
  induction n generalizing e with
  | zero => exact hf
  | succ n ih =>
    unfold exponentFrom
    split_ifs with hx
    · exact hf
    · apply ih
      rcases lt_or_eq_of_le hf with hlt | heq
      · omega
      · rw [heq] at hfx
        exact absurd hfx hx

theorem roundMagnitude_nonneg {x : ℚ} (hx : 0 ≤ x) : 0 ≤ roundMagnitude x := by
  unfold roundMagnitude
  have hu := pow2_pos (floatExponent x - 23)
  have h0 : (0 : Int) ≤ roundHalfEven (x / pow2 (floatExponent x - 23)) := by
    have := roundHalfEven_mono (div_nonneg hx (le_of_lt hu))
    rwa [show roundHalfEven (0 : ℚ) = 0 from roundHalfEven_intCast 0] at this
  have h1 : (0 : ℚ) ≤ (roundHalfEven (x / pow2 (floatExponent x - 23)) : ℚ) := by
    exact_mod_cast h0
  positivity

theorem roundMagnitude_mono {x y : ℚ} (h : x ≤ y) :
    roundMagnitude x ≤ roundMagnitude y := by
  have hexp : floatExponent x ≤ floatExponent y := exponentFrom_mono 253 127 h
  rcases lt_or_eq_of_le hexp with hlt | heq
  · have hy127 : floatExponent y ≤ 127 := exponentFrom_le 253 127 y
    have hx126 : (127 : Int) - (253 : Nat) ≤ floatExponent x := exponentFrom_ge 253 127 x
    have hxlt : x < pow2 (floatExponent x + 1) :=
      exponentFrom_above 253 127 x (by unfold floatExponent at hlt hy127; omega)
    have hyge : pow2 (floatExponent y) ≤ y :=
      exponentFrom_found 253 127 y (by unfold floatExponent at hlt hx126; push_cast at hx126 ⊢; omega)
    have hux := pow2_pos (floatExponent x - 23)
    have huy := pow2_pos (floatExponent y - 23)
    have h24 : pow2 (floatExponent x + 1) = (16777216 : ℚ) * pow2 (floatExponent x - 23) := by
      have : floatExponent x + 1 = 24 + (floatExponent x - 23) := by omega
      rw [this, pow2_add]
      congr 1
    have h23 : pow2 (floatExponent y) = (8388608 : ℚ) * pow2 (floatExponent y - 23) := by
      have : floatExponent y = 23 + (floatExponent y - 23) := by omega
      nth_rewrite 1 [this]
      rw [pow2_add]
      congr 1
    have hxr : roundHalfEven (x / pow2 (floatExponent x - 23)) ≤ 16777216 := by
      have hq : x / pow2 (floatExponent x - 23) ≤ ((16777216 : Int) : ℚ) := by
        rw [div_le_iff₀ hux]
        push_cast
        linarith
      have := roundHalfEven_mono hq
      rwa [roundHalfEven_intCast] at this
    have hyr : (8388608 : Int) ≤ roundHalfEven (y / pow2 (floatExponent y - 23)) := by
      have hq : ((8388608 : Int) : ℚ) ≤ y / pow2 (floatExponent y - 23) := by
        rw [le_div_iff₀ huy]
        push_cast
        linarith
      have := roundHalfEven_mono hq
      rwa [roundHalfEven_intCast] at this
    have hxr' : (roundHalfEven (x / pow2 (floatExponent x - 23)) : ℚ) ≤ 16777216 := by
      exact_mod_cast hxr
    have hyr' : (8388608 : ℚ) ≤ (roundHalfEven (y / pow2 (floatExponent y - 23)) : ℚ) := by
      exact_mod_cast hyr
    have hstep : pow2 (floatExponent x + 1) ≤ pow2 (floatExponent y) := pow2_mono (by omega)
    unfold roundMagnitude
    calc (roundHalfEven (x / pow2 (floatExponent x - 23)) : ℚ) * pow2 (floatExponent x - 23)
        ≤ 16777216 * pow2 (floatExponent x - 23) :=
          mul_le_mul_of_nonneg_right hxr' (le_of_lt hux)
      _ = pow2 (floatExponent x + 1) := h24.symm
      _ ≤ pow2 (floatExponent y) := hstep
      _ = 8388608 * pow2 (floatExponent y - 23) := h23
      _ ≤ (roundHalfEven (y / pow2 (floatExponent y - 23)) : ℚ) * pow2 (floatExponent y - 23) :=
          mul_le_mul_of_nonneg_right hyr' (le_of_lt huy)
  · unfold roundMagnitude
    rw [heq]
    have hu := pow2_pos (floatExponent y - 23)
    have hq : x / pow2 (floatExponent y - 23) ≤ y / pow2 (floatExponent y - 23) :=
      div_le_div_of_nonneg_right h (le_of_lt hu)
    have := roundHalfEven_mono hq
    have h' : (roundHalfEven (x / pow2 (floatExponent y - 23)) : ℚ)
        ≤ (roundHalfEven (y / pow2 (floatExponent y - 23)) : ℚ) := by exact_mod_cast this
    exact mul_le_mul_of_nonneg_right h' (le_of_lt hu)

/-- Every natural number below `2 ^ 24` is a `float`. -/
theorem roundMagnitude_natCast (n : Nat) (hn : n < 16777216) : roundMagnitude (n : ℚ) = n := by
  unfold roundMagnitude
  have hu := pow2_pos (floatExponent (n : ℚ) - 23)
  rcases Nat.eq_zero_or_pos n with h0 | hpos
  · subst h0
    simp [roundHalfEven_intCast 0, show roundHalfEven (0 : ℚ) = 0 from roundHalfEven_intCast 0]
  · have hlo : (0 : Int) ≤ floatExponent (n : ℚ) := by
      apply exponentFrom_of_le 253 127 0 _ (by norm_num)
      rw [pow2_eq]
      simp only [zpow_zero]
      exact_mod_cast hpos
    have hfound : pow2 (floatExponent (n : ℚ)) ≤ (n : ℚ) := by
      apply exponentFrom_found
      push_cast
      unfold floatExponent at hlo
      omega
    have hhi : floatExponent (n : ℚ) ≤ 23 := by
      by_contra hcon
      have h24 : pow2 24 ≤ pow2 (floatExponent (n : ℚ)) := pow2_mono (by omega)
      have : pow2 24 = 16777216 := by
        rw [pow2_eq]
        norm_num
      rw [this] at h24
      have : (n : ℚ) < 16777216 := by exact_mod_cast hn
      linarith
    obtain ⟨k, hk⟩ : ∃ k : Nat, floatExponent (n : ℚ) - 23 = -(k : Int) :=
      ⟨(23 - floatExponent (n : ℚ)).toNat, by omega⟩
    rw [hk]
    have hp : pow2 (-(k : Int)) = 1 / (2 : ℚ) ^ k := by
      rw [pow2_eq, zpow_neg, zpow_natCast, one_div]
    rw [hp]
    have hq : (n : ℚ) / (1 / (2 : ℚ) ^ k) = ((n * 2 ^ k : Nat) : Int) := by
      push_cast
      field_simp
    rw [hq, roundHalfEven_intCast]
    push_cast
    field_simp

theorem roundFloat_natCast (n : Nat) (hn : n < 16777216) : roundFloat (n : ℚ) = n := by
  unfold roundFloat
  rw [if_neg (by simp), roundMagnitude_natCast n hn]

theorem roundFloat_neg (x : ℚ) : roundFloat (-x) = -roundFloat x := by
  unfold roundFloat
  rcases lt_trichotomy x 0 with h | h | h
  · rw [if_neg (by linarith), if_pos h, neg_neg]
  · subst h
    simp [roundMagnitude, show roundHalfEven (0 : ℚ) = 0 from roundHalfEven_intCast 0]
  · rw [if_pos (by linarith), if_neg (by linarith), neg_neg]

theorem roundFloat_mono {x y : ℚ} (h : x ≤ y) : roundFloat x ≤ roundFloat y := by
  unfold roundFloat
  by_cases hx : x < 0
  · rw [if_pos hx]
    by_cases hy : y < 0
    · rw [if_pos hy]
      have := roundMagnitude_mono (x := -y) (y := -x) (by linarith)
      linarith
    · rw [if_neg hy]
      have h1 := roundMagnitude_nonneg (x := -x) (by linarith)
      have h2 := roundMagnitude_nonneg (x := y) (by linarith)
      linarith
  · rw [if_neg hx, if_neg (by linarith)]
    exact roundMagnitude_mono h

/-- Every integer of magnitude below `2 ^ 24` is a `float`. -/
theorem roundFloat_intCast (n : Int) (hlo : -16777216 < n) (hhi : n < 16777216) :
    roundFloat (n : ℚ) = n := by
  rcases le_or_lt 0 n with h | h
  · obtain ⟨k, rfl⟩ := Int.eq_ofNat_of_zero_le h
    have := roundFloat_natCast k (by omega)
    exact_mod_cast this
  · obtain ⟨k, hk⟩ : ∃ k : Nat, n = -(k : Int) := ⟨(-n).toNat, by omega⟩
    subst hk
    push_cast
    rw [roundFloat_neg, roundFloat_natCast k (by omega)]

theorem roundHalfEven_near (x : ℚ) :
    x - 1 / 2 ≤ (roundHalfEven x : ℚ) ∧ (roundHalfEven x : ℚ) ≤ x + 1 / 2 := by
  have h1 := Int.floor_le x
  have h2 := Int.lt_floor_add_one x
  unfold roundHalfEven
  split_ifs <;> push_cast <;> constructor <;> linarith

/-- `roundFloat x` is a multiple of the unit in the last place of the binade of
`x`, at most half a unit away from `x`. -/
theorem roundFloat_nearest (x : ℚ) :
    (∃ m : Int, roundFloat x = (m : ℚ) * pow2 (floatExponent |x| - 23)) ∧
    |roundFloat x - x| ≤ pow2 (floatExponent |x| - 23) / 2 := by
  have key : ∀ y : ℚ,
      (∃ m : Int, roundMagnitude y = (m : ℚ) * pow2 (floatExponent y - 23)) ∧
      |roundMagnitude y - y| ≤ pow2 (floatExponent y - 23) / 2 := by
    intro y
    have hu := pow2_pos (floatExponent y - 23)
    obtain ⟨n1, n2⟩ := roundHalfEven_near (y / pow2 (floatExponent y - 23))
    refine ⟨⟨roundHalfEven (y / pow2 (floatExponent y - 23)), rfl⟩, ?_⟩
    unfold roundMagnitude
    have e1 : (roundHalfEven (y / pow2 (floatExponent y - 23)) : ℚ) * pow2 (floatExponent y - 23)
        - y = ((roundHalfEven (y / pow2 (floatExponent y - 23)) : ℚ)
          - y / pow2 (floatExponent y - 23)) * pow2 (floatExponent y - 23) := by
      field_simp
    rw [e1, abs_le]
    constructor <;> nlinarith
  unfold roundFloat
  by_cases hx : x < 0
  · rw [if_pos hx, abs_of_neg hx]
    obtain ⟨⟨m, hm⟩, hd⟩ := key (-x)
    refine ⟨⟨-m, by rw [hm]; push_cast; ring⟩, ?_⟩
    rw [show -roundMagnitude (-x) - x = -(roundMagnitude (-x) - -x) by ring, abs_neg]
    exact hd
  · rw [if_neg hx, abs_of_nonneg (not_lt.mp hx)]
    exact key x

theorem natSqrtBits_spec (k n r : Nat) (h1 : r * r ≤ n) (h2 : n < (r + 2 ^ k) * (r + 2 ^ k)) :
    natSqrtBits k n r * natSqrtBits k n r ≤ n ∧
    n < (natSqrtBits k n r + 1) * (natSqrtBits k n r + 1) := by
  induction k generalizing r with
  | zero => simpa [natSqrtBits] using And.intro h1 h2
  | succ k ih =>
    unfold natSqrtBits
    split_ifs with hc
    · apply ih _ hc
      have : r + 2 ^ k + 2 ^ k = r + 2 ^ (k + 1) := by ring
      rw [this]
      exact h2
    · exact ih _ h1 (not_le.mp hc)

theorem natSqrt_spec (n : Nat) (hn : n < 2 ^ 48) :
    natSqrt n * natSqrt n ≤ n ∧ n < (natSqrt n + 1) * (natSqrt n + 1) := by
  unfold natSqrt
  apply natSqrtBits_spec
  · simp
  · simpa using hn

theorem sqrtExponentFrom_le (n : Nat) (e : Int) (x : ℚ) : sqrtExponentFrom n e x ≤ e := by
  induction n generalizing e with
  | zero => exact le_refl _
  | succ n ih =>
    unfold sqrtExponentFrom
    split_ifs
    · exact le_refl _
    · have := ih (e - 1)
      omega

theorem sqrtExponentFrom_found (n : Nat) (e : Int) (x : ℚ)
    (hlow : pow2 (2 * (e - n)) ≤ x) :
    pow2 (2 * sqrtExponentFrom n e x) ≤ x := by
  induction n generalizing e with
  | zero => simpa [sqrtExponentFrom] using hlow
  | succ n ih =>
    unfold sqrtExponentFrom
    split_ifs with hx
    · exact hx
    · apply ih
      have : e - 1 - (n : Int) = e - ((n + 1 : Nat) : Int) := by
        push_cast
        ring
      rw [this]
      exact hlow

theorem sqrtExponentFrom_above (n : Nat) (e : Int) (x : ℚ)
    (hhigh : x < pow2 (2 * (e + 1))) :
    x < pow2 (2 * (sqrtExponentFrom n e x + 1)) := by
  induction n generalizing e with
  | zero => simpa [sqrtExponentFrom] using hhigh
  | succ n ih =>
    unfold sqrtExponentFrom
    split_ifs with hx
    · exact hhigh
    · apply ih
      have : e - 1 + 1 = e := by omega
      rw [this]
      exact not_le.mp hx

/-- `sqrtFloat x` is the `float` nearest to the square root of a positive
`float` `x`: a multiple `m * u` of the unit in the last place of the binade of
the root, with 24 significant bits, at most half a unit away from the root. -/
theorem sqrtFloat_nearest (x : ℚ) (hlow : pow2 (-150) ≤ x) (hhigh : x < pow2 128) :
    ∃ m : Nat, 8388608 ≤ m ∧ m ≤ 16777216 ∧
      sqrtFloat x = (m : ℚ) * pow2 (sqrtExponentFrom 138 63 x - 23) ∧
      (sqrtFloat x - pow2 (sqrtExponentFrom 138 63 x - 23) / 2)
          * (sqrtFloat x - pow2 (sqrtExponentFrom 138 63 x - 23) / 2) ≤ x ∧
      x ≤ (sqrtFloat x + pow2 (sqrtExponentFrom 138 63 x - 23) / 2)
          * (sqrtFloat x + pow2 (sqrtExponentFrom 138 63 x - 23) / 2) := by
  have hpos : 0 < x := lt_of_lt_of_le (pow2_pos _) hlow
  have hfound : pow2 (2 * sqrtExponentFrom 138 63 x) ≤ x :=
    sqrtExponentFrom_found 138 63 x (by simpa using hlow)
  have habove : x < pow2 (2 * (sqrtExponentFrom 138 63 x + 1)) :=
    sqrtExponentFrom_above 138 63 x (by simpa using hhigh)
  have hsq : sqrtFloat x
      = ((if x / (pow2 (sqrtExponentFrom 138 63 x - 23) * pow2 (sqrtExponentFrom 138 63 x - 23))
              < ((natSqrt ⌊x / (pow2 (sqrtExponentFrom 138 63 x - 23)
                    * pow2 (sqrtExponentFrom 138 63 x - 23))⌋.toNat : ℚ) + 1 / 2)
                * ((natSqrt ⌊x / (pow2 (sqrtExponentFrom 138 63 x - 23)
                    * pow2 (sqrtExponentFrom 138 63 x - 23))⌋.toNat : ℚ) + 1 / 2)
            then natSqrt ⌊x / (pow2 (sqrtExponentFrom 138 63 x - 23)
                    * pow2 (sqrtExponentFrom 138 63 x - 23))⌋.toNat
          else if x / (pow2 (sqrtExponentFrom 138 63 x - 23)
                    * pow2 (sqrtExponentFrom 138 63 x - 23))
              > ((natSqrt ⌊x / (pow2 (sqrtExponentFrom 138 63 x - 23)
                    * pow2 (sqrtExponentFrom 138 63 x - 23))⌋.toNat : ℚ) + 1 / 2)
                * ((natSqrt ⌊x / (pow2 (sqrtExponentFrom 138 63 x - 23)
                    * pow2 (sqrtExponentFrom 138 63 x - 23))⌋.toNat : ℚ) + 1 / 2)
            then natSqrt ⌊x / (pow2 (sqrtExponentFrom 138 63 x - 23)
                    * pow2 (sqrtExponentFrom 138 63 x - 23))⌋.toNat + 1
          else if natSqrt ⌊x / (pow2 (sqrtExponentFrom 138 63 x - 23)
                    * pow2 (sqrtExponentFrom 138 63 x - 23))⌋.toNat % 2 = 0
            then natSqrt ⌊x / (pow2 (sqrtExponentFrom 138 63 x - 23)
                    * pow2 (sqrtExponentFrom 138 63 x - 23))⌋.toNat
          else natSqrt ⌊x / (pow2 (sqrtExponentFrom 138 63 x - 23)
                    * pow2 (sqrtExponentFrom 138 63 x - 23))⌋.toNat + 1 : Nat) : ℚ)
        * pow2 (sqrtExponentFrom 138 63 x - 23) := by
    unfold sqrtFloat
    rw [if_neg (not_le.mpr hpos), if_neg (not_le.mpr hhigh)]
  rw [hsq]
  clear hsq
  generalize sqrtExponentFrom 138 63 x = e at hfound habove ⊢
  have hu := pow2_pos (e - 23)
  have hq0 : (70368744177664 : ℚ) ≤ x / (pow2 (e - 23) * pow2 (e - 23)) := by
    rw [le_div_iff₀ (mul_pos hu hu)]
    have : pow2 (2 * e) = 70368744177664 * (pow2 (e - 23) * pow2 (e - 23)) := by
      rw [← pow2_add, show (70368744177664 : ℚ) = pow2 46 by rw [pow2_eq]; norm_num,
        ← pow2_add]
      congr 1
      ring
    linarith
  have hq1 : x / (pow2 (e - 23) * pow2 (e - 23)) < 281474976710656 := by
    rw [div_lt_iff₀ (mul_pos hu hu)]
    have : pow2 (2 * (e + 1)) = 281474976710656 * (pow2 (e - 23) * pow2 (e - 23)) := by
      rw [← pow2_add, show (281474976710656 : ℚ) = pow2 48 by rw [pow2_eq]; norm_num,
        ← pow2_add]
      congr 1
      ring
    linarith
  have hx : x = x / (pow2 (e - 23) * pow2 (e - 23)) * (pow2 (e - 23) * pow2 (e - 23)) := by
    field_simp
  generalize x / (pow2 (e - 23) * pow2 (e - 23)) = q at hq0 hq1 hx ⊢
  generalize pow2 (e - 23) = u at hu hx ⊢
  have hqnn : (0 : ℚ) ≤ q := by linarith
  have hfl0 : (0 : Int) ≤ ⌊q⌋ := Int.floor_nonneg.mpr hqnn
  have hcast : (((⌊q⌋.toNat : Nat) : Int) : ℚ) = ((⌊q⌋ : Int) : ℚ) := by
    rw [Int.toNat_of_nonneg hfl0]
  push_cast at hcast
  have hflq : ((⌊q⌋.toNat : Nat) : ℚ) ≤ q := by
    have h := Int.floor_le q
    linarith
  have hqfl : q < ((⌊q⌋.toNat : Nat) : ℚ) + 1 := by
    have h := Int.lt_floor_add_one q
    linarith
  have hnlt : ⌊q⌋.toNat < 2 ^ 48 := by
    have : ((⌊q⌋.toNat : Nat) : ℚ) < 281474976710656 := by linarith
    have h3 : ⌊q⌋.toNat < 281474976710656 := by exact_mod_cast this
    simpa using h3
  have hnge : 70368744177664 ≤ ⌊q⌋.toNat := by
    have h : ((70368744177664 : Int) : ℚ) ≤ q := by
      push_cast
      exact hq0
    have h2 := Int.le_floor.mpr h
    omega
  obtain ⟨s1, s2⟩ := natSqrt_spec ⌊q⌋.toNat hnlt
  generalize natSqrt ⌊q⌋.toNat = k at s1 s2 ⊢
  generalize ⌊q⌋.toNat = n at hflq hqfl hnlt hnge s1 s2
  have hk0 : 8388608 ≤ k := by
    by_contra hcon
    have h1 : k + 1 ≤ 8388608 := by omega
    have h2 : (k + 1) * (k + 1) ≤ 8388608 * 8388608 := Nat.mul_le_mul h1 h1
    omega
  have hk1 : k < 16777216 := by
    by_contra hcon
    have h1 : 16777216 ≤ k := by omega
    have h2 : 16777216 * 16777216 ≤ k * k := Nat.mul_le_mul h1 h1
    norm_num at hnlt
    omega
  have hK0 : (8388608 : ℚ) ≤ (k : ℚ) := by exact_mod_cast hk0
  have hKq : (k : ℚ) * (k : ℚ) ≤ q := by
    have : ((k * k : Nat) : ℚ) ≤ (n : ℚ) := by exact_mod_cast s1
    push_cast at this
    linarith
  have hqK : q < ((k : ℚ) + 1) * ((k : ℚ) + 1) := by
    have h : n + 1 ≤ (k + 1) * (k + 1) := s2
    have : ((n + 1 : Nat) : ℚ) ≤ (((k + 1) * (k + 1) : Nat) : ℚ) := by exact_mod_cast h
    push_cast at this
    linarith
  have hscale : ∀ m : ℚ,
      (m * u - u / 2) * (m * u - u / 2) = (m - 1 / 2) * (m - 1 / 2) * (u * u) ∧
      (m * u + u / 2) * (m * u + u / 2) = (m + 1 / 2) * (m + 1 / 2) * (u * u) := by
    intro m
    constructor <;> ring
  have huu : (0 : ℚ) ≤ u * u := le_of_lt (mul_pos hu hu)
  have hlow_case : ((k : ℚ) - 1 / 2) * ((k : ℚ) - 1 / 2) ≤ q := by nlinarith
  have hhigh_case : q ≤ ((k : ℚ) + 1 + 1 / 2) * ((k : ℚ) + 1 + 1 / 2) := by nlinarith
  by_cases c1 : q < ((k : ℚ) + 1 / 2) * ((k : ℚ) + 1 / 2)
  · rw [if_pos c1]
    refine ⟨k, hk0, by omega, rfl, ?_, ?_⟩
    · rw [(hscale k).1]
      have h := mul_le_mul_of_nonneg_right hlow_case huu
      rw [← hx] at h
      exact h
    · rw [(hscale k).2]
      have h := mul_le_mul_of_nonneg_right (le_of_lt c1) huu
      rw [← hx] at h
      exact h
  · rw [if_neg c1]
    by_cases c2 : q > ((k : ℚ) + 1 / 2) * ((k : ℚ) + 1 / 2)
    · rw [if_pos c2]
      refine ⟨k + 1, by omega, by omega, rfl, ?_, ?_⟩
      · rw [(hscale ((k + 1 : Nat) : ℚ)).1]
        have hc : (((k + 1 : Nat) : ℚ) - 1 / 2) * (((k + 1 : Nat) : ℚ) - 1 / 2) ≤ q := by
          push_cast
          rw [show (k : ℚ) + 1 - 1 / 2 = (k : ℚ) + 1 / 2 by ring]
          exact not_lt.mp c1
        have h := mul_le_mul_of_nonneg_right hc huu
        rw [← hx] at h
        exact h
      · rw [(hscale ((k + 1 : Nat) : ℚ)).2]
        have hc : q ≤ (((k + 1 : Nat) : ℚ) + 1 / 2) * (((k + 1 : Nat) : ℚ) + 1 / 2) := by
          push_cast
          exact hhigh_case
        have h := mul_le_mul_of_nonneg_right hc huu
        rw [← hx] at h
        exact h
    · rw [if_neg c2]
      have ceq : q = ((k : ℚ) + 1 / 2) * ((k : ℚ) + 1 / 2) :=
        le_antisymm (not_lt.mp c2) (not_lt.mp c1)
      by_cases c3 : k % 2 = 0
      · rw [if_pos c3]
        refine ⟨k, hk0, by omega, rfl, ?_, ?_⟩
        · rw [(hscale k).1]
          have h := mul_le_mul_of_nonneg_right hlow_case huu
          rw [← hx] at h
          exact h
        · rw [(hscale k).2]
          have h := mul_le_mul_of_nonneg_right (le_of_eq ceq) huu
          rw [← hx] at h
          exact h
      · rw [if_neg c3]
        refine ⟨k + 1, by omega, by omega, rfl, ?_, ?_⟩
        · rw [(hscale ((k + 1 : Nat) : ℚ)).1]
          have hc : (((k + 1 : Nat) : ℚ) - 1 / 2) * (((k + 1 : Nat) : ℚ) - 1 / 2) ≤ q := by
            push_cast
            rw [show (k : ℚ) + 1 - 1 / 2 = (k : ℚ) + 1 / 2 by ring]
            exact not_lt.mp c1
          have h := mul_le_mul_of_nonneg_right hc huu
          rw [← hx] at h
          exact h
        · rw [(hscale ((k + 1 : Nat) : ℚ)).2]
          have hc : q ≤ (((k + 1 : Nat) : ℚ) + 1 / 2) * (((k + 1 : Nat) : ℚ) + 1 / 2) := by
            push_cast
            exact hhigh_case
          have h := mul_le_mul_of_nonneg_right hc huu
          rw [← hx] at h
          exact h

/-! ## Blend: facts -/

theorem roundFloat_zero : roundFloat 0 = 0 := by
  have := roundFloat_natCast 0 (by norm_num)
  exact_mod_cast this

theorem roundFloat_one : roundFloat 1 = 1 := by
  have := roundFloat_natCast 1 (by norm_num)
  exact_mod_cast this

theorem roundFloat_unit {p : ℚ} (hp0 : 0 ≤ p) (hp1 : p ≤ 1) :
    0 ≤ roundFloat p ∧ roundFloat p ≤ 1 := by
  have h0 := roundFloat_mono hp0
  have h1 := roundFloat_mono hp1
  rw [roundFloat_zero] at h0
  rw [roundFloat_one] at h1
  exact ⟨h0, h1⟩

theorem roundFloat_byte_diff (a b : Nat) (ha : a ≤ 255) (hb : b ≤ 255) :
    roundFloat ((b : ℚ) - (a : ℚ)) = (b : ℚ) - (a : ℚ) := by
  have h := roundFloat_intCast ((b : Int) - (a : Int)) (by omega) (by omega)
  push_cast at h
  exact h

/-- The interpolation in `float` arithmetic stays between its end points. -/
theorem floatBlend_between (a b : Nat) (p : ℚ) (ha : a ≤ 255) (hb : b ≤ 255)
    (hp0 : 0 ≤ p) (hp1 : p ≤ 1) :
    ((min a b : Nat) : ℚ) ≤ floatBlend a b p ∧ floatBlend a b p ≤ ((max a b : Nat) : ℚ) := by
  obtain ⟨q0, q1⟩ := roundFloat_unit hp0 hp1
  have hd := roundFloat_byte_diff a b ha hb
  unfold floatBlend
  rcases Nat.le_total a b with h | h
  · have hq : (a : ℚ) ≤ (b : ℚ) := by exact_mod_cast h
    rw [min_eq_left h, max_eq_right h]
    have t0 : roundFloat 0 ≤ roundFloat (((b : ℚ) - (a : ℚ)) * roundFloat p) :=
      roundFloat_mono (by nlinarith)
    have t1 : roundFloat (((b : ℚ) - (a : ℚ)) * roundFloat p)
        ≤ roundFloat ((b : ℚ) - (a : ℚ)) := roundFloat_mono (by nlinarith)
    rw [roundFloat_zero] at t0
    rw [hd] at t1
    have s0 := roundFloat_mono (x := (a : ℚ))
      (y := (a : ℚ) + roundFloat (((b : ℚ) - (a : ℚ)) * roundFloat p)) (by linarith)
    have s1 := roundFloat_mono
      (x := (a : ℚ) + roundFloat (((b : ℚ) - (a : ℚ)) * roundFloat p)) (y := (b : ℚ))
      (by linarith)
    rw [roundFloat_natCast a (by omega)] at s0
    rw [roundFloat_natCast b (by omega)] at s1
    exact ⟨s0, s1⟩
  · have hq : (b : ℚ) ≤ (a : ℚ) := by exact_mod_cast h
    rw [min_eq_right h, max_eq_left h]
    have t0 : roundFloat (((b : ℚ) - (a : ℚ)) * roundFloat p) ≤ roundFloat 0 :=
      roundFloat_mono (by nlinarith)
    have t1 : roundFloat ((b : ℚ) - (a : ℚ))
        ≤ roundFloat (((b : ℚ) - (a : ℚ)) * roundFloat p) := roundFloat_mono (by nlinarith)
    rw [roundFloat_zero] at t0
    rw [hd] at t1
    have s0 := roundFloat_mono (x := (b : ℚ))
      (y := (a : ℚ) + roundFloat (((b : ℚ) - (a : ℚ)) * roundFloat p)) (by linarith)
    have s1 := roundFloat_mono
      (x := (a : ℚ) + roundFloat (((b : ℚ) - (a : ℚ)) * roundFloat p)) (y := (a : ℚ))
      (by linarith)
    rw [roundFloat_natCast b (by omega)] at s0
    rw [roundFloat_natCast a (by omega)] at s1
    exact ⟨s0, s1⟩

theorem floatBlend_zero (a b : Nat) (ha : a ≤ 255) : floatBlend a b 0 = a := by
  unfold floatBlend
  rw [roundFloat_zero, mul_zero, roundFloat_zero, add_zero, roundFloat_natCast a (by omega)]

theorem floatBlend_one (a b : Nat) (ha : a ≤ 255) (hb : b ≤ 255) : floatBlend a b 1 = b := by
  unfold floatBlend
  rw [roundFloat_one, mul_one, roundFloat_byte_diff a b ha hb, add_sub_cancel,
    roundFloat_natCast b (by omega)]

theorem blendChannel_spec (a b : Nat) (p : ℚ) (ha : a ≤ 255) (hb : b ≤ 255)
    (hp0 : 0 ≤ p) (hp1 : p ≤ 1) :
    ((blendChannel a b p : Nat) : Int) = ⌊floatBlend a b p⌋ ∧
    min a b ≤ blendChannel a b p ∧ blendChannel a b p ≤ max a b := by
  obtain ⟨hlo, hhi⟩ := floatBlend_between a b p ha hb hp0 hp1
  have hmax : max a b ≤ 255 := max_le ha hb
  have h0 : ¬ (floatBlend a b p < 0) := by
    have : (0 : ℚ) ≤ ((min a b : Nat) : ℚ) := Nat.cast_nonneg _
    linarith
  have h255 : ¬ (floatBlend a b p > 255) := by
    have : ((max a b : Nat) : ℚ) ≤ 255 := by exact_mod_cast hmax
    linarith
  have hfl : ((min a b : Nat) : Int) ≤ ⌊floatBlend a b p⌋ := by
    rw [Int.le_floor]
    exact_mod_cast hlo
  have hfu : ⌊floatBlend a b p⌋ ≤ ((max a b : Nat) : Int) := by
    have h := Int.floor_le (floatBlend a b p)
    have h2 : ((⌊floatBlend a b p⌋ : Int) : ℚ) ≤ ((max a b : Nat) : ℚ) := le_trans h hhi
    exact_mod_cast h2
  have hnn : 0 ≤ ⌊floatBlend a b p⌋ := le_trans (Int.natCast_nonneg _) hfl
  have hdef : blendChannel a b p
      = (Int.toNat ⌊(if floatBlend a b p < 0 then (0 : ℚ)
          else if floatBlend a b p > 255 then 255 else floatBlend a b p)⌋) % 256 := by
    unfold blendChannel floatBlend
    rw [roundFloat_natCast a (by omega), roundFloat_byte_diff a b ha hb]
  rw [hdef]
  simp only [h0, h255, if_false]
  have hto : ((Int.toNat ⌊floatBlend a b p⌋ : Nat) : Int) = ⌊floatBlend a b p⌋ :=
    Int.toNat_of_nonneg hnn
  omega

theorem blendLEDArrays_getD_lt (target source1 source2 : List CRGB) (numLeds : Nat) (p : ℚ)
    (i : Nat) (hi : i < numLeds) :
    (blendLEDArrays target source1 source2 numLeds p).getD i CRGB.Black
      = { r := blendChannel (source1.getD i CRGB.Black).r (source2.getD i CRGB.Black).r p
          g := blendChannel (source1.getD i CRGB.Black).g (source2.getD i CRGB.Black).g p
          b := blendChannel (source1.getD i CRGB.Black).b (source2.getD i CRGB.Black).b p } := by
  unfold blendLEDArrays
  rw [List.getD_eq_getElem?_getD, List.getElem?_append_left (by simp [hi])]
  simp [hi]

theorem blendLEDArrays_getD_ge (target source1 source2 : List CRGB) (numLeds : Nat) (p : ℚ)
    (i : Nat) (hi : numLeds ≤ i) :
    (blendLEDArrays target source1 source2 numLeds p).getD i CRGB.Black
      = target.getD i CRGB.Black := by
  unfold blendLEDArrays
  rw [List.getD_eq_getElem?_getD, List.getD_eq_getElem?_getD,
    List.getElem?_append_right (by simp [hi])]
  simp only [List.length_map, List.length_range, List.getElem?_drop]
  rw [Nat.add_sub_cancel' hi]

theorem getD_byte (l : List CRGB) (h : ∀ c ∈ l, c.r ≤ 255 ∧ c.g ≤ 255 ∧ c.b ≤ 255) (i : Nat) :
    (l.getD i CRGB.Black).r ≤ 255 ∧ (l.getD i CRGB.Black).g ≤ 255 ∧
    (l.getD i CRGB.Black).b ≤ 255 := by
  by_cases hi : i < l.length
  · rw [List.getD_eq_getElem _ _ hi]
    exact h _ (List.getElem_mem _)
  · rw [List.getD_eq_default _ _ (by omega)]
    decide

/-- Counterexample to C27 as stated: 300 ms into a fade `fadeProgress` is the
`float` nearest to `300 / 1500`, slightly above 0.2.  Blending white (255) into
black (0) with it, `blendLEDArrays` writes 204 in each component: the product
`-255 * fadeProgress` rounds to the `float` -51.  The exact value of
`a + (b - a) * p` is just below 204 and truncates to 203. -/
theorem blend_differs_from_exact_interpolation :
    roundFloat (300 / 1500) = progress300 ∧
    roundFloat progress300 = progress300 ∧
    0 ≤ progress300 ∧ progress300 ≤ 1 ∧
    blendLEDArrays [CRGB.Black] [CRGB.White] [CRGB.Black] 1 progress300
      = [⟨204, 204, 204⟩] ∧
    ⌊((255 : Nat) : ℚ) + (((0 : Nat) : ℚ) - ((255 : Nat) : ℚ)) * progress300⌋ = 203 := by
  decide!

/-- C27 as amended: for 8-bit source colours, every `numLeds` and every
`fadeProgress` `p` in `[0, 1]`, `blendLEDArrays` writes for each pixel
`i < numLeds` and each of r, g, b the truncation of `a + (b - a) * p` as
evaluated in `float` arithmetic (`floatBlend`: `p`, the product and the sum each
rounded to the nearest `float`), `a` being the old (`source1`) and `b` the new
(`source2`) component; the value lies between `a` and `b`, so the clamp to
`0..255` never takes effect; the output pixel equals the `source1` pixel at
`p = 0` and the `source2` pixel at `p = 1`; and pixels at index `>= numLeds` are
those of `target`, untouched. -/
theorem blend_is_truncated_linear_interpolation (target source1 source2 : List CRGB)
    (numLeds : Nat) (p : ℚ) (hp0 : 0 ≤ p) (hp1 : p ≤ 1)
    (h1 : ∀ c ∈ source1, c.r ≤ 255 ∧ c.g ≤ 255 ∧ c.b ≤ 255)
    (h2 : ∀ c ∈ source2, c.r ≤ 255 ∧ c.g ≤ 255 ∧ c.b ≤ 255) :
    (∀ i, i < numLeds →
      (((blendLEDArrays target source1 source2 numLeds p).getD i CRGB.Black).r : Int)
        = ⌊floatBlend (source1.getD i CRGB.Black).r (source2.getD i CRGB.Black).r p⌋ ∧
      (((blendLEDArrays target source1 source2 numLeds p).getD i CRGB.Black).g : Int)
        = ⌊floatBlend (source1.getD i CRGB.Black).g (source2.getD i CRGB.Black).g p⌋ ∧
      (((blendLEDArrays target source1 source2 numLeds p).getD i CRGB.Black).b : Int)
        = ⌊floatBlend (source1.getD i CRGB.Black).b (source2.getD i CRGB.Black).b p⌋ ∧
      min (source1.getD i CRGB.Black).r (source2.getD i CRGB.Black).r
        ≤ ((blendLEDArrays target source1 source2 numLeds p).getD i CRGB.Black).r ∧
      ((blendLEDArrays target source1 source2 numLeds p).getD i CRGB.Black).r
        ≤ max (source1.getD i CRGB.Black).r (source2.getD i CRGB.Black).r ∧
      min (source1.getD i CRGB.Black).g (source2.getD i CRGB.Black).g
        ≤ ((blendLEDArrays target source1 source2 numLeds p).getD i CRGB.Black).g ∧
      ((blendLEDArrays target source1 source2 numLeds p).getD i CRGB.Black).g
        ≤ max (source1.getD i CRGB.Black).g (source2.getD i CRGB.Black).g ∧
      min (source1.getD i CRGB.Black).b (source2.getD i CRGB.Black).b
        ≤ ((blendLEDArrays target source1 source2 numLeds p).getD i CRGB.Black).b ∧
      ((blendLEDArrays target source1 source2 numLeds p).getD i CRGB.Black).b
        ≤ max (source1.getD i CRGB.Black).b (source2.getD i CRGB.Black).b ∧
      ((blendLEDArrays target source1 source2 numLeds p).getD i CRGB.Black).r ≤ 255 ∧
      ((blendLEDArrays target source1 source2 numLeds p).getD i CRGB.Black).g ≤ 255 ∧
      ((blendLEDArrays target source1 source2 numLeds p).getD i CRGB.Black).b ≤ 255) ∧
    (p = 0 → ∀ i, i < numLeds →
      (blendLEDArrays target source1 source2 numLeds p).getD i CRGB.Black
        = source1.getD i CRGB.Black) ∧
    (p = 1 → ∀ i, i < numLeds →
      (blendLEDArrays target source1 source2 numLeds p).getD i CRGB.Black
        = source2.getD i CRGB.Black) ∧
    (∀ i, numLeds ≤ i →
      (blendLEDArrays target source1 source2 numLeds p).getD i CRGB.Black
        = target.getD i CRGB.Black) := by
  have key : ∀ i, i < numLeds →
      (blendLEDArrays target source1 source2 numLeds p).getD i CRGB.Black
        = { r := blendChannel (source1.getD i CRGB.Black).r (source2.getD i CRGB.Black).r p
            g := blendChannel (source1.getD i CRGB.Black).g (source2.getD i CRGB.Black).g p
            b := blendChannel (source1.getD i CRGB.Black).b (source2.getD i CRGB.Black).b p } :=
    fun i hi => blendLEDArrays_getD_lt target source1 source2 numLeds p i hi
  refine ⟨?_, ?_, ?_, fun i hi => blendLEDArrays_getD_ge target source1 source2 numLeds p i hi⟩
  · intro i hi
    obtain ⟨a1, a2, a3⟩ := getD_byte source1 h1 i
    obtain ⟨b1, b2, b3⟩ := getD_byte source2 h2 i
    obtain ⟨r1, r2, r3⟩ := blendChannel_spec _ _ p a1 b1 hp0 hp1
    obtain ⟨g1, g2, g3⟩ := blendChannel_spec _ _ p a2 b2 hp0 hp1
    obtain ⟨c1, c2, c3⟩ := blendChannel_spec _ _ p a3 b3 hp0 hp1
    rw [key i hi]
    refine ⟨r1, g1, c1, r2, r3, g2, g3, c2, c3, ?_, ?_, ?_⟩
    · exact le_trans r3 (max_le a1 b1)
    · exact le_trans g3 (max_le a2 b2)
    · exact le_trans c3 (max_le a3 b3)
  · intro h0 i hi
    subst h0
    obtain ⟨a1, a2, a3⟩ := getD_byte source1 h1 i
    obtain ⟨b1, b2, b3⟩ := getD_byte source2 h2 i
    obtain ⟨r1, _, _⟩ := blendChannel_spec _ _ 0 a1 b1 hp0 hp1
    obtain ⟨g1, _, _⟩ := blendChannel_spec _ _ 0 a2 b2 hp0 hp1
    obtain ⟨c1, _, _⟩ := blendChannel_spec _ _ 0 a3 b3 hp0 hp1
    rw [key i hi]
    rw [floatBlend_zero _ _ a1] at r1
    rw [floatBlend_zero _ _ a2] at g1
    rw [floatBlend_zero _ _ a3] at c1
    simp only [Int.floor_natCast, Nat.cast_inj] at r1 g1 c1
    rw [r1, g1, c1]
  · intro h0 i hi
    subst h0
    obtain ⟨a1, a2, a3⟩ := getD_byte source1 h1 i
    obtain ⟨b1, b2, b3⟩ := getD_byte source2 h2 i
    obtain ⟨r1, _, _⟩ := blendChannel_spec _ _ 1 a1 b1 hp0 hp1
    obtain ⟨g1, _, _⟩ := blendChannel_spec _ _ 1 a2 b2 hp0 hp1
    obtain ⟨c1, _, _⟩ := blendChannel_spec _ _ 1 a3 b3 hp0 hp1
    rw [key i hi]
    rw [floatBlend_one _ _ a1 b1] at r1
    rw [floatBlend_one _ _ a2 b2] at g1
    rw [floatBlend_one _ _ a3 b3] at c1
    simp only [Int.floor_natCast, Nat.cast_inj] at r1 g1 c1
    rw [r1, g1, c1]

/-- Witness for C27 as amended: white blended into red over two pixels 490 ms
into a fade (`p = 490 / 1500`), with a third target pixel left as it was: the
green and blue components are the truncated `float` interpolation, 171. -/
theorem blend_is_truncated_linear_interpolation_witness :
    (((blendLEDArrays [CRGB.Blue, CRGB.Blue, CRGB.Blue] [CRGB.White, CRGB.White]
        [CRGB.Red, CRGB.Red] 2 (490 / 1500)).getD 0 CRGB.Black).g : Int)
      = ⌊floatBlend (([CRGB.White, CRGB.White] : List CRGB).getD 0 CRGB.Black).g
          (([CRGB.Red, CRGB.Red] : List CRGB).getD 0 CRGB.Black).g (490 / 1500)⌋ ∧
    blendLEDArrays [CRGB.Blue, CRGB.Blue, CRGB.Blue] [CRGB.White, CRGB.White]
        [CRGB.Red, CRGB.Red] 2 (490 / 1500)
      = [⟨255, 171, 171⟩, ⟨255, 171, 171⟩, CRGB.Blue] :=
  ⟨((blend_is_truncated_linear_interpolation [CRGB.Blue, CRGB.Blue, CRGB.Blue]
      [CRGB.White, CRGB.White] [CRGB.Red, CRGB.Red] 2 (490 / 1500) (by norm_num) (by norm_num)
      (by decide) (by decide)).1 0 (by decide)).2.1,
   by decide!⟩

/-! ## Configuration left alone by the composer: facts -/

theorem SameConfig.rfl_ (a : State) : SameConfig a a := ⟨rfl, rfl, rfl, rfl⟩

theorem SameConfig.trans_ (a b c : State) (h1 : SameConfig a b) (h2 : SameConfig b c) :
    SameConfig a c :=
  ⟨h1.1.trans h2.1, h1.2.1.trans h2.2.1, h1.2.2.1.trans h2.2.2.1, h1.2.2.2.trans h2.2.2.2⟩

theorem applyEffectToArray_config (lib : FxLib) (s : State) (leds : List CRGB)
    (numLeds effect : Nat) (color : CRGB) (timing : EffectTiming) (ledType colorOrder : Nat)
    (bgc : CRGB) (bge : Bool) :
    (applyEffectToArray lib s leds numLeds effect color timing ledType colorOrder bgc
      bge).1.toMotionVars = s.toMotionVars ∧
    (applyEffectToArray lib s leds numLeds effect color timing ledType colorOrder bgc
      bge).1.toParkVars = s.toParkVars ∧
    (applyEffectToArray lib s leds numLeds effect color timing ledType colorOrder bgc
      bge).1.toDirectionVars = s.toDirectionVars ∧
    (applyEffectToArray lib s leds numLeds effect color timing ledType colorOrder bgc
      bge).1.toLedVars = s.toLedVars := by
  unfold applyEffectToArray
  simp only []
  split_ifs <;> exact ⟨rfl, rfl, rfl, rfl⟩

theorem showParkEffect_config (lib : FxLib) (s : State) :
    SameConfig (showParkEffect lib s) s := by
  unfold showParkEffect SameConfig ledConfig
  simp only []
  split_ifs <;> exact ⟨rfl, rfl, rfl, rfl⟩

theorem showBrakingEffect_config (lib : FxLib) (s : State) (now : Nat) :
    SameConfig (showBrakingEffect lib s now) s := by
  unfold showBrakingEffect setTargetLights SameConfig ledConfig
  simp only []
  split_ifs <;> exact ⟨rfl, rfl, rfl, rfl⟩

theorem showBlinkerEffect_config (s : State) (now : Nat) (d : Int) :
    SameConfig (showBlinkerEffect s now d) s := by
  unfold showBlinkerEffect SameConfig ledConfig
  simp only []
  split_ifs <;> exact ⟨rfl, rfl, rfl, rfl⟩

theorem initFadeArrays_config (lib : FxLib) (s : State) :
    SameConfig (initFadeArrays lib s) s := by
  unfold initFadeArrays SameConfig ledConfig
  simp only []
  split_ifs <;> exact ⟨rfl, rfl, rfl, rfl⟩

theorem renderFixedRoles_config (lib : FxLib) (s : State) (hu tu : Bool) :
    SameConfig (renderFixedRoles lib s hu tu) s := by
  unfold renderFixedRoles SameConfig ledConfig
  simp only []
  split_ifs <;> simp [applyEffectToArray_config]

theorem renderDirectionNormal_config (lib : FxLib) (s : State) (fu bu : Bool) :
    SameConfig (renderDirectionNormal lib s fu bu) s := by
  unfold renderDirectionNormal SameConfig ledConfig
  simp only []
  split_ifs <;> simp [applyEffectToArray_config]

theorem renderDirectionFade_config (lib : FxLib) (s : State) (fu bu : Bool) :
    SameConfig (renderDirectionFade lib s fu bu) s := by
  unfold renderDirectionFade SameConfig ledConfig
  simp only []
  split_ifs <;> simp [applyEffectToArray_config]

theorem renderBase_config (lib : FxLib) (s : State) (hu tu : Bool) :
    SameConfig (renderBase lib s hu tu) s := by
  unfold renderBase renderDirectionBased
  simp only []
  split_ifs <;> first
    | exact SameConfig.trans_ _ _ _ (renderDirectionFade_config lib _ _ _)
        (SameConfig.trans_ _ _ _ (initFadeArrays_config lib _) ⟨rfl, rfl, rfl, rfl⟩)
    | exact SameConfig.trans_ _ _ _ (renderDirectionNormal_config lib _ _ _)
        (SameConfig.trans_ _ _ _ (initFadeArrays_config lib _) ⟨rfl, rfl, rfl, rfl⟩)
    | exact SameConfig.trans_ _ _ _ (renderFixedRoles_config lib _ _ _) ⟨rfl, rfl, rfl, rfl⟩

theorem overlayBraking_config (lib : FxLib) (s : State) (now : Nat) :
    SameConfig (overlayBraking lib s now) s := by
  unfold overlayBraking
  split_ifs
  · exact showBrakingEffect_config lib s now
  · exact SameConfig.rfl_ s

theorem overlayBlinker_config (s : State) (now : Nat) :
    SameConfig (overlayBlinker s now) s := by
  unfold overlayBlinker
  split_ifs
  · exact SameConfig.trans_ _ _ _ (showBlinkerEffect_config _ now _) ⟨rfl, rfl, rfl, rfl⟩
  · exact SameConfig.rfl_ s

theorem updateEffects_config (lib : FxLib) (s : State) (now : Nat) :
    SameConfig (updateEffects lib s now) s := by
  unfold updateEffects
  simp only []
  split_ifs
  · exact ⟨rfl, rfl, rfl, rfl⟩
  · exact SameConfig.trans_ _ _ _ (showParkEffect_config lib _) ⟨rfl, rfl, rfl, rfl⟩
  · exact SameConfig.trans_ _ _ _ (overlayBlinker_config _ now)
      (SameConfig.trans_ _ _ _ (overlayBraking_config lib _ now)
        (SameConfig.trans_ _ _ _ (renderBase_config lib _ _ _) ⟨rfl, rfl, rfl, rfl⟩))

theorem resetToNormalEffects_config (lib : FxLib) (s : State) (now : Nat) :
    SameConfig (resetToNormalEffects lib s now) s := by
  unfold resetToNormalEffects
  exact SameConfig.trans_ _ _ _ (updateEffects_config lib _ now) ⟨rfl, rfl, rfl, rfl⟩

/-! ## Blinker overlay: facts -/

theorem fillSolidWithColorOrder_getD (leds : List CRGB) (n : Nat) (c : CRGB)
    (ledType colorOrder : Nat) (i : Nat) (hi : i < n) :
    (fillSolidWithColorOrder leds n c ledType colorOrder).getD i CRGB.Black
      = storedColor c ledType colorOrder ∧
    i < (fillSolidWithColorOrder leds n c ledType colorOrder).length := by
  unfold fillSolidWithColorOrder storedColor
  split_ifs <;>
    · constructor
      · rw [List.getD_eq_getElem?_getD, fill_solid_getElem _ _ _ _ hi]
        rfl
      · unfold fill_solid
        simp
        omega

theorem setRange_getD (leds : List CRGB) (lo hi : Nat) (c : CRGB) (i : Nat)
    (hlen : i < leds.length) :
    (setRange leds lo hi c).getD i CRGB.Black
      = if lo ≤ i ∧ i < hi then c else leds.getD i CRGB.Black := by
  unfold setRange
  rw [List.getD_eq_getElem?_getD, List.getD_eq_getElem?_getD]
  simp [List.getElem?_map, List.getElem?_enum, hlen, List.getElem?_eq_getElem hlen]

theorem showBlinkerEffect_buffers (s : State) (now : Nat) (d : Int) :
    (showBlinkerEffect s now d).blinkState = blinkPhase s now ∧
    (showBlinkerEffect s now d).headlight
      = (if blinkPhase s now = true then
          (if d > 0 then setRange s.headlight (s.headlightLedCount / 2) s.headlightLedCount
              CRGB.Yellow
            else setRange s.headlight 0 (s.headlightLedCount / 2) CRGB.Yellow)
        else s.headlight) ∧
    (showBlinkerEffect s now d).taillight
      = (if blinkPhase s now = true then
          (if d > 0 then setRange s.taillight 0 (s.taillightLedCount / 2) CRGB.Yellow
            else setRange s.taillight (s.taillightLedCount / 2) s.taillightLedCount
              CRGB.Yellow)
        else s.taillight) := by
  unfold showBlinkerEffect blinkPhase
  simp only []
  by_cases ht : usub32 now s.lastBlinkTime > 500 <;> cases hb : s.blinkState <;>
    by_cases hd : d > 0 <;> simp [ht, hb, hd]

theorem updateEffects_blinker_frame (lib : FxLib) (s : State) (now : Nat)
    (hbl : s.blinkerActive = true) (hpark : s.parkModeActive = false) :
    ∃ b : State, b.toBlinkerVars = s.toBlinkerVars ∧ ledConfig b = ledConfig s ∧
      updateEffects lib s now
        = showBlinkerEffect
            { b with
              headlight := fillSolidWithColorOrder b.headlight b.headlightLedCount CRGB.White
                b.headlightLedType b.headlightColorOrder
              taillight := fillSolidWithColorOrder b.taillight b.taillightLedCount CRGB.Red
                b.taillightLedType b.taillightColorOrder }
            now b.blinkerDirection := by
  have hrf : rendersFrame s now = true := by
    unfold rendersFrame
    simp [hbl]
  have hpk : (tickClocks s now).parkModeActive = false := hpark
  refine ⟨overlayBraking lib (renderBase lib (tickClocks s now)
      (shouldUpdateEffect s.headlightTiming now s.effectSpeed s.headlightLedCount).1
      (shouldUpdateEffect s.taillightTiming now s.effectSpeed s.taillightLedCount).1) now,
    ?_, ?_, ?_⟩
  · exact (overlayBraking_blinkerVars lib _ now).trans (renderBase_blinkerVars lib _ _ _)
  · exact ((overlayBraking_config lib _ now).2.2.2).trans
      ((renderBase_config lib (tickClocks s now) _ _).2.2.2)
  · have hact : (overlayBraking lib (renderBase lib (tickClocks s now)
        (shouldUpdateEffect s.headlightTiming now s.effectSpeed s.headlightLedCount).1
        (shouldUpdateEffect s.taillightTiming now s.effectSpeed s.taillightLedCount).1)
        now).blinkerActive = true := by
      have h := (overlayBraking_blinkerVars lib (renderBase lib (tickClocks s now)
        (shouldUpdateEffect s.headlightTiming now s.effectSpeed s.headlightLedCount).1
        (shouldUpdateEffect s.taillightTiming now s.effectSpeed s.taillightLedCount).1)
        now).trans (renderBase_blinkerVars lib _ _ _)
      exact (congrArg BlinkerVars.blinkerActive h).trans hbl
    unfold updateEffects
    simp only [hrf, hpk]
    unfold overlayBlinker
    rw [if_pos hact]
    simp

/-- C28: when `blinkerActive` is true and Park is inactive, after `updateEffects`
every pixel of the headlight buffer is solid white and every pixel of the
taillight buffer is solid red (colour-order converted on LED type 0), except that
in the blink-on phase the half of each strip for the blink direction is yellow:
for a right turn (`blinkerDirection > 0`) headlight indices `>= count / 2` and
taillight indices `< count / 2`, otherwise (left) headlight indices `< count / 2`
and taillight indices `>= count / 2`.  Nothing written earlier in the frame by
the base effects or the braking overlay remains.  The blink phase toggles when
more than 500 ms have passed since the last toggle. -/
theorem blinker_overlay_replaces_frame (lib : FxLib) (s : State) (now : Nat)
    (hbl : s.blinkerActive = true) (hpark : s.parkModeActive = false) :
    (updateEffects lib s now).blinkState = blinkPhase s now ∧
    (∀ i, i < s.headlightLedCount →
      (updateEffects lib s now).headlight.getD i CRGB.Black
        = if blinkPhase s now = true ∧
              (if s.blinkerDirection > 0 then s.headlightLedCount / 2 ≤ i
                else i < s.headlightLedCount / 2) then CRGB.Yellow
          else storedColor CRGB.White s.headlightLedType s.headlightColorOrder) ∧
    (∀ i, i < s.taillightLedCount →
      (updateEffects lib s now).taillight.getD i CRGB.Black
        = if blinkPhase s now = true ∧
              (if s.blinkerDirection > 0 then i < s.taillightLedCount / 2
                else s.taillightLedCount / 2 ≤ i) then CRGB.Yellow
          else storedColor CRGB.Red s.taillightLedType s.taillightColorOrder) := by
  obtain ⟨b, hbv, hcfg, heq⟩ := updateEffects_blinker_frame lib s now hbl hpark
  have hdir : b.blinkerDirection = s.blinkerDirection := congrArg BlinkerVars.blinkerDirection hbv
  have hst : b.blinkState = s.blinkState := congrArg BlinkerVars.blinkState hbv
  have hlt : b.lastBlinkTime = s.lastBlinkTime := congrArg BlinkerVars.lastBlinkTime hbv
  simp only [ledConfig, Prod.mk.injEq] at hcfg
  obtain ⟨c1, c2, c3, c4, c5, c6⟩ := hcfg
  obtain ⟨p1, p2, p3⟩ := showBlinkerEffect_buffers
    { b with
      headlight := fillSolidWithColorOrder b.headlight b.headlightLedCount CRGB.White
        b.headlightLedType b.headlightColorOrder
      taillight := fillSolidWithColorOrder b.taillight b.taillightLedCount CRGB.Red
        b.taillightLedType b.taillightColorOrder } now b.blinkerDirection
  have hph : blinkPhase
      { b with
        headlight := fillSolidWithColorOrder b.headlight b.headlightLedCount CRGB.White
          b.headlightLedType b.headlightColorOrder
        taillight := fillSolidWithColorOrder b.taillight b.taillightLedCount CRGB.Red
          b.taillightLedType b.taillightColorOrder } now = blinkPhase s now := by
    unfold blinkPhase
    show (if usub32 now b.lastBlinkTime > 500 then !b.blinkState else b.blinkState) = _
    rw [hst, hlt]
  rw [heq, p1, p2, p3, hph]
  simp only [hdir, c1, c2, c3, c4, c5, c6]
  refine ⟨trivial, ?_, ?_⟩
  · intro i hi
    obtain ⟨hfill, hlen⟩ := fillSolidWithColorOrder_getD b.headlight s.headlightLedCount
      CRGB.White s.headlightLedType s.headlightColorOrder i hi
    cases hp : blinkPhase s now <;> by_cases hd : s.blinkerDirection > 0 <;>
      simp only [hd, if_true, if_false, Bool.false_eq_true, false_and, true_and,
        setRange_getD _ _ _ _ _ hlen, hfill, hi, and_true, Nat.zero_le]
  · intro i hi
    obtain ⟨hfill, hlen⟩ := fillSolidWithColorOrder_getD b.taillight s.taillightLedCount
      CRGB.Red s.taillightLedType s.taillightColorOrder i hi
    cases hp : blinkPhase s now <;> by_cases hd : s.blinkerDirection > 0 <;>
      simp only [hd, if_true, if_false, Bool.false_eq_true, false_and, true_and,
        setRange_getD _ _ _ _ _ hlen, hfill, hi, and_true, Nat.zero_le]

/-- Witness for C28: the right blinker on two pixels per strip at 600 ms, when
the blink phase turns on: the headlight shows white and yellow, the taillight
yellow and red. -/
theorem blinker_overlay_replaces_frame_witness :
    (updateEffects idleLib blinkingRight 600).blinkState = blinkPhase blinkingRight 600 ∧
    (updateEffects idleLib blinkingRight 600).headlight = [CRGB.White, CRGB.Yellow] ∧
    (updateEffects idleLib blinkingRight 600).taillight = [CRGB.Yellow, CRGB.Red] :=
  ⟨(blinker_overlay_replaces_frame idleLib blinkingRight 600 (by decide) (by decide)).1,
   by decide!, by decide!⟩

/-! ## BLE framing: facts -/

theorem byte_pair_eq (lo hi : Nat) (hlo : lo < 256) : lo ||| (hi <<< 8) = lo + 256 * hi := by
  rw [Nat.shiftLeft_eq, Nat.or_comm, Nat.mul_comm hi]
  have h := Nat.mul_add_lt_is_or (show lo < 2 ^ 8 by simpa using hlo) hi
  simp only [Nat.reducePow] at h ⊢
  omega

theorem low_byte_eq (c : Nat) : c &&& 255 = c % 256 := by
  have h := Nat.and_pow_two_sub_one_eq_mod c 8
  simpa using h

theorem high_byte_eq (c : Nat) : (c >>> 8) &&& 255 = (c / 256) % 256 := by
  rw [low_byte_eq, Nat.shiftRight_eq_div_pow]

theorem le16_roundtrip (c : Nat) (hc : c < 65536) :
    (c &&& 255) ||| (((c >>> 8) &&& 255) <<< 8) = c := by
  rw [byte_pair_eq _ _ (by rw [low_byte_eq]; omega), low_byte_eq, high_byte_eq]
  omega

theorem crc16Bits_lt (n crc : Nat) (h : crc < 65536) : crc16Bits n crc < 65536 := by
  induction n generalizing crc with
  | zero => exact h
  | succ n ih =>
    unfold crc16Bits
    apply ih
    split_ifs <;> exact Nat.mod_lt _ (by norm_num)

theorem crc16_fold_lt (data : List Nat) (init : Nat) (h : init < 65536) :
    data.foldl (fun crc byte => crc16Bits 8 ((crc ^^^ (byte <<< 8)) % 65536)) init < 65536 := by
  induction data generalizing init with
  | nil => exact h
  | cons b rest ih =>
    exact ih _ (crc16Bits_lt 8 _ (Nat.mod_lt _ (by norm_num)))

theorem crc16Ccitt_lt (data : List Nat) : crc16Ccitt data < 65536 :=
  crc16_fold_lt data 65535 (by norm_num)

theorem encodeBleFrame_eq (type seq flags : Nat) (payload : List Nat)
    (hlen : payload.length ≤ 65535) :
    encodeBleFrame type seq flags payload
      = bleFrameBody type seq flags payload
        ++ [crc16Ccitt (bleFrameBody type seq flags payload) &&& 255,
            (crc16Ccitt (bleFrameBody type seq flags payload) >>> 8) &&& 255] := by
  unfold encodeBleFrame bleFrameBody
  have h : payload.length % 65536 = payload.length := Nat.mod_eq_of_lt (by omega)
  simp only [h, List.take_length]

/-- What `tryExtractBleFrame` does with a buffer that holds one frame body
followed by two bytes in the CRC field. -/
theorem tryExtract_body_with_crc (type seq flags : Nat) (payload : List Nat) (c0 c1 : Nat)
    (frame : BleFrame) (hlen : payload.length ≤ 65535) :
    tryExtractBleFrame (bleFrameBody type seq flags payload ++ [c0, c1]) frame
      = if (c0 ||| (c1 <<< 8)) ≠ crc16Ccitt (bleFrameBody type seq flags payload) then
          (false, (bleFrameBody type seq flags payload ++ [c0, c1]).drop 2, frame)
        else
          (true, [], { type := type, seq := seq, flags := flags, payload := payload }) := by
  have hpl : (payload.length &&& 255) ||| (((payload.length >>> 8) &&& 255) <<< 8)
      = payload.length := le16_roundtrip _ (by omega)
  have hbody : (bleFrameBody type seq flags payload).length = 8 + payload.length := by
    unfold bleFrameBody
    simp
    omega
  have hbuf : (bleFrameBody type seq flags payload ++ [c0, c1]).length
      = 8 + payload.length + 2 := by
    rw [List.length_append, hbody]
    rfl
  have hshape : bleFrameBody type seq flags payload ++ [c0, c1]
      = BLE_FRAME_MAGIC0 :: BLE_FRAME_MAGIC1 :: BLE_FRAME_VERSION :: type :: seq :: flags ::
          (payload.length &&& 255) :: ((payload.length >>> 8) &&& 255) ::
          (payload ++ [c0, c1]) := by
    unfold bleFrameBody
    rfl
  have hmagic : findMagic (bleFrameBody type seq flags payload ++ [c0, c1]) = some 0 := by
    rw [hshape]
    unfold findMagic
    simp
  have hc0 : (bleFrameBody type seq flags payload ++ [c0, c1]).getD
      (8 + payload.length + 2 - 2) 0 = c0 := by
    rw [List.getD_append_right _ _ _ _ (by rw [hbody]; omega), hbody]
    simp
  have hc1 : (bleFrameBody type seq flags payload ++ [c0, c1]).getD
      (8 + payload.length + 2 - 1) 0 = c1 := by
    rw [List.getD_append_right _ _ _ _ (by rw [hbody]; omega), hbody]
    have : 8 + payload.length + 2 - 1 - (8 + payload.length) = 1 := by omega
    rw [this]
    rfl
  have htake : (bleFrameBody type seq flags payload ++ [c0, c1]).take
      (8 + payload.length + 2 - 2) = bleFrameBody type seq flags payload := by
    rw [show 8 + payload.length + 2 - 2 = (bleFrameBody type seq flags payload).length by
      rw [hbody]; omega]
    exact List.take_left _ _
  have hdrop : (bleFrameBody type seq flags payload ++ [c0, c1]).drop
      (8 + payload.length + 2) = [] :=
    List.drop_of_length_le (by rw [hbuf])
  have hpay : ((bleFrameBody type seq flags payload ++ [c0, c1]).drop 8).take payload.length
      = payload := by
    rw [hshape]
    simp
  unfold tryExtractBleFrame
  simp only [hmagic, List.drop_zero, hbuf, BLE_FRAME_HEADER_SIZE, BLE_FRAME_CRC_SIZE]
  have g2 : (bleFrameBody type seq flags payload ++ [c0, c1]).getD 2 0 = BLE_FRAME_VERSION := by
    rw [hshape]; rfl
  have g3 : (bleFrameBody type seq flags payload ++ [c0, c1]).getD 3 0 = type := by
    rw [hshape]; rfl
  have g4 : (bleFrameBody type seq flags payload ++ [c0, c1]).getD 4 0 = seq := by
    rw [hshape]; rfl
  have g5 : (bleFrameBody type seq flags payload ++ [c0, c1]).getD 5 0 = flags := by
    rw [hshape]; rfl
  have g6 : (bleFrameBody type seq flags payload ++ [c0, c1]).getD 6 0
      = payload.length &&& 255 := by
    rw [hshape]; rfl
  have g7 : (bleFrameBody type seq flags payload ++ [c0, c1]).getD 7 0
      = (payload.length >>> 8) &&& 255 := by
    rw [hshape]; rfl
  rw [if_neg (by omega)]
  simp only [g2, g3, g4, g5, g6, g7, hpl, ne_eq, not_true_eq_false, if_false, hc0, hc1, htake,
    hdrop, hpay, hbuf]
  rw [if_neg (by omega), if_neg (by omega)]

/-! ## BLE checksum: the shift register, facts -/

theorem crcFeedBit_lt (crc : Nat) (bit : Bool) : crcFeedBit crc bit < 65536 := by
  unfold crcFeedBit
  have h1 : (2 * crc) % 65536 < 2 ^ 16 := Nat.mod_lt _ (by norm_num)
  have h2 : (4129 : Nat) < 2 ^ 16 := by norm_num
  split_ifs
  · exact Nat.xor_lt_two_pow h1 h2
  · exact h1

theorem bitsValue_lt (bs : List Bool) : bitsValue bs < 2 ^ bs.length := by
  induction bs with
  | nil => simp [bitsValue]
  | cons b rest ih =>
    unfold bitsValue
    have h1 : (if b = true then 2 ^ rest.length else 0) < 2 ^ (rest.length + 1) := by
      split_ifs
      · exact Nat.pow_lt_pow_right (by norm_num) (by omega)
      · positivity
    have h2 : bitsValue rest < 2 ^ (rest.length + 1) :=
      lt_trans ih (Nat.pow_lt_pow_right (by norm_num) (by omega))
    simpa using Nat.xor_lt_two_pow h1 h2

theorem shiftLeft_xor (a b i : Nat) : (a ^^^ b) <<< i = (a <<< i) ^^^ (b <<< i) := by
  apply Nat.eq_of_testBit_eq
  intro j
  simp only [Nat.testBit_shiftLeft, Nat.testBit_xor]
  by_cases h : j ≥ i <;> simp [h]

/-- One shift step of `crc16Ccitt` on a register whose top bit has the message
bit added and whose lower bits hold pending message bits `w`: the step of the
shift register, with the pending bits moved up by one. -/
theorem crc_step_pending (c w : Nat) (bit : Bool) (hw : w < 32768) :
    (if (c ^^^ (if bit then 32768 else 0) ^^^ w) &&& 32768 ≠ 0
      then (((c ^^^ (if bit then 32768 else 0) ^^^ w) <<< 1) ^^^ 4129) % 65536
      else ((c ^^^ (if bit then 32768 else 0) ^^^ w) <<< 1) % 65536)
      = crcFeedBit c bit ^^^ (w <<< 1) := by
  have hw15 : ∀ j, 15 ≤ j → w.testBit j = false := fun j hj =>
    Nat.testBit_lt_two_pow (lt_of_lt_of_le hw (by
      calc (32768 : Nat) = 2 ^ 15 := by norm_num
        _ ≤ 2 ^ j := Nat.pow_le_pow_right (by norm_num) hj))
  have ht : ∀ j, (if bit then (32768 : Nat) else 0).testBit j = (bit && decide (j = 15)) := by
    intro j
    cases bit
    · simp
    · have : (32768 : Nat) = 2 ^ 15 := by norm_num
      simp only [if_true, this, Nat.testBit_two_pow, Bool.true_and]
      congr 1
      exact propext eq_comm
  have htop : ((c ^^^ (if bit then 32768 else 0) ^^^ w) &&& 32768 ≠ 0)
      ↔ (c.testBit 15 != bit) = true := by
    have e : (32768 : Nat) = 2 ^ 15 := by norm_num
    rw [e, Nat.and_two_pow, ← e]
    simp only [Nat.testBit_xor, ht, hw15 15 (le_refl _)]
    cases c.testBit 15 <;> cases bit <;> simp
  have h4129 : ∀ j, 16 ≤ j → (4129 : Nat).testBit j = false := fun j hj =>
    Nat.testBit_lt_two_pow (lt_of_lt_of_le (by norm_num : (4129 : Nat) < 2 ^ 16)
      (Nat.pow_le_pow_right (by norm_num) hj))
  have hsh : ((c ^^^ (if bit then 32768 else 0) ^^^ w) <<< 1) % 65536
      = ((2 * c) % 65536) ^^^ (w <<< 1) := by
    apply Nat.eq_of_testBit_eq
    intro i
    have e : (65536 : Nat) = 2 ^ 16 := by norm_num
    rw [e, show 2 * c = c <<< 1 by rw [Nat.shiftLeft_eq]; ring]
    simp only [Nat.testBit_mod_two_pow, Nat.testBit_xor, Nat.testBit_shiftLeft, ht]
    by_cases hi : i < 16
    · by_cases h1 : 1 ≤ i
      · have : ¬ (i - 1 = 15) := by omega
        simp [hi, h1, this]
      · simp [hi, h1]
    · have h1 : 1 ≤ i := by omega
      have := hw15 (i - 1) (by omega)
      simp [hi, h1, this]
  have hsh2 : (((c ^^^ (if bit then 32768 else 0) ^^^ w) <<< 1) ^^^ 4129) % 65536
      = (((2 * c) % 65536) ^^^ 4129) ^^^ (w <<< 1) := by
    apply Nat.eq_of_testBit_eq
    intro i
    have e : (65536 : Nat) = 2 ^ 16 := by norm_num
    rw [e, show 2 * c = c <<< 1 by rw [Nat.shiftLeft_eq]; ring]
    simp only [Nat.testBit_mod_two_pow, Nat.testBit_xor, Nat.testBit_shiftLeft, ht]
    by_cases hi : i < 16
    · by_cases h1 : 1 ≤ i
      · have : ¬ (i - 1 = 15) := by omega
        simp [hi, h1, this]
        cases c.testBit (i - 1) <;> cases w.testBit (i - 1) <;> cases (4129 : Nat).testBit i <;> rfl
      · simp [hi, h1]
    · have h1 : 1 ≤ i := by omega
      have := hw15 (i - 1) (by omega)
      simp [hi, h1, this, h4129 i (by omega)]
  unfold crcFeedBit
  by_cases hc : (c.testBit 15 != bit) = true
  · rw [if_pos (htop.mpr hc), if_pos hc, hsh2]
  · rw [if_neg (fun h => hc (htop.mp h)), if_neg hc, hsh]

/-- The shift steps of `crc16Ccitt` applied to a register with the message bits
added at the top perform the shift register fed with these bits. -/
theorem crc16Bits_eq_feed (bs : List Bool) (c : Nat) (hlen : bs.length ≤ 16) :
    crc16Bits bs.length (c ^^^ (bitsValue bs <<< (16 - bs.length)))
      = bs.foldl crcFeedBit c := by
  induction bs generalizing c with
  | nil => simp [crc16Bits, bitsValue]
  | cons bit rest ih =>
    have hr : rest.length ≤ 15 := by
      simp only [List.length_cons] at hlen
      omega
    have hv := bitsValue_lt rest
    have hw : bitsValue rest <<< (15 - rest.length) < 32768 := by
      rw [Nat.shiftLeft_eq]
      calc bitsValue rest * 2 ^ (15 - rest.length)
          < 2 ^ rest.length * 2 ^ (15 - rest.length) :=
            Nat.mul_lt_mul_of_pos_right hv (by positivity)
        _ = 2 ^ 15 := by rw [← pow_add]; congr 1; omega
        _ = 32768 := by norm_num
    have htop : (if bit = true then 2 ^ rest.length else 0) <<< (15 - rest.length)
        = if bit = true then 32768 else 0 := by
      split_ifs
      · rw [Nat.shiftLeft_eq, ← pow_add]
        have : rest.length + (15 - rest.length) = 15 := by omega
        rw [this]
        norm_num
      · simp
    have hsplit : c ^^^ (bitsValue (bit :: rest) <<< (16 - (bit :: rest).length))
        = c ^^^ (if bit = true then 32768 else 0) ^^^ (bitsValue rest <<< (15 - rest.length)) := by
      have : 16 - (bit :: rest).length = 15 - rest.length := by
        simp only [List.length_cons]
        omega
      have hb : bitsValue (bit :: rest)
          = (if bit = true then 2 ^ rest.length else 0) ^^^ bitsValue rest := rfl
      rw [this, hb, shiftLeft_xor, htop, ← Nat.xor_assoc]
    have hnext : (bitsValue rest <<< (15 - rest.length)) <<< 1
        = bitsValue rest <<< (16 - rest.length) := by
      rw [← Nat.shiftLeft_add]
      congr 1
      omega
    rw [hsplit]
    simp only [List.length_cons, List.foldl_cons]
    unfold crc16Bits
    rw [crc_step_pending c _ bit hw, hnext]
    exact ih (crcFeedBit c bit) (by omega)

theorem bitsValue_byteBits : ∀ b, b < 256 → bitsValue (byteBits b) = b := by
  decide!

/-- One byte of `crc16Ccitt` is the shift register fed with the eight bits of
the byte, most significant first. -/
theorem crc16_byte_eq_feed (c b : Nat) (hc : c < 65536) (hb : b < 256) :
    crc16Bits 8 ((c ^^^ (b <<< 8)) % 65536) = (byteBits b).foldl crcFeedBit c := by
  have hx : c ^^^ (b <<< 8) < 65536 := by
    have h1 : c < 2 ^ 16 := by simpa using hc
    have h2 : b <<< 8 < 2 ^ 16 := by
      rw [Nat.shiftLeft_eq]
      omega
    simpa using Nat.xor_lt_two_pow h1 h2
  rw [Nat.mod_eq_of_lt hx]
  have h := crc16Bits_eq_feed (byteBits b) c (by simp [byteBits])
  rw [bitsValue_byteBits b hb] at h
  exact h

theorem crc16_fold_eq_feed (data : List Nat) (c : Nat) (hc : c < 65536)
    (hd : ∀ b ∈ data, b < 256) :
    data.foldl (fun crc byte => crc16Bits 8 ((crc ^^^ (byte <<< 8)) % 65536)) c
      = (data.flatMap byteBits).foldl crcFeedBit c := by
  induction data generalizing c with
  | nil => rfl
  | cons b rest ih =>
    have hb : b < 256 := hd b (List.mem_cons_self _ _)
    have hfold : ∀ (bs : List Bool) (x : Nat), x < 65536 → bs.foldl crcFeedBit x < 65536 := by
      intro bs
      induction bs with
      | nil => intro x hx; exact hx
      | cons q qs ihq => intro x _; exact ihq _ (crcFeedBit_lt x q)
    simp only [List.foldl_cons, List.flatMap_cons, List.foldl_append]
    rw [crc16_byte_eq_feed c b hc hb]
    exact ih _ (hfold _ c hc) (fun x hx => hd x (List.mem_cons_of_mem _ hx))

/-- The checksum `crc16Ccitt` computes is the CRC-16/CCITT of the byte string. -/
theorem crc16Ccitt_eq_spec (data : List Nat) (hd : ∀ b ∈ data, b < 256) :
    crc16Ccitt data = crc16CcittSpec data :=
  crc16_fold_eq_feed data 65535 (by norm_num) hd

/-- C30: for every type, seq, flags and payload of length 0..65535, the byte
string that `sendBleFrame` builds is the frame body (magic `0xA7 0x1C`, version
1, type, seq, flags, 16-bit little-endian payload length, payload) followed by
the 16-bit little-endian checksum `crc16Ccitt` of that body; placed alone in an
empty receive buffer it makes `tryExtractBleFrame` return true with exactly that
type, seq, flags and payload and leaves the buffer empty; if either byte of the
CRC field is replaced by a different byte, `tryExtractBleFrame` returns false
and leaves the `frame` out-parameter as it was; and the checksum `crc16Ccitt`
computes over any byte string is its CRC-16/CCITT, the shift register with
polynomial `0x1021` started at `0xFFFF` and fed the bytes most significant bit
first (`crc16CcittSpec`), `0xFFFF` for the empty string and the catalogue check
value `0x29B1` for the ASCII bytes of `123456789`. -/
theorem ble_frame_roundtrip_and_crc_check (type seq flags : Nat) (payload : List Nat)
    (frame0 : BleFrame) (hlen : payload.length ≤ 65535) :
    encodeBleFrame type seq flags payload
      = bleFrameBody type seq flags payload
        ++ [crc16Ccitt (bleFrameBody type seq flags payload) &&& 255,
            (crc16Ccitt (bleFrameBody type seq flags payload) >>> 8) &&& 255] ∧
    tryExtractBleFrame (encodeBleFrame type seq flags payload) frame0
      = (true, [], { type := type, seq := seq, flags := flags, payload := payload }) ∧
    (∀ x, x < 256 → x ≠ crc16Ccitt (bleFrameBody type seq flags payload) &&& 255 →
      (tryExtractBleFrame
        (bleFrameBody type seq flags payload
          ++ [x, (crc16Ccitt (bleFrameBody type seq flags payload) >>> 8) &&& 255])
        frame0).1 = false ∧
      (tryExtractBleFrame
        (bleFrameBody type seq flags payload
          ++ [x, (crc16Ccitt (bleFrameBody type seq flags payload) >>> 8) &&& 255])
        frame0).2.2 = frame0) ∧
    (∀ x, x < 256 → x ≠ (crc16Ccitt (bleFrameBody type seq flags payload) >>> 8) &&& 255 →
      (tryExtractBleFrame
        (bleFrameBody type seq flags payload
          ++ [crc16Ccitt (bleFrameBody type seq flags payload) &&& 255, x])
        frame0).1 = false ∧
      (tryExtractBleFrame
        (bleFrameBody type seq flags payload
          ++ [crc16Ccitt (bleFrameBody type seq flags payload) &&& 255, x])
        frame0).2.2 = frame0) ∧
    (∀ data : List Nat, (∀ b ∈ data, b < 256) → crc16Ccitt data = crc16CcittSpec data) ∧
    crc16Ccitt [] = 65535 ∧
    crc16Ccitt crcCheckInput = 10673 ∧
    crc16CcittSpec crcCheckInput = 10673 := by
  have hcrc := crc16Ccitt_lt (bleFrameBody type seq flags payload)
  have hlo : crc16Ccitt (bleFrameBody type seq flags payload) &&& 255 < 256 := by
    rw [low_byte_eq]; omega
  have hsplit : crc16Ccitt (bleFrameBody type seq flags payload)
      = (crc16Ccitt (bleFrameBody type seq flags payload) &&& 255)
        + 256 * ((crc16Ccitt (bleFrameBody type seq flags payload) >>> 8) &&& 255) := by
    have h := le16_roundtrip _ hcrc
    rw [byte_pair_eq _ _ hlo] at h
    exact h.symm
  refine ⟨encodeBleFrame_eq type seq flags payload hlen, ?_, ?_, ?_,
    crc16Ccitt_eq_spec, by decide!, by decide!, by decide!⟩
  · rw [encodeBleFrame_eq type seq flags payload hlen,
      tryExtract_body_with_crc type seq flags payload _ _ frame0 hlen,
      if_neg (by rw [le16_roundtrip _ hcrc]; simp)]
  · intro x hx hne
    rw [tryExtract_body_with_crc type seq flags payload _ _ frame0 hlen,
      if_pos (by rw [byte_pair_eq _ _ hx]; omega)]
    exact ⟨rfl, rfl⟩
  · intro x _ hne
    rw [tryExtract_body_with_crc type seq flags payload _ _ frame0 hlen,
      if_pos (by rw [byte_pair_eq _ _ hlo]; omega)]
    exact ⟨rfl, rfl⟩

set_option maxRecDepth 100000 in
/-- Witness for C30: an acknowledgement-type frame with sequence number 5 and a
three-byte payload. -/
theorem ble_frame_roundtrip_and_crc_check_witness :
    ([1, 2, 3] : List Nat).length ≤ 65535 ∧
    tryExtractBleFrame (encodeBleFrame BLE_MSG_ACK 5 0 [1, 2, 3])
        { type := 0, seq := 0, flags := 0, payload := [] }
      = (true, [], { type := BLE_MSG_ACK, seq := 5, flags := 0, payload := [1, 2, 3] }) :=
  ⟨by decide,
   (ble_frame_roundtrip_and_crc_check BLE_MSG_ACK 5 0 [1, 2, 3]
     { type := 0, seq := 0, flags := 0, payload := [] } (by decide)).2.1⟩

/-! ## Cross-vehicle sync: facts -/

/-- Counterexample to C21 as stated: with only `brakingActive` set, the group
leader transmits a sync packet and records the send time and the synced
state. -/
theorem sync_sent_while_braking :
    ({ leaderState with brakingActive := true } : State).brakingActive = true ∧
    leaderVars.espNowSent = [] ∧
    leaderVars.lastESPNowSend = 0 ∧
    (sendESPNowData { leaderState with brakingActive := true } leaderVars 5000
      true).espNowSent.length = 1 ∧
    (sendESPNowData { leaderState with brakingActive := true } leaderVars 5000
      true).lastESPNowSend = 5000 ∧
    (sendESPNowData { leaderState with brakingActive := true } leaderVars 5000
      true).hasLastSyncState = true := by
  decide!

/-- C21 as amended: whenever `blinkerActive` or `parkModeActive` is true,
`sendESPNowData` transmits no LED sync packet and leaves `lastESPNowSend`,
`lastSyncState` and every other ESP-NOW variable unchanged. -/
theorem sync_suppressed_while_blinker_or_park (s : State) (e : EspNowVars) (now : Nat)
    (sendOk : Bool) (h : s.blinkerActive = true ∨ s.parkModeActive = true) :
    sendESPNowData s e now sendOk = e ∧
    (sendESPNowData s e now sendOk).espNowSent = e.espNowSent ∧
    (sendESPNowData s e now sendOk).lastESPNowSend = e.lastESPNowSend ∧
    (sendESPNowData s e now sendOk).lastSyncState = e.lastSyncState := by
  have heq : sendESPNowData s e now sendOk = e := by
    unfold sendESPNowData
    split_ifs <;> rfl
  rw [heq]
  exact ⟨rfl, rfl, rfl, rfl⟩

/-- Witness for C21 as amended: the group leader with the blinker active sends
nothing at 5000 ms. -/
theorem sync_suppressed_while_blinker_or_park_witness :
    (sendESPNowData { leaderState with blinkerActive := true } leaderVars 5000
      true).espNowSent = leaderVars.espNowSent :=
  (sync_suppressed_while_blinker_or_park { leaderState with blinkerActive := true } leaderVars
    5000 true (Or.inl (by decide))).2.1

/-- The normalisation of the code agrees with the claimed formula as long as the
length ratio in percent fits the `uint8_t` it is stored in. -/
theorem rescaleSpeed_eq_spec_of_small_ratio (speed local_ remote : Nat)
    (hr : (100 * local_) / remote ≤ 255) :
    rescaleSpeed speed local_ remote = rescaleSpeedSpec speed local_ remote := by
  unfold rescaleSpeed rescaleSpeedSpec
  have h1 : (local_ * 100) / remote % 256 = (100 * local_) / remote := by
    rw [Nat.mul_comm local_ 100]
    exact Nat.mod_eq_of_lt (by omega)
  simp only [h1]
  by_cases h : speed * (100 * local_ / remote) / 100 > 255
  · rw [if_pos h, Nat.min_eq_left (by omega)]
  · rw [if_neg h, Nat.min_eq_right (by omega)]
    exact Nat.mod_eq_of_lt (by omega)

/-- C22, the code at the failing input: a follower with 30-pixel strips applies
the leader's packet (speed 100, strip length 10).  The length ratio 300 % does
not fit the `uint8_t` `lengthRatio` and wraps to 44, so the resulting
`effectSpeed` is 44, whereas the claimed formula gives 255. -/
theorem sync_speed_ratio_truncated :
    leaderPacket.length = 30 ∧
    leaderPacket.getD 6 0 = 100 ∧
    leaderPacket.getD 28 0 = 10 ∧
    (espNowReceiveCallback (fun e _ _ => e) followerState {} [1, 2, 3, 4, 5, 6]
      leaderPacket).1.globalBrightness = leaderState.globalBrightness ∧
    (espNowReceiveCallback (fun e _ _ => e) followerState {} [1, 2, 3, 4, 5, 6]
      leaderPacket).1.effectSpeed = 44 ∧
    rescaleSpeed 100 30 10 = 44 ∧
    rescaleSpeedSpec 100 30 10 = 255 := by
  decide!

/-! ## Command interface: numeric settings, facts -/

theorem showBrakingEffect_threshold (lib : FxLib) (s : State) (now : Nat) :
    (showBrakingEffect lib s now).brakingThreshold = s.brakingThreshold := by
  unfold showBrakingEffect setTargetLights
  simp only []
  split_ifs <;> rfl

theorem tunables_of_config (a b : State) (h : SameConfig a b)
    (ht : a.brakingThreshold = b.brakingThreshold) : tunables a = tunables b := by
  obtain ⟨hm, hp, hd, _⟩ := h
  unfold tunables
  rw [show a.motionSensitivity = a.toMotionVars.motionSensitivity from rfl,
    show a.blinkerDelay = a.toMotionVars.blinkerDelay from rfl,
    show a.blinkerTimeout = a.toMotionVars.blinkerTimeout from rfl,
    show a.parkStationaryTime = a.toParkVars.parkStationaryTime from rfl,
    show a.parkAccelNoiseThreshold = a.toParkVars.parkAccelNoiseThreshold from rfl,
    show a.parkGyroNoiseThreshold = a.toParkVars.parkGyroNoiseThreshold from rfl,
    show a.forwardAccelThreshold = a.toDirectionVars.forwardAccelThreshold from rfl,
    hm, hp, hd, ht]

theorem updateEffects_threshold (lib : FxLib) (s : State) (now : Nat) :
    (updateEffects lib s now).brakingThreshold = s.brakingThreshold := by
  unfold updateEffects
  simp only []
  split_ifs
  · rfl
  · exact congrArg BrakingVars.brakingThreshold
      ((showParkEffect_braking lib (tickClocks s now)).trans (tickClocks_braking s now))
  · have h1 := overlayBlinker_braking
      (overlayBraking lib (renderBase lib (tickClocks s now)
        (shouldUpdateEffect s.headlightTiming now s.effectSpeed s.headlightLedCount).1
        (shouldUpdateEffect s.taillightTiming now s.effectSpeed s.taillightLedCount).1) now) now
    have h2 : (overlayBraking lib (renderBase lib (tickClocks s now)
        (shouldUpdateEffect s.headlightTiming now s.effectSpeed s.headlightLedCount).1
        (shouldUpdateEffect s.taillightTiming now s.effectSpeed s.taillightLedCount).1)
        now).brakingThreshold
        = (renderBase lib (tickClocks s now)
          (shouldUpdateEffect s.headlightTiming now s.effectSpeed s.headlightLedCount).1
          (shouldUpdateEffect s.taillightTiming now s.effectSpeed s.taillightLedCount).1
          ).brakingThreshold := by
      unfold overlayBraking
      split_ifs
      · exact showBrakingEffect_threshold lib _ now
      · rfl
    have h3 := (renderBase_braking lib (tickClocks s now)
      (shouldUpdateEffect s.headlightTiming now s.effectSpeed s.headlightLedCount).1
      (shouldUpdateEffect s.taillightTiming now s.effectSpeed s.taillightLedCount).1).trans
      (tickClocks_braking s now)
    exact ((congrArg BrakingVars.brakingThreshold h1).trans h2).trans
      (congrArg BrakingVars.brakingThreshold h3)

theorem resetToNormalEffects_tunables (lib : FxLib) (s : State) (now : Nat) :
    tunables (resetToNormalEffects lib s now) = tunables s := by
  refine tunables_of_config _ _ (resetToNormalEffects_config lib s now) ?_
  unfold resetToNormalEffects
  rw [updateEffects_threshold]

theorem onKey_tunables {α : Type} (v : Option α) (block : State → α → State) (s : State)
    (h : ∀ st a, tunables (block st a) = tunables st) :
    tunables (onKey v block s) = tunables s := by
  cases v with
  | none => rfl
  | some a => exact h s a

theorem apiMotionEnabled_tunables (lib : FxLib) (s : State) (now : Nat) (v : Bool) :
    tunables (apiMotionEnabled lib s now v) = tunables s := by
  unfold apiMotionEnabled
  simp only []
  split_ifs <;> first
    | rfl
    | exact (resetToNormalEffects_tunables lib _ now).trans rfl
    | exact (resetToNormalEffects_tunables lib _ now).trans
        ((resetToNormalEffects_tunables lib _ now).trans rfl)

theorem apiBlinkerEnabled_tunables (lib : FxLib) (s : State) (now : Nat) (v : Bool) :
    tunables (apiBlinkerEnabled lib s now v) = tunables s := by
  unfold apiBlinkerEnabled
  simp only []
  split_ifs <;> first
    | rfl
    | exact (resetToNormalEffects_tunables lib _ now).trans rfl

theorem apiParkModeEnabled_tunables (lib : FxLib) (s : State) (now : Nat) (v : Bool) :
    tunables (apiParkModeEnabled lib s now v) = tunables s := by
  unfold apiParkModeEnabled
  simp only []
  split_ifs <;> first
    | rfl
    | exact (resetToNormalEffects_tunables lib _ now).trans rfl

theorem apiManualBlinker_tunables (lib : FxLib) (s : State) (now : Nat) (m : String) :
    tunables (apiManualBlinker lib s now m) = tunables s := by
  unfold apiManualBlinker
  split_ifs <;> first
    | rfl
    | exact (resetToNormalEffects_tunables lib _ now).trans rfl

theorem apiManualBrake_tunables (lib : FxLib) (s : State) (now : Nat) (m : Bool) :
    tunables (apiManualBrake lib s now m) = tunables s := by
  unfold apiManualBrake
  simp only []
  split_ifs <;> first
    | rfl
    | exact (resetToNormalEffects_tunables lib _ now).trans rfl

theorem apiMotionSettings_tunables (s : State) (doc : ApiDoc) :
    tunables (apiMotionSettings s doc)
      = (doc.motion_sensitivity.getD s.motionSensitivity,
         (doc.blinker_delay.map (· % 65536)).getD s.blinkerDelay,
         (doc.blinker_timeout.map (· % 65536)).getD s.blinkerTimeout,
         s.parkStationaryTime, s.parkAccelNoiseThreshold, s.parkGyroNoiseThreshold,
         s.brakingThreshold, s.forwardAccelThreshold) := by
  unfold apiMotionSettings
  simp only []
  cases doc.impact_detection_enabled <;> cases doc.motion_sensitivity <;>
    cases doc.blinker_delay <;> cases doc.blinker_timeout <;> rfl

theorem apiParkSettings_tunables (s : State) (doc : ApiDoc) :
    tunables (apiParkSettings s doc)
      = (s.motionSensitivity, s.blinkerDelay, s.blinkerTimeout,
         (doc.park_stationary_time.map (· % 65536)).getD s.parkStationaryTime,
         doc.park_accel_noise_threshold.getD s.parkAccelNoiseThreshold,
         doc.park_gyro_noise_threshold.getD s.parkGyroNoiseThreshold,
         s.brakingThreshold, s.forwardAccelThreshold) := by
  unfold apiParkSettings
  simp only []
  iterate 9 rw [onKey_tunables]
  · cases doc.park_detection_angle <;> cases doc.park_stationary_time <;>
      cases doc.park_accel_noise_threshold <;> cases doc.park_gyro_noise_threshold <;> rfl
  all_goals intro _ _; rfl

theorem apiBrakingSettings_tunables (lib : FxLib) (s : State) (now : Nat) (doc : ApiDoc) :
    tunables (apiBrakingSettings lib s now doc)
      = (s.motionSensitivity, s.blinkerDelay, s.blinkerTimeout, s.parkStationaryTime,
         s.parkAccelNoiseThreshold, s.parkGyroNoiseThreshold,
         doc.braking_threshold.getD s.brakingThreshold, s.forwardAccelThreshold) := by
  have hinner : tunables (onKey doc.manualBrake (fun st v => apiManualBrake lib st now v)
      (onKey doc.braking_enabled (fun st v => { st with brakingEnabled := v }) s))
      = tunables s := by
    rw [onKey_tunables _ _ _ (fun st v => apiManualBrake_tunables lib st now v), onKey_tunables]
    intro _ _
    rfl
  unfold apiBrakingSettings
  simp only []
  iterate 2 rw [onKey_tunables]
  · generalize onKey doc.manualBrake (fun st v => apiManualBrake lib st now v)
        (onKey doc.braking_enabled (fun st v => { st with brakingEnabled := v }) s) = si
      at hinner ⊢
    cases doc.braking_threshold with
    | none => exact hinner
    | some v =>
      show tunables { si with brakingThreshold := v } = _
      unfold tunables at hinner ⊢
      simp only [Prod.mk.injEq] at hinner ⊢
      obtain ⟨h1, h2, h3, h4, h5, h6, _, h8⟩ := hinner
      exact ⟨h1, h2, h3, h4, h5, h6, rfl, h8⟩
  all_goals intro _ _; rfl

theorem apiDirectionSettings_tunables (s : State) (doc : ApiDoc) :
    tunables (apiDirectionSettings s doc)
      = (s.motionSensitivity, s.blinkerDelay, s.blinkerTimeout, s.parkStationaryTime,
         s.parkAccelNoiseThreshold, s.parkGyroNoiseThreshold, s.brakingThreshold,
         doc.forward_accel_threshold.getD s.forwardAccelThreshold) := by
  unfold apiDirectionSettings
  simp only []
  cases doc.direction_based_lighting <;> cases doc.headlight_mode <;>
    cases doc.forward_accel_threshold <;> rfl

theorem applyApiJson_tunables (lib : FxLib) (s : State) (now : Nat) (doc : ApiDoc) :
    tunables (applyApiJson lib s now doc)
      = (doc.motion_sensitivity.getD s.motionSensitivity,
         (doc.blinker_delay.map (· % 65536)).getD s.blinkerDelay,
         (doc.blinker_timeout.map (· % 65536)).getD s.blinkerTimeout,
         (doc.park_stationary_time.map (· % 65536)).getD s.parkStationaryTime,
         doc.park_accel_noise_threshold.getD s.parkAccelNoiseThreshold,
         doc.park_gyro_noise_threshold.getD s.parkGyroNoiseThreshold,
         doc.braking_threshold.getD s.brakingThreshold,
         doc.forward_accel_threshold.getD s.forwardAccelThreshold) := by
  have t0 : ∀ st : State, tunables st = (st.motionSensitivity, st.blinkerDelay,
      st.blinkerTimeout, st.parkStationaryTime, st.parkAccelNoiseThreshold,
      st.parkGyroNoiseThreshold, st.brakingThreshold, st.forwardAccelThreshold) := fun _ => rfl
  have h3 : tunables (onKey doc.park_mode_enabled (fun st v => apiParkModeEnabled lib st now v)
      (onKey doc.blinker_enabled (fun st v => apiBlinkerEnabled lib st now v)
        (onKey doc.motion_enabled (fun st v => apiMotionEnabled lib st now v) s)))
      = tunables s := by
    rw [onKey_tunables _ _ _ (fun st v => apiParkModeEnabled_tunables lib st now v),
      onKey_tunables _ _ _ (fun st v => apiBlinkerEnabled_tunables lib st now v),
      onKey_tunables _ _ _ (fun st v => apiMotionEnabled_tunables lib st now v)]
  unfold applyApiJson
  simp only []
  generalize onKey doc.park_mode_enabled (fun st v => apiParkModeEnabled lib st now v)
      (onKey doc.blinker_enabled (fun st v => apiBlinkerEnabled lib st now v)
        (onKey doc.motion_enabled (fun st v => apiMotionEnabled lib st now v) s)) = s3 at h3 ⊢
  have h4 := apiMotionSettings_tunables s3 doc
  generalize apiMotionSettings s3 doc = s4 at h4 ⊢
  have h5 : tunables (onKey doc.manualBlinker (fun st v => apiManualBlinker lib st now v) s4)
      = tunables s4 :=
    onKey_tunables _ _ _ (fun st v => apiManualBlinker_tunables lib st now v)
  generalize onKey doc.manualBlinker (fun st v => apiManualBlinker lib st now v) s4 = s5
    at h5 ⊢
  have h6 := apiParkSettings_tunables s5 doc
  generalize apiParkSettings s5 doc = s6 at h6 ⊢
  have h7 := apiBrakingSettings_tunables lib s6 now doc
  generalize apiBrakingSettings lib s6 now doc = s7 at h7 ⊢
  have h8 := apiDirectionSettings_tunables s7 doc
  rw [h8]
  rw [t0 s7] at h7
  rw [t0 s6] at h6
  rw [h4, t0 s5] at h5
  rw [t0 s3, t0 s] at h3
  simp only [Prod.mk.injEq] at h3 h5 h6 h7 ⊢
  obtain ⟨a1, a2, a3, a4, a5, a6, a7, a8⟩ := h3
  obtain ⟨c1, c2, c3, c4, c5, c6, c7, c8⟩ := h5
  obtain ⟨d1, d2, d3, d4, d5, d6, d7, d8⟩ := h6
  obtain ⟨e1, e2, e3, e4, e5, e6, e7, e8⟩ := h7
  refine ⟨?_, ?_, ?_, ?_, ?_, ?_, ?_, ?_⟩
  · rw [e1, d1, c1, a1]
  · rw [e2, d2, c2, a2]
  · rw [e3, d3, c3, a3]
  · rw [e4, d4, c4, a4]
  · rw [e5, d5, c5, a5]
  · rw [e6, d6, c6, a6]
  · rw [e7, d7, c7, a7]
  · rw [e8, d8, c8, a8]

/-- C23, the code at the failing input: `applyApiJson` stores out-of-range
values verbatim.  From the initial configuration (`motionSensitivity = 1`) the
command stores `motion_sensitivity = 5`, outside the range 0.5 to 2.0 that the
declaration of `motionSensitivity` documents, a positive `braking_threshold`, and
negative direction and park noise thresholds. -/
theorem out_of_range_settings_stored_verbatim :
    initialState.motionSensitivity = 1 ∧
    (applyApiJson idleLib initialState 1000 outOfRangeDoc).motionSensitivity = 5 ∧
    (applyApiJson idleLib initialState 1000 outOfRangeDoc).brakingThreshold = 1 / 2 ∧
    (applyApiJson idleLib initialState 1000 outOfRangeDoc).forwardAccelThreshold = -1 ∧
    (applyApiJson idleLib initialState 1000 outOfRangeDoc).parkAccelNoiseThreshold = -1 ∧
    (applyApiJson idleLib initialState 1000 outOfRangeDoc).parkGyroNoiseThreshold = -3 := by
  decide!

/-- The motion-control section of `applyApiJson` applies no bounds: after it,
each of `motionSensitivity`, `brakingThreshold`, `forwardAccelThreshold`,
`parkAccelNoiseThreshold` and `parkGyroNoiseThreshold` holds the supplied value,
whatever it is, when its key is present and its previous value otherwise;
`blinkerDelay`, `blinkerTimeout` and `parkStationaryTime` hold the supplied value
reduced to the `uint16_t` range when the key is present and the previous value
otherwise. -/
theorem numeric_settings_stored_as_supplied (lib : FxLib) (s : State) (now : Nat)
    (doc : ApiDoc) :
    (applyApiJson lib s now doc).motionSensitivity
      = doc.motion_sensitivity.getD s.motionSensitivity ∧
    (applyApiJson lib s now doc).brakingThreshold
      = doc.braking_threshold.getD s.brakingThreshold ∧
    (applyApiJson lib s now doc).forwardAccelThreshold
      = doc.forward_accel_threshold.getD s.forwardAccelThreshold ∧
    (applyApiJson lib s now doc).parkAccelNoiseThreshold
      = doc.park_accel_noise_threshold.getD s.parkAccelNoiseThreshold ∧
    (applyApiJson lib s now doc).parkGyroNoiseThreshold
      = doc.park_gyro_noise_threshold.getD s.parkGyroNoiseThreshold ∧
    (applyApiJson lib s now doc).blinkerDelay
      = (doc.blinker_delay.map (· % 65536)).getD s.blinkerDelay ∧
    (applyApiJson lib s now doc).blinkerTimeout
      = (doc.blinker_timeout.map (· % 65536)).getD s.blinkerTimeout ∧
    (applyApiJson lib s now doc).parkStationaryTime
      = (doc.park_stationary_time.map (· % 65536)).getD s.parkStationaryTime := by
  have h := applyApiJson_tunables lib s now doc
  unfold tunables at h
  simp only [Prod.mk.injEq] at h
  obtain ⟨h1, h2, h3, h4, h5, h6, h7, h8⟩ := h
  exact ⟨h1, h7, h8, h5, h6, h2, h3, h4⟩

/-! ## Command interface: disabling a controller -/

theorem parkFlags_of_config (a b : State) (h : SameConfig a b) : parkFlags a = parkFlags b := by
  obtain ⟨hm, hp, _, _⟩ := h
  unfold parkFlags
  rw [show a.parkModeEnabled = a.toMotionVars.parkModeEnabled from rfl,
    show a.parkModeActive = a.toParkVars.parkModeActive from rfl, hm, hp]

theorem resetToNormalEffects_parkFlags (lib : FxLib) (s : State) (now : Nat) :
    parkFlags (resetToNormalEffects lib s now) = parkFlags s :=
  parkFlags_of_config _ _ (resetToNormalEffects_config lib s now)

theorem resetToNormalEffects_blinkerEnabled (lib : FxLib) (s : State) (now : Nat) :
    (resetToNormalEffects lib s now).blinkerEnabled = s.blinkerEnabled :=
  congrArg MotionVars.blinkerEnabled (resetToNormalEffects_config lib s now).1

theorem onKey_parkFlags {α : Type} (v : Option α) (block : State → α → State) (s : State)
    (h : ∀ st a, parkFlags (block st a) = parkFlags st) :
    parkFlags (onKey v block s) = parkFlags s := by
  cases v with
  | none => rfl
  | some a => exact h s a

theorem apiMotionEnabled_enabled (lib : FxLib) (s : State) (now : Nat) (v : Bool) :
    (apiMotionEnabled lib s now v).blinkerEnabled = s.blinkerEnabled ∧
    (apiMotionEnabled lib s now v).parkModeEnabled = s.parkModeEnabled := by
  have hr : ∀ st : State, (resetToNormalEffects lib st now).blinkerEnabled = st.blinkerEnabled ∧
      (resetToNormalEffects lib st now).parkModeEnabled = st.parkModeEnabled := fun st =>
    ⟨congrArg MotionVars.blinkerEnabled (resetToNormalEffects_config lib st now).1,
     congrArg MotionVars.parkModeEnabled (resetToNormalEffects_config lib st now).1⟩
  unfold apiMotionEnabled
  simp only []
  split_ifs <;> simp [hr]

theorem apiBlinkerEnabled_off (lib : FxLib) (s : State) (now : Nat)
    (hen : s.blinkerEnabled = true) :
    (apiBlinkerEnabled lib s now false).blinkerActive = false := by
  unfold apiBlinkerEnabled
  simp only [hen, true_and]
  cases ha : s.blinkerActive with
  | false => simp [ha]
  | true =>
    simp only [if_true]
    have h := resetToNormalEffects_blinkerFlags lib
      { s with blinkerActive := false, blinkerStartTime := 0, manualBlinkerActive := false } now
    unfold blinkerFlags at h
    simp only [Prod.mk.injEq] at h
    exact h.2.1

theorem apiBlinkerEnabled_parkFlags (lib : FxLib) (s : State) (now : Nat) (v : Bool) :
    parkFlags (apiBlinkerEnabled lib s now v) = parkFlags s := by
  unfold apiBlinkerEnabled
  simp only []
  split_ifs <;> first
    | rfl
    | exact (resetToNormalEffects_parkFlags lib _ now).trans rfl

theorem apiParkModeEnabled_off (lib : FxLib) (s : State) (now : Nat)
    (hen : s.parkModeEnabled = true) :
    (apiParkModeEnabled lib s now false).parkModeActive = false := by
  unfold apiParkModeEnabled
  simp only [hen, true_and]
  cases ha : s.parkModeActive with
  | false => simp [ha]
  | true =>
    simp only [if_true]
    have h := resetToNormalEffects_parkFlags lib
      { s with parkModeActive := false, parkStartTime := 0 } now
    unfold parkFlags at h
    simp only [Prod.mk.injEq] at h
    exact h.2

theorem apiManualBlinker_parkFlags (lib : FxLib) (s : State) (now : Nat) (m : String) :
    parkFlags (apiManualBlinker lib s now m) = parkFlags s := by
  unfold apiManualBlinker
  split_ifs <;> first
    | rfl
    | exact (resetToNormalEffects_parkFlags lib _ now).trans rfl

theorem apiManualBrake_parkFlags (lib : FxLib) (s : State) (now : Nat) (m : Bool) :
    parkFlags (apiManualBrake lib s now m) = parkFlags s := by
  unfold apiManualBrake
  simp only []
  split_ifs <;> first
    | rfl
    | exact (resetToNormalEffects_parkFlags lib _ now).trans rfl

theorem later_blocks_parkFlags (lib : FxLib) (s : State) (now : Nat) (doc : ApiDoc) :
    parkFlags (apiDirectionSettings (apiBrakingSettings lib (apiParkSettings
      (onKey doc.manualBlinker (fun st v => apiManualBlinker lib st now v)
        (apiMotionSettings s doc)) doc) now doc) doc) = parkFlags s := by
  unfold apiDirectionSettings apiBrakingSettings apiParkSettings apiMotionSettings
  simp only []
  iterate 3 rw [onKey_parkFlags]
  iterate 3 rw [onKey_parkFlags]
  rw [onKey_parkFlags _ _ _ (fun st v => apiManualBrake_parkFlags lib st now v)]
  iterate 14 rw [onKey_parkFlags]
  rw [onKey_parkFlags _ _ _ (fun st v => apiManualBlinker_parkFlags lib st now v)]
  iterate 4 rw [onKey_parkFlags]
  all_goals intro _ _; rfl

theorem later_blocks_blinkerActive (lib : FxLib) (s : State) (now : Nat) (doc : ApiDoc)
    (hoff : s.blinkerActive = false)
    (hman : ∀ m, doc.manualBlinker = some m → m ≠ "left" ∧ m ≠ "right") :
    (apiDirectionSettings (apiBrakingSettings lib (apiParkSettings
      (onKey doc.manualBlinker (fun st v => apiManualBlinker lib st now v)
        (apiMotionSettings s doc)) doc) now doc) doc).blinkerActive = false := by
  have h4 := apiMotionSettings_blinkerFlags s doc
  have h5 : (onKey doc.manualBlinker (fun st v => apiManualBlinker lib st now v)
      (apiMotionSettings s doc)).blinkerActive = false := by
    have hb : (apiMotionSettings s doc).blinkerActive = false := by
      unfold blinkerFlags at h4
      simp only [Prod.mk.injEq] at h4
      rw [h4.2.1, hoff]
    cases hm : doc.manualBlinker with
    | none => exact hb
    | some m =>
      obtain ⟨hl, hr⟩ := hman m hm
      show (apiManualBlinker lib (apiMotionSettings s doc) now m).blinkerActive = false
      unfold apiManualBlinker
      rw [if_neg (by simp [hl, hr])]
      split_ifs
      · have h := resetToNormalEffects_blinkerFlags lib
          { apiMotionSettings s doc with
            manualBlinkerActive := false, blinkerActive := false, blinkerDirection := 0
            blinkerStartTime := 0 } now
        unfold blinkerFlags at h
        simp only [Prod.mk.injEq] at h
        exact h.2.1
      · exact hb
  have h8 := (apiDirectionSettings_blinkerFlags (apiBrakingSettings lib (apiParkSettings
      (onKey doc.manualBlinker (fun st v => apiManualBlinker lib st now v)
        (apiMotionSettings s doc)) doc) now doc) doc).trans
    ((apiBrakingSettings_blinkerFlags lib _ now doc).trans (apiParkSettings_blinkerFlags _ doc))
  unfold blinkerFlags at h8
  simp only [Prod.mk.injEq] at h8
  rw [h8.2.1, h5]

/-- C24 as stated fails for three of the situations it covers: a command that
sets `braking_enabled` to false while `brakingActive` is true leaves
`brakingActive` true; a command that sets `direction_based_lighting` to false
while a direction change is pending leaves `directionChangePending` true; and a
command that sets `blinker_enabled` to false together with
`manualBlinker = "left"` leaves `blinkerActive` true. -/
theorem disabling_braking_or_direction_leaves_activation :
    (brakingOn.brakingEnabled = true ∧ brakingOn.brakingActive = true ∧
      (applyApiJson idleLib brakingOn 2000 { braking_enabled := some false }).brakingEnabled
        = false ∧
      (applyApiJson idleLib brakingOn 2000 { braking_enabled := some false }).brakingActive
        = true) ∧
    (fadePending.directionBasedLighting = true ∧ fadePending.directionChangePending = true ∧
      (applyApiJson idleLib fadePending 2000
        { direction_based_lighting := some false }).directionBasedLighting = false ∧
      (applyApiJson idleLib fadePending 2000
        { direction_based_lighting := some false }).directionChangePending = true) ∧
    (manualRight.blinkerEnabled = true ∧ manualRight.blinkerActive = true ∧
      (applyApiJson idleLib manualRight 2000
        { blinker_enabled := some false, manualBlinker := some "left" }).blinkerEnabled
        = false ∧
      (applyApiJson idleLib manualRight 2000
        { blinker_enabled := some false, manualBlinker := some "left" }).blinkerActive
        = true) := by
  decide!

/-- C24 as amended: for the blinker and park controllers, a command that sets
the enabled flag from true to false ends with the activation flag false. If
`blinkerEnabled` is true before the call, the command carries
`blinker_enabled = false` and no `manualBlinker` of "left" or "right", then
`blinkerActive` is false after the call; if `parkModeEnabled` is true before the
call and the command carries `park_mode_enabled = false`, then `parkModeActive`
is false after the call. -/
theorem disabling_blinker_or_park_deactivates (lib : FxLib) (s : State) (now : Nat)
    (doc : ApiDoc) :
    (s.blinkerEnabled = true → doc.blinker_enabled = some false →
      (∀ m, doc.manualBlinker = some m → m ≠ "left" ∧ m ≠ "right") →
      (applyApiJson lib s now doc).blinkerActive = false) ∧
    (s.parkModeEnabled = true → doc.park_mode_enabled = some false →
      (applyApiJson lib s now doc).parkModeActive = false) := by
  have h1 : (onKey doc.motion_enabled (fun st v => apiMotionEnabled lib st now v) s).blinkerEnabled
        = s.blinkerEnabled ∧
      (onKey doc.motion_enabled (fun st v => apiMotionEnabled lib st now v) s).parkModeEnabled
        = s.parkModeEnabled := by
    cases doc.motion_enabled with
    | none => exact ⟨rfl, rfl⟩
    | some v => exact apiMotionEnabled_enabled lib s now v
  constructor
  · intro hen hdoc hman
    unfold applyApiJson
    simp only [hdoc]
    generalize onKey doc.motion_enabled (fun st v => apiMotionEnabled lib st now v) s = s1
      at h1 ⊢
    have h2 : (onKey (some false) (fun st v => apiBlinkerEnabled lib st now v) s1).blinkerActive
        = false := apiBlinkerEnabled_off lib s1 now (h1.1.trans hen)
    generalize onKey (some false) (fun st v => apiBlinkerEnabled lib st now v) s1 = s2 at h2 ⊢
    have h3 : (onKey doc.park_mode_enabled (fun st v => apiParkModeEnabled lib st now v)
        s2).blinkerActive = false := by
      have h := onKey_blinkerFlags doc.park_mode_enabled
        (fun st v => apiParkModeEnabled lib st now v) s2
        (fun st v => apiParkModeEnabled_blinkerFlags lib st now v)
      unfold blinkerFlags at h
      simp only [Prod.mk.injEq] at h
      rw [h.2.1, h2]
    exact later_blocks_blinkerActive lib _ now doc h3 hman
  · intro hen hdoc
    unfold applyApiJson
    simp only [hdoc]
    generalize onKey doc.motion_enabled (fun st v => apiMotionEnabled lib st now v) s = s1
      at h1 ⊢
    have h2 : (onKey doc.blinker_enabled (fun st v => apiBlinkerEnabled lib st now v)
        s1).parkModeEnabled = true := by
      have h := onKey_parkFlags doc.blinker_enabled
        (fun st v => apiBlinkerEnabled lib st now v) s1
        (fun st v => apiBlinkerEnabled_parkFlags lib st now v)
      unfold parkFlags at h
      simp only [Prod.mk.injEq] at h
      rw [h.1, h1.2, hen]
    generalize onKey doc.blinker_enabled (fun st v => apiBlinkerEnabled lib st now v) s1 = s2
      at h2 ⊢
    have h3 : (onKey (some false) (fun st v => apiParkModeEnabled lib st now v)
        s2).parkModeActive = false := apiParkModeEnabled_off lib s2 now h2
    generalize onKey (some false) (fun st v => apiParkModeEnabled lib st now v) s2 = s3
      at h3 ⊢
    have h := later_blocks_parkFlags lib s3 now doc
    unfold parkFlags at h
    simp only [Prod.mk.injEq] at h
    rw [h.2, h3]

theorem disabling_blinker_or_park_deactivates_witness :
    (manualRight.blinkerEnabled = true ∧
      (applyApiJson idleLib manualRight 2000
        { blinker_enabled := some false, manualBlinker := some "off" }).blinkerActive = false) ∧
    (parkedPolice.parkModeEnabled = true ∧ parkedPolice.parkModeActive = true ∧
      (applyApiJson idleLib parkedPolice 2000
        { park_mode_enabled := some false }).parkModeActive = false) :=
  ⟨⟨by decide!,
    (disabling_blinker_or_park_deactivates idleLib manualRight 2000
      { blinker_enabled := some false, manualBlinker := some "off" }).1 (by decide!) rfl
      (fun m hm => by
        have e : m = "off" := (Option.some.inj hm).symm
        subst e
        exact ⟨by decide, by decide⟩)⟩,
   ⟨by decide!, by decide!,
    (disabling_blinker_or_park_deactivates idleLib parkedPolice 2000
      { park_mode_enabled := some false }).2 (by decide!) rfl⟩⟩

/-! ## Park overlay: animation speed and effect coverage -/

theorem showParkEffect_effectSpeed (lib : FxLib) (s : State) :
    (showParkEffect lib s).effectSpeed = s.effectSpeed := by
  unfold showParkEffect
  simp only []
  split_ifs <;> rfl

theorem showParkEffect_rendered_case (lib : FxLib) (s : State)
    (h : s.parkEffect ∈ parkEffectCases) (hs : s.parkEffect ≠ FX_SOLID) :
    (showParkEffect lib s).headlight
      = applyColorOrderToArray
          (renderEffect lib s.parkEffect s.fxHidden s.headlight s.headlightLedCount
            s.parkHeadlightColor s.headlightTiming.step (getEffectBackgroundColor s)).2
          s.headlightLedCount s.headlightLedType s.headlightColorOrder := by
  unfold showParkEffect
  simp only [if_neg hs, if_pos h]
  rfl

theorem showParkEffect_rainbow_wipe (lib : FxLib) (s : State)
    (h : s.parkEffect = FX_RAINBOW_WIPE) :
    (showParkEffect lib s).headlight
        = applyColorOrderToArray s.headlight s.headlightLedCount s.headlightLedType
            s.headlightColorOrder ∧
    (showParkEffect lib s).taillight
        = applyColorOrderToArray s.taillight s.taillightLedCount s.taillightLedType
            s.taillightColorOrder ∧
    (showParkEffect lib s).fxHidden = s.fxHidden := by
  unfold showParkEffect
  simp only [h]
  rw [if_neg (by decide), if_neg (by decide)]
  exact ⟨rfl, rfl, rfl⟩

/-- C25: the park animation advances with the base `effectSpeed`, not with
`parkEffectSpeed`. Two parked states that differ only in the base `effectSpeed`
(0 and 255), both with `parkEffectSpeed = 64` (increment 208 per fired tick),
police pattern and step 9, give different frames in the composer frame at
100 ms: the step stays 9 in one and becomes 17 in the other, neither being the
11 that `parkEffectSpeed` would give. `effectSpeed` itself is unchanged. -/
theorem park_animation_follows_base_speed :
    parkedSlowBase.parkEffectSpeed = 64 ∧ parkedFastBase.parkEffectSpeed = 64 ∧
    stepIncrementOf 64 = 208 ∧
    (updateEffects idleLib parkedSlowBase 100).headlightTiming.step = 9 ∧
    (updateEffects idleLib parkedFastBase 100).headlightTiming.step = 17 ∧
    (updateEffects idleLib parkedSlowBase 100).headlight = [CRGB.Red, CRGB.Blue] ∧
    (updateEffects idleLib parkedFastBase 100).headlight = [CRGB.Blue, CRGB.Red] ∧
    (updateEffects idleLib parkedSlowBase 100).effectSpeed = 0 ∧
    (updateEffects idleLib parkedFastBase 100).effectSpeed = 255 := by
  decide!

/-- C26: `showParkEffect` has no case for `FX_RAINBOW_WIPE` (23), which
`applyEffectToArray` renders. With `parkEffect = FX_RAINBOW_WIPE`, blue park
colours and red pixels left in both GRB buffers, `applyEffectToArray` paints the
buffer with the renderer (blue, converted once), while `showParkEffect` calls no
renderer and applies the colour-order conversion to the old red pixels. -/
theorem park_rainbow_wipe_not_rendered :
    FX_RAINBOW_WIPE ∈ applyEffectCases ∧ FX_RAINBOW_WIPE ∉ parkEffectCases ∧
    (applyEffectToArray paintLib parkedRainbowWipe parkedRainbowWipe.headlight 2
      FX_RAINBOW_WIPE CRGB.Blue parkedRainbowWipe.headlightTiming 0 1 CRGB.Black false).2
      = [CRGB.Blue, CRGB.Blue] ∧
    (showParkEffect paintLib parkedRainbowWipe).headlight
      = [(⟨0, 255, 0⟩ : CRGB), ⟨0, 255, 0⟩] ∧
    (showParkEffect paintLib parkedRainbowWipe).taillight
      = [(⟨0, 255, 0⟩ : CRGB), ⟨0, 255, 0⟩] := by
  decide!

end Arklights
